import Mathlib

/-!
RaspiStill: capture pipeline controller.

A shallow embedding of `host_applications/linux/apps/raspicam/RaspiStill.c`.

The program drives the MMAL library.  The MMAL, VCOS and libc calls are not part
of the program; each such call is recorded as an `Event` in a trace and its
result is read from a `World` record of outcomes.  Every function of the program
is a total, computable Lean function from its arguments and the outcomes of its
calls to its result, its state updates and its trace.

C `int` values are `Int`; where the code can leave the `int` range (the counter of
the capture loop, the division `INT_MIN / -1`) the overflow is a fault of the run.
`MMAL_STATUS_T` is an `Int` with `MMAL_SUCCESS = 0`; pointers are `Option` (or
`Bool` when only nullness matters).
-/

namespace RaspiStill

/-! ## Basic types -/

/-- Status code of an MMAL call (`MMAL_STATUS_T`); `MMAL_SUCCESS` is `0`. -/
abbrev MMAL_STATUS_T := Int

/-- Success status of an MMAL call. -/
def MMAL_SUCCESS : MMAL_STATUS_T := 0

/-- The three components of the pipeline. -/
inductive Component where
  | camera
  | preview
  | encoder
  deriving DecidableEq, Repr

/-- The ports that the program uses. -/
inductive Port where
  | camera_preview_port
  | camera_video_port
  | camera_still_port
  | preview_input_port
  | encoder_input_port
  | encoder_output_port
  | camera_control_port
  | encoder_control_port
  deriving DecidableEq, Repr

/-- The two connection fields of `RASPISTILL_STATE`. -/
inductive ConnSlot where
  | preview_connection
  | encoder_connection
  deriving DecidableEq, Repr

/-- What a connection field points at: `null` (never assigned), a connection that is
created but not enabled, an enabled connection, or a destroyed one (dangling). -/
inductive ConnState where
  | null
  | created
  | enabled
  | destroyed
  deriving DecidableEq, Repr

/-- A `FILE *` that is not NULL: `stdout`, or a stream returned by `fopen`. -/
inductive FILE where
  | stdout
  | opened (id : Nat)
  deriving DecidableEq, Repr

/-- Identity of a buffer header of the encoder pool. -/
abbrev Buf := Nat

/-- Calls made by the program, in the order they are made. -/
inductive Event where
  | log_error (msg : String)
  | diag (msg : String)
  | component_create (c : Component)
  | component_enable (c : Component)
  | component_disable (c : Component)
  | component_destroy (c : Component)
  | preview_create
  | preview_destroy
  | pool_create (num size : Nat)
  | pool_destroy
  | format_commit (p : Port)
  | parameter_set (name : String)
  | connection_create (slot : ConnSlot) (output input : Port)
  | connection_enable (slot : ConnSlot)
  | connection_destroy (slot : ConnSlot)
  | port_enable (p : Port)
  | port_disable (p : Port)
  | semaphore_create
  | semaphore_wait
  | semaphore_post
  | semaphore_delete
  | sleep (ms : Int)
  | cycle_test
  | fopen (name : String) (frame : Int)
  | fclose (id : Nat)
  | exif_set (tag : String)
  | set_file_handle (h : Option FILE)
  | queue_length
  | queue_get (result : Option Buf)
  | send_buffer (b : Option Buf) (status : MMAL_STATUS_T)
  | capture (frame : Int) (status : MMAL_STATUS_T)
  | mem_lock (b : Buf)
  | fwrite (b : Buf) (len : Nat) (h : FILE)
  | mem_unlock (b : Buf)
  | release (b : Buf)
  | status_to_int (status : MMAL_STATUS_T)
  | check_configuration (min_gpu_mem : Int)
  deriving DecidableEq, Repr

/-! ## connect_ports -/

/-- Outcomes of the three MMAL connection calls, per connection field. -/
structure ConnWorld where
  connection_create : ConnSlot → MMAL_STATUS_T
  connection_enable : ConnSlot → MMAL_STATUS_T
  connection_destroy : ConnSlot → MMAL_STATUS_T

/-- Result of `connect_ports`: the returned status, what the connection field points at
afterwards, and the calls made. -/
structure ConnResult where
  status : MMAL_STATUS_T
  connection : ConnState
  trace : List Event
  deriving DecidableEq, Repr

/-- `connect_ports(output_port, input_port, connection)`.
`mmal_connection_create` assigns `*connection` only when it succeeds; `old` is the
value of the field on entry. -/
def connect_ports (w : ConnWorld) (output_port input_port : Port) (slot : ConnSlot)
    (old : ConnState) : ConnResult :=
  let status := w.connection_create slot
  let t₁ := [Event.connection_create slot output_port input_port]
  if status = MMAL_SUCCESS then
    let status := w.connection_enable slot
    let t₂ := t₁ ++ [Event.connection_enable slot]
    if status ≠ MMAL_SUCCESS then
      let status := w.connection_destroy slot
      ⟨status, ConnState.destroyed, t₂ ++ [Event.connection_destroy slot]⟩
    else
      ⟨status, ConnState.enabled, t₂⟩
  else
    ⟨status, old, t₁⟩

/-! ## encoder_buffer_callback -/

/-- The fields of `PORT_USERDATA` that the callback reads.  `pstate` is set by `main` to
the address of its state and is not NULL; the queue of `pstate->encoder_pool` is reached
through it. -/
structure PORT_USERDATA where
  file_handle : Option FILE
  deriving DecidableEq, Repr

/-- What one invocation of `encoder_buffer_callback(port, buffer)` reads: the two flag
masks of the MMAL headers, `port->userdata`, `port->is_enabled`, the identity, `length`
and `flags` of `buffer`, the result of `mmal_queue_get` (NULL when the queue is empty)
and the status of `mmal_port_send_buffer`. -/
structure CallbackArgs where
  FLAG_FRAME_END : Nat
  FLAG_TRANSMISSION_FAILED : Nat
  userdata : Option PORT_USERDATA
  is_enabled : Bool
  buffer : Buf
  length : Nat
  flags : Nat
  new_buffer : Option Buf
  send_status : MMAL_STATUS_T
  deriving DecidableEq, Repr

/-- Calls made by one invocation of the callback, and whether it dereferenced NULL
(the trace then ends where the fault happens). -/
structure CallbackResult where
  trace : List Event
  faulted : Bool
  deriving DecidableEq, Repr

/-- The tail of the callback: `if (complete) vcos_semaphore_post(...)`. -/
def callback_finish (t : List Event) (complete : Bool) : CallbackResult :=
  if complete then ⟨t ++ [Event.semaphore_post], false⟩ else ⟨t, false⟩

/-- `encoder_buffer_callback(port, buffer)`. -/
def encoder_buffer_callback (a : CallbackArgs) : CallbackResult :=
  let first : List Event × Bool :=
    match a.userdata with
    | some pData =>
      let written : List Event :=
        match pData.file_handle with
        | some h =>
          if a.length ≠ 0 then
            [Event.mem_lock a.buffer, Event.fwrite a.buffer a.length h, Event.mem_unlock a.buffer]
          else []
        | none => []
      (written,
        decide (a.flags &&& (a.FLAG_FRAME_END ||| a.FLAG_TRANSMISSION_FAILED) ≠ 0))
    | none => ([Event.log_error "Received a encoder buffer callback with no state"], false)
  let complete := first.2
  let t := first.1 ++ [Event.release a.buffer]
  if a.is_enabled then
    match a.userdata with
    | none => ⟨t, true⟩
    | some _ =>
      let t := t ++ [Event.queue_get a.new_buffer]
      let t :=
        match a.new_buffer with
        | some nb => t ++ [Event.send_buffer (some nb) a.send_status]
        | none => t
      let t :=
        if a.new_buffer = none ∨ a.send_status ≠ MMAL_SUCCESS then
          t ++ [Event.log_error "Unable to return a buffer to the encoder port"]
        else t
      callback_finish t complete
  else
    callback_finish t complete

/-! ## The drain loop of main -/

/-- Body of the loop `for (q=0;q<num;q++)` of `main` that sends the pool buffers to the
encoder output port, from iteration `q` on, `n` iterations remaining: `get q` is the
result of `mmal_queue_get` and `send q` the status of `mmal_port_send_buffer` in
iteration `q`. -/
def feed_loop (get : Nat → Option Buf) (send : Nat → MMAL_STATUS_T) : Nat → Nat → List Event
  | 0, _ => []
  | n + 1, q =>
    [Event.queue_get (get q)]
      ++ (if get q = none then
            [Event.log_error "Unable to get a required buffer from pool queue"] else [])
      ++ [Event.send_buffer (get q) (send q)]
      ++ (if send q ≠ MMAL_SUCCESS then
            [Event.log_error "Unable to send a buffer to encoder output port"] else [])
      ++ feed_loop get send n (q + 1)

/-- The drain loop: `num = mmal_queue_length(queue)`, then `num` iterations from `q = 0`. -/
def feed_pool (num : Nat) (get : Nat → Option Buf) (send : Nat → MMAL_STATUS_T) : List Event :=
  Event.queue_length :: feed_loop get send num 0

/-! ## The buffer pool under the calls of the program -/

/-- Where the buffers of the encoder pool are: idle in the pool queue (FIFO, head first),
in flight on the port, held by the callback, or taken from the queue by
`mmal_queue_get` and not accepted by the port.  The program keeps no reference to a
buffer of `taken` once the function that took it has returned. -/
structure PoolState where
  queue : List Buf
  inflight : List Buf
  held : List Buf
  taken : List Buf
  deriving DecidableEq, Repr

/-- The pool as `mmal_port_pool_create` leaves it: `n` buffers, all idle in the queue. -/
def PoolState.init (n : Nat) : PoolState := ⟨List.range n, [], [], []⟩

/-- All buffers of a pool state, whatever their place. -/
def PoolState.all (p : PoolState) : List Buf := p.queue ++ p.inflight ++ p.held ++ p.taken

/-- Effect of one call on the pool.  `mmal_buffer_header_release` puts a held buffer at
the tail of the queue; `mmal_queue_get` takes a buffer out of the queue;
`mmal_port_send_buffer` hands a taken buffer to the port when it succeeds and leaves it
with the caller when it fails.  Other calls do not move buffers. -/
def PoolState.apply (p : PoolState) : Event → PoolState
  | Event.release b =>
    if b ∈ p.held then { p with held := p.held.erase b, queue := p.queue ++ [b] } else p
  | Event.queue_get (some b) =>
    if b ∈ p.queue then { p with queue := p.queue.erase b, taken := p.taken ++ [b] } else p
  | Event.send_buffer (some b) status =>
    if status = MMAL_SUCCESS ∧ b ∈ p.taken then
      { p with taken := p.taken.erase b, inflight := p.inflight ++ [b] }
    else p
  | _ => p

/-- Effect of a trace on the pool. -/
def PoolState.run (p : PoolState) (t : List Event) : PoolState := t.foldl PoolState.apply p

/-- One step of the pool: the drain loop of `main` runs (`feed`, with the status of each
send), the port delivers an in-flight buffer to the callback (`deliver`), or the
callback runs on a held buffer (`reclaim`; `new_buffer` of the arguments is not read,
the queue decides it). -/
inductive PoolStep where
  | feed (send : Nat → MMAL_STATUS_T)
  | deliver (b : Buf)
  | reclaim (a : CallbackArgs)

/-- The drain loop on pool `p`: the queue length is that of `p`, the `q`-th
`mmal_queue_get` returns the `q`-th idle buffer. -/
def PoolState.feed (p : PoolState) (send : Nat → MMAL_STATUS_T) : PoolState :=
  p.run (feed_pool p.queue.length (fun q => p.queue.get? q) send)

/-- The port hands in-flight buffer `b` to the callback. -/
def PoolState.deliver (p : PoolState) (b : Buf) : PoolState :=
  if b ∈ p.inflight then { p with inflight := p.inflight.erase b, held := p.held ++ [b] } else p

/-- The callback runs on held buffer `a.buffer`; its `mmal_queue_get` returns the head
of the queue as it is after the release. -/
def PoolState.reclaim (p : PoolState) (a : CallbackArgs) : PoolState :=
  if a.buffer ∈ p.held then
    p.run (encoder_buffer_callback { a with new_buffer := (p.queue ++ [a.buffer]).head? }).trace
  else p

/-- One step of the pool. -/
def PoolState.step (p : PoolState) : PoolStep → PoolState
  | PoolStep.feed send => p.feed send
  | PoolStep.deliver b => p.deliver b
  | PoolStep.reclaim a => p.reclaim a

/-- A sequence of steps of the pool. -/
def PoolState.steps (p : PoolState) (l : List PoolStep) : PoolState := l.foldl PoolState.step p

/-- Every send of the step succeeds, if it takes place. -/
def PoolStep.sendsOk : PoolStep → Prop
  | PoolStep.feed send => ∀ q, send q = MMAL_SUCCESS
  | PoolStep.deliver _ => True
  | PoolStep.reclaim a => a.send_status = MMAL_SUCCESS

/-! ## The state of a run -/

/-- The encodings of `encoding_xref`. -/
inductive Encoding where
  | jpeg
  | bmp
  | gif
  | png
  deriving DecidableEq, Repr

/-- The thumbnail configuration `MMAL_PARAM_THUMBNAIL_CONFIG_T`. -/
structure MMAL_PARAM_THUMBNAIL_CONFIG_T where
  enable : Int
  width : Int
  height : Int
  quality : Int
  deriving DecidableEq, Repr

/-- The fields of `RASPIPREVIEW_PARAMETERS` that `main` reads. -/
structure RASPIPREVIEW_PARAMETERS where
  wantPreview : Int
  preview_component : Bool
  deriving DecidableEq, Repr

/-- Number of entries of `exifTags`. -/
def MAX_USER_EXIF_TAGS : Nat := 32

/-- Size of the payload buffer of an EXIF parameter. -/
def MAX_EXIF_PAYLOAD_LENGTH : Nat := 128

/-- The structure `RASPISTILL_STATE`.  A component pointer is `true` when it is not
NULL; `encoder_pool` holds the buffer count and buffer size of the pool it points at;
`exifTags` is the array of tag pointers, entry `i` at position `i`. -/
structure RASPISTILL_STATE where
  timeout : Int
  width : Int
  height : Int
  quality : Int
  wantRAW : Int
  filename : Option String
  thumbnailConfig : MMAL_PARAM_THUMBNAIL_CONFIG_T
  verbose : Int
  demoMode : Int
  demoInterval : Int
  encoding : Encoding
  exifTags : List (Option String)
  numExifTags : Int
  timelapse : Int
  preview_parameters : RASPIPREVIEW_PARAMETERS
  camera_component : Bool
  encoder_component : Bool
  preview_connection : ConnState
  encoder_connection : ConnState
  encoder_pool : Option (Nat × Nat)
  deriving DecidableEq, Repr

/-- `default_status(state)`: the fields it assigns; `exifTags` keeps what it held, and
`preview_parameters` is what `raspipreview_set_defaults` leaves. -/
def default_status (state : RASPISTILL_STATE) (preview_defaults : RASPIPREVIEW_PARAMETERS) :
    RASPISTILL_STATE :=
  { state with
    timeout := 5000
    width := 2592
    height := 1944
    quality := 85
    wantRAW := 0
    filename := none
    verbose := 0
    thumbnailConfig := ⟨1, 64, 48, 35⟩
    demoMode := 0
    demoInterval := 250
    camera_component := false
    encoder_component := false
    preview_connection := ConnState.null
    encoder_connection := ConnState.null
    encoder_pool := none
    encoding := Encoding.jpeg
    numExifTags := 0
    timelapse := 0
    preview_parameters := preview_defaults }

/-- A function of the program in progress: the state, the ports whose `is_enabled` is
set, the calls made so far, and whether the program has dereferenced NULL or divided by
zero (it then makes no further call). -/
structure Run where
  state : RASPISTILL_STATE
  enabled : List Port
  trace : List Event
  faulted : Bool
  deriving DecidableEq, Repr

/-- Record calls. -/
def Run.emit (r : Run) (t : List Event) : Run := { r with trace := r.trace ++ t }

/-- Record a diagnostic line printed when `state.verbose` is set. -/
def Run.verbose (r : Run) (msg : String) : Run :=
  if r.state.verbose ≠ 0 then r.emit [Event.diag msg] else r

/-! ## Components -/

/-- Outcomes of the calls of `create_camera_component`. -/
structure CameraWorld where
  component_create : MMAL_STATUS_T
  output_num : Nat
  control_enable : MMAL_STATUS_T
  commit_preview : MMAL_STATUS_T
  commit_video : MMAL_STATUS_T
  commit_still : MMAL_STATUS_T
  component_enable : MMAL_STATUS_T
  raw_capture : MMAL_STATUS_T

/-- The `error:` exit of a create function: destroy the component if it exists. -/
def create_error (r : Run) (c : Component) (created : Bool) (msg : String) : Bool × Run :=
  (false, (r.emit [Event.log_error msg]).emit
    (if created then [Event.component_destroy c] else []))

/-- `create_camera_component(state)`: whether the returned pointer is not NULL, and the
run after it. -/
def create_camera_component (w : CameraWorld) (r : Run) : Bool × Run :=
  let cam := Component.camera
  let r := r.emit [Event.component_create cam]
  if w.component_create ≠ MMAL_SUCCESS then
    create_error r cam false "Failed to create camera component"
  else if w.output_num = 0 then
    create_error r cam true "Camera doesn't have output ports"
  else
    let r := r.emit [Event.port_enable Port.camera_control_port]
    if w.control_enable ≠ 0 then
      create_error r cam true "Unable to enable control port"
    else
      let r := r.emit [Event.parameter_set "MMAL_PARAMETER_CAMERA_CONFIG",
        Event.parameter_set "raspicamcontrol_set_all_parameters",
        Event.format_commit Port.camera_preview_port]
      if w.commit_preview ≠ 0 then
        create_error r cam true "camera viewfinder format couldn't be set"
      else
        let r := r.emit [Event.format_commit Port.camera_video_port]
        if w.commit_video ≠ 0 then
          create_error r cam true "camera video format couldn't be set"
        else
          let r := r.emit [Event.format_commit Port.camera_still_port]
          if w.commit_still ≠ 0 then
            create_error r cam true "camera still format couldn't be set"
          else
            let r := r.emit [Event.component_enable cam]
            if w.component_enable ≠ 0 then
              create_error r cam true "camera component couldn't be enabled"
            else
              let r :=
                if r.state.wantRAW ≠ 0 then
                  let r := r.emit [Event.parameter_set "MMAL_PARAMETER_ENABLE_RAW_CAPTURE"]
                  if w.raw_capture ≠ MMAL_SUCCESS then
                    r.emit [Event.log_error "RAW was requested, but failed to enable"]
                  else r
                else r
              let r := { r with state := { r.state with camera_component := true } }
              (true, r.verbose "Camera component done")

/-- `destroy_camera_component(state)`. -/
def destroy_camera_component (r : Run) : Run :=
  if r.state.camera_component then
    { r.emit [Event.component_destroy Component.camera] with
      state := { r.state with camera_component := false } }
  else r

/-- Outcomes of the calls of `create_encoder_component`, and the buffer requirements the
encoder output port reports. -/
structure EncoderWorld where
  component_create : MMAL_STATUS_T
  input_num : Nat
  output_num : Nat
  buffer_size_recommended : Nat
  buffer_size_min : Nat
  buffer_num_recommended : Nat
  buffer_num_min : Nat
  format_commit : MMAL_STATUS_T
  jpeg_q_factor : MMAL_STATUS_T
  thumbnail : MMAL_STATUS_T
  component_enable : MMAL_STATUS_T
  pool_create : Bool

/-- `create_encoder_component(state)`: whether the returned pointer is not NULL, and the
run after it. -/
def create_encoder_component (w : EncoderWorld) (r : Run) : Bool × Run :=
  let enc := Component.encoder
  let r := r.emit [Event.component_create enc]
  if w.component_create ≠ MMAL_SUCCESS then
    create_error r enc false "Unable to create JPEG encoder component"
  else if w.input_num = 0 ∨ w.output_num = 0 then
    create_error r enc true "JPEG encoder doesn't have input/output ports"
  else
    let buffer_size := w.buffer_size_recommended
    let buffer_size := if buffer_size < w.buffer_size_min then w.buffer_size_min else buffer_size
    let buffer_num := w.buffer_num_recommended
    let buffer_num := if buffer_num < w.buffer_num_min then w.buffer_num_min else buffer_num
    let r := r.emit [Event.format_commit Port.encoder_output_port]
    if w.format_commit ≠ MMAL_SUCCESS then
      create_error r enc true "Unable to set format on video encoder output port"
    else
      let r := r.emit [Event.parameter_set "MMAL_PARAMETER_JPEG_Q_FACTOR"]
      if w.jpeg_q_factor ≠ MMAL_SUCCESS then
        create_error r enc true "Unable to set JPEG quality"
      else
        let r := r.emit [Event.parameter_set "MMAL_PARAMETER_THUMBNAIL_CONFIGURATION",
          Event.component_enable enc]
        if w.component_enable ≠ 0 then
          create_error r enc true "Unable to enable video encoder component"
        else
          let r := r.emit [Event.pool_create buffer_num buffer_size]
          let r :=
            if w.pool_create then r
            else r.emit [Event.log_error "Failed to create buffer header pool for encoder output port"]
          let pool := if w.pool_create then some (buffer_num, buffer_size) else none
          let r := { r with state := { r.state with encoder_pool := pool, encoder_component := true } }
          (true, r.verbose "Encoder component done")

/-- `destroy_encoder_component(state)`.  With a pool and no component, the read of
`state->encoder_component->output[0]` dereferences NULL. -/
def destroy_encoder_component (r : Run) : Run :=
  if r.faulted then r
  else
    let r :=
      if r.state.encoder_pool.isSome then
        if r.state.encoder_component then r.emit [Event.pool_destroy]
        else { r with faulted := true }
      else r
    if r.faulted then r
    else if r.state.encoder_component then
      { r.emit [Event.component_destroy Component.encoder] with
        state := { r.state with encoder_component := false } }
    else r

/-- `check_disable_port(port)`: `port` is `none` for a NULL pointer. -/
def check_disable_port (port : Option Port) (r : Run) : Run :=
  match port with
  | some p =>
    if p ∈ r.enabled then
      { r.emit [Event.port_disable p] with enabled := r.enabled.filter (fun x => x ≠ p) }
    else r
  | none => r

/-! ## The outcomes of a run -/

/-- Outcomes of the calls that `main` and the functions it calls make.  The per-frame
outcomes take the frame number; `fopen` gives the stream of a successful open;
`asprintf` is the call `asprintf(&use_filename, state.filename, frame)`, which takes the
file name as its format string: the text it leaves in `use_filename` when it returns one,
nothing when the program does not survive the call (a format that is not valid for one
`int` argument, such as `%s.jpg`, or no memory);
`time_buf` is the local time as `add_exif_tags` formats it. -/
structure World where
  camera : CameraWorld
  preview_create : Bool
  encoder : EncoderWorld
  conn : ConnWorld
  output_port_enable : MMAL_STATUS_T
  MMAL_EINVAL : MMAL_STATUS_T
  exif_set : Int → String → MMAL_STATUS_T
  asprintf : String → Int → Option String
  fopen : Int → String → Option Nat
  time_buf : Int → String
  queue_length : Int → Nat
  queue_get : Int → Nat → Option Buf
  send_buffer : Int → Nat → MMAL_STATUS_T
  capture : Int → MMAL_STATUS_T

/-- Modelled from the spec: `raspipreview_create` of RaspiPreview.c, the construction
call of the preview sink node; it fails as a whole or leaves the preview component in
`preview_parameters`. -/
def raspipreview_create (w : World) (r : Run) : Bool × Run :=
  let r := r.emit [Event.preview_create]
  if w.preview_create then
    (true, { r with state := { r.state with
      preview_parameters := { r.state.preview_parameters with preview_component := true } } })
  else (false, r)

/-- Modelled from the spec: `raspipreview_destroy` of RaspiPreview.c, the destruction
call of the preview sink node; destroying an already destroyed node is a no-op. -/
def raspipreview_destroy (r : Run) : Run :=
  if r.state.preview_parameters.preview_component then
    { r.emit [Event.preview_destroy] with state := { r.state with
      preview_parameters := { r.state.preview_parameters with preview_component := false } } }
  else r

/-! ## EXIF tags -/

/-- `add_exif_tag(state, exif_tag)`: the returned status and the parameter set on the
encoder output port, if any.  `strlen` counts bytes. -/
def add_exif_tag (w : World) (frame : Int) (exif_tag : Option String) :
    MMAL_STATUS_T × List Event :=
  match exif_tag with
  | none => (w.MMAL_EINVAL, [])
  | some tag =>
    if '=' ∉ tag.toList ∨ tag.utf8ByteSize > MAX_EXIF_PAYLOAD_LENGTH - 1 then
      (w.MMAL_EINVAL, [])
    else (w.exif_set frame tag, [Event.exif_set tag])

/-- `snprintf(buf, size, "<key>%s", value)`: the text, cut to `size - 1` characters. -/
def snprintf_s (size : Nat) (key value : String) : String := (key ++ value).take (size - 1)

/-- The loop of `add_exif_tags` over the user tags:
`for (i=0;i<state->numExifTags && i < MAX_USER_EXIF_TAGS;i++)`. -/
def add_user_exif_tags (w : World) (frame : Int) (state : RASPISTILL_STATE) : List Event :=
  (List.range (min state.numExifTags (MAX_USER_EXIF_TAGS : Int)).toNat).flatMap fun i =>
    match state.exifTags.getD i none with
    | some tag => (add_exif_tag w frame (some tag)).2
    | none => []

/-- `add_exif_tags(state)`, called in frame `frame`. -/
def add_exif_tags (w : World) (frame : Int) (state : RASPISTILL_STATE) : List Event :=
  let time_buf := snprintf_s 32 "" (w.time_buf frame)
  (add_exif_tag w frame (some "IFD0.Model=RP_OV5647")).2
    ++ (add_exif_tag w frame (some "IFD0.Make=RaspberryPi")).2
    ++ (add_exif_tag w frame (some (snprintf_s 128 "EXIF.DateTimeDigitized=" time_buf))).2
    ++ (add_exif_tag w frame (some (snprintf_s 128 "EXIF.DateTimeOriginal=" time_buf))).2
    ++ (add_exif_tag w frame (some (snprintf_s 128 "IFD0.DateTime=" time_buf))).2
    ++ add_user_exif_tags w frame state

/-! ## The capture loop -/

/-- The capture loop in progress: the run, the local `output_file` of `main` and
`callback_data.file_handle`, the sink handle that the callback reads. -/
structure Capture where
  run : Run
  output_file : Option FILE
  file_handle : Option FILE
  deriving DecidableEq, Repr

/-- The name that frame `frame` opens for the file name `filename`: `use_filename` is
the name itself, or in timelapse mode what `asprintf` leaves in it, called with the name
as its format string and the frame number as its argument; nothing when the program
does not survive that call. -/
def use_filename (w : World) (state : RASPISTILL_STATE) (filename : String) (frame : Int) :
    Option String :=
  if state.timelapse ≠ 0 then w.asprintf filename frame else some filename

/-- The block `if (state.filename) { ... }` of the loop body: resolve and open the
destination, apply the EXIF tags, publish the sink handle.  When the program does not
survive the call of `asprintf` the run faults there, before the `fopen`. -/
def open_destination (w : World) (frame : Int) (c : Capture) : Capture :=
  match c.run.state.filename with
  | none => c
  | some filename =>
    let opened : Option (Run × Option FILE) :=
      if filename.toList.head? = some '-' then
        some ({ c.run with state := { c.run.state with verbose := 0 } }, some FILE.stdout)
      else
        match use_filename w c.run.state filename frame with
        | none => none
        | some name =>
          let r := c.run.verbose "Opening output file"
          let r := r.emit [Event.fopen name frame]
          let r :=
            if w.fopen frame name = none then
              r.emit
                [Event.log_error "Error opening output file. No output file will be generated"]
            else r
          some (r, (w.fopen frame name).map FILE.opened)
    match opened with
    | none => { c with run := { c.run with faulted := true } }
    | some opened =>
      let r := opened.1.emit (add_exif_tags w frame opened.1.state)
      let r := r.emit [Event.set_file_handle opened.2]
      ⟨r, opened.2, opened.2⟩

/-- The block `if (output_file) { ... }` of the loop body: feed the pool to the port,
trigger the capture, wait for completion, clear the sink handle, close the destination.
The read of `state.encoder_pool->queue` dereferences NULL when there is no pool. -/
def capture_block (w : World) (frame : Int) (c : Capture) : Capture :=
  match c.output_file with
  | none => c
  | some output_file =>
    match c.run.state.encoder_pool with
    | none => { c with run := { c.run with faulted := true } }
    | some _ =>
      let r := c.run.emit
        (feed_pool (w.queue_length frame) (w.queue_get frame) (w.send_buffer frame))
      let r := r.verbose "Starting capture"
      let r := r.emit [Event.capture frame (w.capture frame)]
      let r :=
        if w.capture frame ≠ MMAL_SUCCESS then r.emit [Event.log_error "Failed to start capture"]
        else (r.emit [Event.semaphore_wait]).verbose "Finished capture"
      let r := r.emit [Event.set_file_handle none]
      let r :=
        match output_file with
        | FILE.stdout => r
        | FILE.opened id => r.emit [Event.fclose id]
      ⟨r, c.output_file, none⟩

/-- The body of the capture loop for frame `frame`; a run that has faulted makes no
further call. -/
def capture_frame (w : World) (frame : Int) (c : Capture) : Capture :=
  if c.run.faulted then c
  else
    let ms := if c.run.state.timelapse ≠ 0 then c.run.state.timelapse else c.run.state.timeout
    let c := { c with run := c.run.emit [Event.sleep ms] }
    let c := open_destination w frame c
    if c.run.faulted then c else capture_block w frame c

/-- The largest value of an `int`. -/
def INT_MAX : Int := 2147483647

/-- The smallest value of an `int`. -/
def INT_MIN : Int := -2147483648

/-- The loop `for (frame = 1;frame<=num_iterations; frame++)`, from `frame` on.  A value
of `frame` above `INT_MAX` stands for the signed overflow of `frame++`: with
`num_iterations = INT_MAX` the test never fails, the increment of `frame = INT_MAX`
overflows, and the run faults there instead of leaving the loop. -/
def frame_loop (w : World) (num_iterations : Int) (frame : Int) (c : Capture) : Capture :=
  if frame ≤ num_iterations then
    frame_loop w num_iterations (frame + 1) (capture_frame w frame c)
  else if INT_MAX < frame then { c with run := { c.run with faulted := true } }
  else c
termination_by (num_iterations + 1 - frame).toNat
decreasing_by omega

/-- The loop `for (i=0;i<num_iterations;i++)` of demo mode, from `i` on. -/
def demo_loop (num_iterations : Int) (i : Int) (r : Run) : Run :=
  if i < num_iterations then
    demo_loop num_iterations (i + 1) (r.emit [Event.cycle_test, Event.sleep r.state.demoInterval])
  else r
termination_by (num_iterations - i).toNat
decreasing_by omega

/-- The C division `a / b` of two `int`: no result when `b` is zero or when the quotient
`INT_MIN / -1` overflows, else the quotient rounded towards zero. -/
def int_div (a b : Int) : Option Int :=
  if b = 0 ∨ (a = INT_MIN ∧ b = -1) then none else some (a.tdiv b)

/-- The number of iterations of the capture loop:
`state.timelapse ? state.timeout / state.timelapse : 1`. -/
def capture_iterations (state : RASPISTILL_STATE) : Option Int :=
  if state.timelapse ≠ 0 then int_div state.timeout state.timelapse else some 1

/-- The branch `if (state.demoMode) { ... }` of `main`: the number of iterations is
`state.timeout / state.demoInterval`, a division by zero when the interval is zero. -/
def demo_mode (r : Run) : Run :=
  match int_div r.state.timeout r.state.demoInterval with
  | none => { r with faulted := true }
  | some num_iterations => demo_loop num_iterations 0 r

/-- What follows the capture loop: `vcos_semaphore_delete`. -/
def capture_finish (c : Capture) : Run :=
  if c.run.faulted then c.run else c.run.emit [Event.semaphore_delete]

/-- The `else` branch of `if (state.demoMode)`: the capture loop, entered with
`output_file = NULL` and `callback_data.file_handle = NULL`, then the deletion of the
completion semaphore. -/
def capture_mode (w : World) (r : Run) : Run :=
  match capture_iterations r.state with
  | none => { r with faulted := true }
  | some num_iterations => capture_finish (frame_loop w num_iterations 1 ⟨r, none, none⟩)

/-- The calls made by the body of the capture loop for frame `frame`, entered in `c`. -/
def frame_events (w : World) (frame : Int) (c : Capture) : List Event :=
  (capture_frame w frame c).run.trace.drop c.run.trace.length

/-! ## main -/

/-- A call of `connect_ports` by `main`: the returned status, and the run with the
connection field assigned and the ports of an enabled connection enabled. -/
def run_connect_ports (w : World) (output_port input_port : Port) (slot : ConnSlot)
    (r : Run) : MMAL_STATUS_T × Run :=
  let old :=
    match slot with
    | ConnSlot.preview_connection => r.state.preview_connection
    | ConnSlot.encoder_connection => r.state.encoder_connection
  let c := connect_ports w.conn output_port input_port slot old
  let state :=
    match slot with
    | ConnSlot.preview_connection => { r.state with preview_connection := c.connection }
    | ConnSlot.encoder_connection => { r.state with encoder_connection := c.connection }
  let enabled :=
    if c.connection = ConnState.enabled then output_port :: input_port :: r.enabled
    else r.enabled
  (c.status, { r.emit c.trace with state := state, enabled := enabled })

/-- The part of `main` between the creation of the components and the label `error:`,
entered with `status` as it was initialised (`-1`): the connections, the enabling of the
encoder output port, and the demo or capture loop.  It returns `status` as it is at the
label, and the run. -/
def connection_stage (w : World) (r : Run) : MMAL_STATUS_T × Run :=
  let r := r.verbose "Starting component connection stage"
  let status : MMAL_STATUS_T := -1
  let preview : MMAL_STATUS_T × Run :=
    if r.state.preview_parameters.wantPreview ≠ 0 then
      let r := r.verbose "Connecting camera preview port to preview input port"
      let r := r.verbose "Starting video preview"
      run_connect_ports w Port.camera_preview_port Port.preview_input_port
        ConnSlot.preview_connection r
    else (status, r)
  let status := preview.1
  let r := preview.2
  if status = MMAL_SUCCESS then
    let r := r.verbose "Connecting camera stills port to encoder input port"
    let encoder := run_connect_ports w Port.camera_still_port Port.encoder_input_port
      ConnSlot.encoder_connection r
    let status := encoder.1
    let r := encoder.2
    if status ≠ MMAL_SUCCESS then
      (status, r.emit [Event.log_error "Failed to connect camera video port to encoder input"])
    else
      let r := r.emit [Event.set_file_handle none, Event.semaphore_create]
      let r := r.verbose "Enabling encoder output port"
      let status := w.output_port_enable
      let r := r.emit [Event.port_enable Port.encoder_output_port]
      if status ≠ MMAL_SUCCESS then
        (status, r.emit [Event.log_error "Failed to setup encoder output"])
      else
        let r := { r with enabled := Port.encoder_output_port :: r.enabled }
        if r.state.demoMode ≠ 0 then (status, demo_mode r)
        else (status, capture_mode w r)
  else
    (status, r.emit [Event.status_to_int status,
      Event.log_error "Failed to connect camera to preview"])

/-- The first part of the teardown of `main`, from the label `error:` on: disable the
ports not handled by connections, destroy the connections, disable the components. -/
def teardown_disable (status : MMAL_STATUS_T) (r : Run) : Run :=
  let r := r.emit [Event.status_to_int status]
  let r := r.verbose "Closing down"
  let r := check_disable_port (some Port.camera_video_port) r
  let r := check_disable_port (some Port.encoder_output_port) r
  let r :=
    if r.state.preview_parameters.wantPreview ≠ 0 then
      r.emit [Event.connection_destroy ConnSlot.preview_connection]
    else r
  let r := r.emit [Event.connection_destroy ConnSlot.encoder_connection]
  let r :=
    if r.state.encoder_component then r.emit [Event.component_disable Component.encoder]
    else r
  let r :=
    if r.state.preview_parameters.preview_component then
      r.emit [Event.component_disable Component.preview]
    else r
  if r.state.camera_component then r.emit [Event.component_disable Component.camera]
  else r

/-- The part of `main` from the label `error:` to the end of the block: the disabling
of ports, connections and components, then the destruction of the components. -/
def teardown (status : MMAL_STATUS_T) (r : Run) : Run :=
  if r.faulted then r
  else
    let r := teardown_disable status r
    let r := destroy_encoder_component r
    let r := raspipreview_destroy r
    let r := destroy_camera_component r
    if r.faulted then r
    else r.verbose "Close down completed, all components disconnected, disabled and destroyed"

/-- How a run of `main` ends: the exit status of the process when `main` returns or
calls `exit` (`none` when the program faulted), and the run. -/
structure MainResult where
  exit_status : Option Int
  run : Run
  deriving DecidableEq, Repr

/-- The end of `main`: `if (status != 0) raspicamcontrol_check_configuration(128);`
and `return 0;`. -/
def main_return (status : MMAL_STATUS_T) (r : Run) : MainResult :=
  if r.faulted then ⟨none, r⟩
  else if status ≠ 0 then ⟨some 0, r.emit [Event.check_configuration 128]⟩
  else ⟨some 0, r⟩

/-- The run when `parse_cmdline` has returned: no call made but the printing of the
banner and of the state when `state.verbose` is set. -/
def Run.initial (state : RASPISTILL_STATE) : Run :=
  (⟨state, [], [], false⟩ : Run).verbose "RaspiStill Camera App"

/-- The part of `main` that follows a successful `parse_cmdline`, on the parsed state. -/
def main_body (w : World) (state : RASPISTILL_STATE) : MainResult :=
  let status : MMAL_STATUS_T := -1
  let camera := create_camera_component w.camera (Run.initial state)
  if camera.1 = false then
    main_return status (camera.2.emit [Event.log_error "Failed to create camera component"])
  else
    let preview := raspipreview_create w camera.2
    if preview.1 = false then
      let r := preview.2.emit [Event.log_error "Failed to create preview component"]
      main_return status (destroy_camera_component r)
    else
      let encoder := create_encoder_component w.encoder preview.2
      if encoder.1 = false then
        let r := encoder.2.emit [Event.log_error "Failed to create encode component"]
        main_return status (destroy_camera_component (raspipreview_destroy r))
      else
        let stage := connection_stage w encoder.2
        main_return stage.1 (teardown stage.1 stage.2)

/-- The function `main`: `argc`, and what `parse_cmdline` returns and leaves in the
state.  With no argument the usage text is printed and the process exits with status 0;
after a failed parse it exits with status 0. -/
def main (w : World) (argc : Int) (cmdline : Int × RASPISTILL_STATE) : MainResult :=
  if argc = 1 then
    ⟨some 0, ⟨cmdline.2, [], [Event.diag "RaspiStill Camera App: usage"], false⟩⟩
  else if cmdline.1 ≠ 0 then ⟨some 0, ⟨cmdline.2, [], [], false⟩⟩
  else main_body w cmdline.2

/-! ## Sample outcomes -/

/-- A camera whose every call succeeds. -/
def CameraWorld.ok : CameraWorld := ⟨0, 3, 0, 0, 0, 0, 0, 0⟩

/-- An encoder whose every call succeeds, with a pool of three buffers. -/
def EncoderWorld.ok : EncoderWorld := ⟨0, 1, 1, 81920, 2048, 3, 1, 0, 0, 0, 0, true⟩

/-- Connection calls that all succeed. -/
def ConnWorld.ok : ConnWorld := ⟨fun _ => 0, fun _ => 0, fun _ => 0⟩

/-- The decimal digits of `n`, at most `fuel` of them. -/
def decimal_digits : Nat → Nat → List Char
  | 0, _ => []
  | fuel + 1, n =>
    (if n < 10 then [] else decimal_digits fuel (n / 10))
      ++ [['0', '1', '2', '3', '4', '5', '6', '7', '8', '9'].getD (n % 10) '0']

/-- The decimal text of an `int`, as `%d` prints it. -/
def int_text (n : Int) : List Char :=
  (if n < 0 then ['-'] else []) ++ decimal_digits 10 n.natAbs

/-- What a C library prints for a format and one `int` argument whose text is `digits`,
for the formats made of plain text, `%%` and at most one `%d`; nothing for a format with
another conversion or a second one, on which the call reads an argument that was not
passed.  `used` tells that the argument has been consumed. -/
def format_int (digits : List Char) : Bool → List Char → Option (List Char)
  | _, [] => some []
  | used, a :: tail =>
    if a = '%' then
      match tail with
      | [] => none
      | b :: rest =>
        if b = '%' then (format_int digits used rest).map fun t => '%' :: t
        else if b = 'd' ∧ used = false then
          (format_int digits true rest).map fun t => digits ++ t
        else none
    else (format_int digits used tail).map fun t => a :: t

/-- A world in which every call succeeds: the pool queue holds three buffers at each
frame, every file opens, and `asprintf` returns the text of a format made of plain text,
`%%` and at most one `%d`, and is fatal on any other format. -/
def World.ok : World :=
  { camera := CameraWorld.ok
    preview_create := true
    encoder := EncoderWorld.ok
    conn := ConnWorld.ok
    output_port_enable := 0
    MMAL_EINVAL := 3
    exif_set := fun _ _ => 0
    asprintf := fun name frame => (format_int (int_text frame) false name.toList).map String.mk
    fopen := fun frame _ => some frame.toNat
    time_buf := fun _ => "2013:05:20:12:00:00"
    queue_length := fun _ => 3
    queue_get := fun _ q => some q
    send_buffer := fun _ _ => 0
    capture := fun _ => 0 }

/-- The world `World.ok`, except that the set of `MMAL_PARAMETER_CAPTURE` fails with
status 1 in every frame. -/
def World.trigger_fails : World := { World.ok with capture := fun _ => 1 }

/-- The world `World.ok`, except that the `fopen` of frame 1 fails. -/
def World.first_open_fails : World :=
  { World.ok with fopen := fun frame _ => if frame = 1 then none else some frame.toNat }

/-- The state after `default_status` and a parse that asks for a preview. -/
def RASPISTILL_STATE.sample : RASPISTILL_STATE :=
  { timeout := 5000, width := 2592, height := 1944, quality := 85, wantRAW := 0,
    filename := none, thumbnailConfig := ⟨1, 64, 48, 35⟩, verbose := 0, demoMode := 0,
    demoInterval := 250, encoding := Encoding.jpeg, exifTags := List.replicate 32 none,
    numExifTags := 0, timelapse := 0, preview_parameters := ⟨1, false⟩,
    camera_component := false, encoder_component := false,
    preview_connection := ConnState.null, encoder_connection := ConnState.null,
    encoder_pool := none }

/-! ## Classes of calls -/

/-- The call touches the sink or the memory of the buffer: `mmal_buffer_header_mem_lock`,
`fwrite`, `mmal_buffer_header_mem_unlock`. -/
def Event.isSink : Event → Bool
  | Event.mem_lock _ => true
  | Event.fwrite _ _ _ => true
  | Event.mem_unlock _ => true
  | _ => false

/-- The call is `mmal_buffer_header_release`. -/
def Event.isRelease : Event → Bool
  | Event.release _ => true
  | _ => false

/-- The call is `mmal_queue_get`. -/
def Event.isQueueGet : Event → Bool
  | Event.queue_get _ => true
  | _ => false

/-- The call is `mmal_port_send_buffer`. -/
def Event.isSend : Event → Bool
  | Event.send_buffer _ _ => true
  | _ => false

/-- The call sets `MMAL_PARAMETER_CAPTURE` on the still port. -/
def Event.isCapture : Event → Bool
  | Event.capture _ _ => true
  | _ => false

/-- The call is `fclose`. -/
def Event.isClose : Event → Bool
  | Event.fclose _ => true
  | _ => false

/-- The flags of a buffer contain one of the bits of `mask`. -/
def hasFlag (flags mask : Nat) : Prop := flags &&& mask ≠ 0

instance (flags mask : Nat) : Decidable (hasFlag flags mask) := by
  unfold hasFlag; infer_instance

/-- The capture loop at its start, after the components of `World.ok` are created: the
state `state` with a pool of three buffers, no call made yet. -/
def Capture.start (state : RASPISTILL_STATE) : Capture :=
  ⟨⟨{ state with encoder_pool := some (3, 81920) }, [], [], false⟩, none, none⟩

/-! ## Tags and teardown: samples and classes -/

/-- The call sets an EXIF tag on the encoder output port. -/
def Event.isExif : Event → Bool
  | Event.exif_set _ => true
  | _ => false

/-- The tags that `add_exif_tags` builds itself, in the order in which it passes them to
`add_exif_tag` in frame `frame`. -/
def system_exif_tags (w : World) (frame : Int) : List String :=
  ["IFD0.Model=RP_OV5647",
   "IFD0.Make=RaspberryPi",
   snprintf_s 128 "EXIF.DateTimeDigitized=" (snprintf_s 32 "" (w.time_buf frame)),
   snprintf_s 128 "EXIF.DateTimeOriginal=" (snprintf_s 32 "" (w.time_buf frame)),
   snprintf_s 128 "IFD0.DateTime=" (snprintf_s 32 "" (w.time_buf frame))]

/-- The tag is one that `add_exif_tag` sets on the port: it holds a `=` and is at most
`MAX_EXIF_PAYLOAD_LENGTH - 1` bytes long. -/
def exif_tag_ok (tag : String) : Prop :=
  '=' ∈ tag.toList ∧ tag.utf8ByteSize ≤ MAX_EXIF_PAYLOAD_LENGTH - 1

instance (tag : String) : Decidable (exif_tag_ok tag) := by
  unfold exif_tag_ok; infer_instance

/-- The state `RASPISTILL_STATE.sample` once the three components and a pool of three
buffers exist. -/
def RASPISTILL_STATE.running : RASPISTILL_STATE :=
  { RASPISTILL_STATE.sample with
    preview_parameters := ⟨1, true⟩
    camera_component := true
    encoder_component := true
    encoder_pool := some (3, 81920) }

/-- The run at the label `error:` of `main` after a capture: the three components exist
and the encoder output port is enabled. -/
def Run.running : Run := ⟨RASPISTILL_STATE.running, [Port.encoder_output_port], [], false⟩

/-- The component pointers of the state: camera, encoder, preview parameters and the
encoder pool. -/
def RASPISTILL_STATE.components (state : RASPISTILL_STATE) :
    Bool × Bool × RASPIPREVIEW_PARAMETERS × Option (Nat × Nat) :=
  (state.camera_component, state.encoder_component, state.preview_parameters,
    state.encoder_pool)

/-- The run of `main` after `create_camera_component`, and its result. -/
def setup_camera (w : World) (state : RASPISTILL_STATE) : Bool × Run :=
  create_camera_component w.camera (Run.initial state)

/-- The run of `main` after `raspipreview_create`, and its result. -/
def setup_preview (w : World) (state : RASPISTILL_STATE) : Bool × Run :=
  raspipreview_create w (setup_camera w state).2

/-- The run of `main` after `create_encoder_component`, and its result. -/
def setup_encoder (w : World) (state : RASPISTILL_STATE) : Bool × Run :=
  create_encoder_component w.encoder (setup_preview w state).2

/-- The run of `main` at the label `error:` when the three components were created, and
the value of `status` there. -/
def setup_stage (w : World) (state : RASPISTILL_STATE) : MMAL_STATUS_T × Run :=
  connection_stage w (setup_encoder w state).2

/-- The world `World.ok`, except that the enabling of the encoder output port fails with
status 1. -/
def World.no_output_port : World := { World.ok with output_port_enable := 1 }

/-- The call is `fopen`. -/
def Event.isOpen : Event → Bool
  | Event.fopen _ _ => true
  | _ => false

/-- The call writes the sink handle `callback_data.file_handle`. -/
def Event.isHandle : Event → Bool
  | Event.set_file_handle _ => true
  | _ => false

/-! ## The command line -/

/-- An entry of the table of options, `COMMAND_LIST` of RaspiCLI.h; `abbr` is the field
`abbrev`. -/
structure COMMAND_LIST where
  id : Int
  command : String
  abbr : String
  help : String
  num_parameters : Int
  deriving DecidableEq, Repr

def CommandHelp : Int := 0
def CommandWidth : Int := 1
def CommandHeight : Int := 2
def CommandQuality : Int := 3
def CommandRaw : Int := 4
def CommandOutput : Int := 5
def CommandVerbose : Int := 6
def CommandTimeout : Int := 7
def CommandThumbnail : Int := 8
def CommandDemoMode : Int := 9
def CommandEncoding : Int := 10
def CommandExifTag : Int := 11
def CommandTimelapse : Int := 12

/-- The table `cmdline_commands`. -/
def cmdline_commands : List COMMAND_LIST :=
  [⟨CommandHelp, "-help", "?", "This help information", 1⟩,
   ⟨CommandWidth, "-width", "w", "Set image width <size>", 1⟩,
   ⟨CommandHeight, "-height", "h", "Set image height <size>", 1⟩,
   ⟨CommandQuality, "-quality", "q", "Set jpeg quality <0 to 100>", 1⟩,
   ⟨CommandRaw, "-raw", "r", "Add raw bayer data to jpeg metadata", 0⟩,
   ⟨CommandOutput, "-output", "o", "Output filename <filename> (to write to stdout, use '-o -'). If not specified, no file is saved", 1⟩,
   ⟨CommandVerbose, "-verbose", "v", "Output verbose information during run", 0⟩,
   ⟨CommandTimeout, "-timeout", "t", "Time before takes picture and shuts down (if not specified, set to 5s)", 1⟩,
   ⟨CommandThumbnail, "-thumb", "th", "Set thumbnail parameters (x:y:quality)", 1⟩,
   ⟨CommandDemoMode, "-demo", "d", "Run a demo mode (cycle through range of camera options, no capture)", 0⟩,
   ⟨CommandEncoding, "-encoding", "e", "Encoding to use for output file (jpg, bmp, gif, png)", 1⟩,
   ⟨CommandExifTag, "-exif", "x", "EXIF tag to apply to captures (format as 'key=value')", 1⟩,
   ⟨CommandTimelapse, "-timelapse", "tl", "Timelapse mode. Takes a picture every <t>ms", 1⟩]

/-- The table `encoding_xref`. -/
def encoding_xref : List (String × Encoding) :=
  [("jpg", Encoding.jpeg), ("bmp", Encoding.bmp), ("gif", Encoding.gif), ("png", Encoding.png)]

/-- Modelled from the spec: `raspicli_get_command_id` of RaspiCLI.c, as `parse_cmdline`
calls it on the table and on the text that follows the first `-` of an argument: the id
and the number of parameters of the first entry whose `command` or `abbrev` is `arg`, or
nothing (the id -1, `num_parameters` not assigned) when there is no such entry. -/
def raspicli_get_command_id (commands : List COMMAND_LIST) (arg : String) :
    Option (Int × Int) :=
  (commands.find? fun c => decide (arg = c.command ∨ arg = c.abbr)).map fun c =>
    (c.id, c.num_parameters)

/-- What the C library and the parsers of the other modules answer to `parse_cmdline`.
`sscanf_u s` is the value that `sscanf(s, "%u", &x)` stores when it returns 1, and
nothing when it returns another value (it then stores nothing); `sscanf_d3 s` is the list
of the values that `sscanf(s, "%d:%d:%d", &a, &b, &c)` stores, in order, at most three;
the two parsers return the number of arguments they used, and
`raspipreview_parse_cmdline` also what it leaves in the preview parameters;
`filename_copy a` is what `state->filename` holds after `malloc(len + 10)` and
`strncpy(state->filename, a, len)` with `len = strlen(a)`: NULL when `malloc` fails, else
the text of `a` followed by the bytes that the block, which is not initialised and gets no
terminator from the copy, held up to its first zero byte. -/
structure CmdWorld where
  sscanf_u : String → Option Nat
  sscanf_d3 : String → List Int
  filename_copy : String → Option String
  raspicamcontrol_parse_cmdline : String → Option String → Nat
  raspipreview_parse_cmdline :
    RASPIPREVIEW_PARAMETERS → String → Option String → Nat × RASPIPREVIEW_PARAMETERS

/-- The `int` whose 32 bits are those of the `unsigned int` of value `n % 2 ^ 32`: what an
`int` field holds after `sscanf` has stored an unsigned value in it through `%u`. -/
def int_of_unsigned (n : Nat) : Int :=
  if n % 2 ^ 32 < 2 ^ 31 then ((n % 2 ^ 32 : Nat) : Int)
  else ((n % 2 ^ 32 : Nat) : Int) - 2 ^ 32

/-- `store_exif_tag(state, exif_tag)`: the state it leaves, and the index of `exifTags`
that it writes, if any.  A write at an index outside the array leaves the array as it
was. -/
def store_exif_tag (state : RASPISTILL_STATE) (exif_tag : Option String) :
    RASPISTILL_STATE × Option Int :=
  if state.numExifTags < (MAX_USER_EXIF_TAGS : Int) then
    ({ state with
        exifTags :=
          if 0 ≤ state.numExifTags then state.exifTags.set state.numExifTags.toNat exif_tag
          else state.exifTags
        numExifTags := state.numExifTags + 1 },
      some state.numExifTags)
  else (state, none)

/-- What one iteration of the loop of `parse_cmdline` leaves: `valid`, what the body adds
to `i` before the `i++` of the loop, the state, what it prints on the standard error, and
whether it has dereferenced NULL. -/
structure ParseStep where
  valid : Bool
  skip : Nat
  state : RASPISTILL_STATE
  out : List Event
  faulted : Bool
  deriving DecidableEq, Repr

/-- The `default:` branch of the switch of `parse_cmdline`: the option is offered to
`raspicamcontrol_parse_cmdline`, then to `raspipreview_parse_cmdline`. -/
def parse_default (cw : CmdWorld) (arg : String) (second_arg : Option String)
    (state : RASPISTILL_STATE) : ParseStep :=
  let parms_used := cw.raspicamcontrol_parse_cmdline arg second_arg
  if parms_used ≠ 0 then ⟨true, parms_used - 1, state, [], false⟩
  else
    let p := cw.raspipreview_parse_cmdline state.preview_parameters arg second_arg
    let state := { state with preview_parameters := p.2 }
    if p.1 = 0 then ⟨false, 0, state, [], false⟩ else ⟨true, p.1 - 1, state, [], false⟩

/-- The switch of `parse_cmdline` on `command_id`, for the option `arg` (the text after
the first `-`).  `next` is `argv[i + 1]`, nothing when `i + 1 >= argc`: `argv[argc]` is
NULL, and a branch that reads its text dereferences NULL. -/
def parse_command (cw : CmdWorld) (command_id : Int) (arg : String) (next : Option String)
    (state : RASPISTILL_STATE) : ParseStep :=
  if command_id = CommandHelp then
    ⟨true, 0, state, [Event.diag "usage: RaspiStill [options]"], false⟩
  else if command_id = CommandRaw then ⟨true, 0, { state with wantRAW := 1 }, [], false⟩
  else if command_id = CommandVerbose then ⟨true, 0, { state with verbose := 1 }, [], false⟩
  else if command_id = CommandDemoMode then
    match next with
    | none => ⟨true, 0, { state with demoMode := 1 }, [], false⟩
    | some a =>
      if a.toList.head? ≠ some '-' then
        match cw.sscanf_u a with
        | some v =>
          ⟨true, 1, { state with demoInterval := int_of_unsigned v, demoMode := 1 }, [], false⟩
        | none => ⟨false, 0, state, [], false⟩
      else ⟨true, 0, { state with demoMode := 1 }, [], false⟩
  else if command_id < CommandHelp ∨ CommandTimelapse < command_id then
    parse_default cw arg next state
  else
    match next with
    | none => ⟨true, 0, state, [], true⟩
    | some a =>
      if command_id = CommandWidth then
        match cw.sscanf_u a with
        | some v => ⟨true, 1, { state with width := int_of_unsigned v }, [], false⟩
        | none => ⟨false, 0, state, [], false⟩
      else if command_id = CommandHeight then
        match cw.sscanf_u a with
        | some v => ⟨true, 1, { state with height := int_of_unsigned v }, [], false⟩
        | none => ⟨false, 0, state, [], false⟩
      else if command_id = CommandQuality then
        match cw.sscanf_u a with
        | some v =>
          if int_of_unsigned v > 100 then
            ⟨true, 1, { state with quality := 100 }, [Event.diag "Setting max quality = 100"],
              false⟩
          else ⟨true, 1, { state with quality := int_of_unsigned v }, [], false⟩
        | none => ⟨false, 0, state, [], false⟩
      else if command_id = CommandOutput then
        if a.utf8ByteSize ≠ 0 then
          ⟨true, 1, { state with filename := cw.filename_copy a }, [], false⟩
        else ⟨false, 0, state, [], false⟩
      else if command_id = CommandTimeout then
        match cw.sscanf_u a with
        | some v => ⟨true, 1, { state with timeout := int_of_unsigned v }, [], false⟩
        | none => ⟨false, 0, state, [], false⟩
      else if command_id = CommandThumbnail then
        let l := cw.sscanf_d3 a
        let t := state.thumbnailConfig
        ⟨true, 1, { state with thumbnailConfig :=
          ⟨t.enable, l.getD 0 t.width, l.getD 1 t.height, l.getD 2 t.quality⟩ }, [], false⟩
      else if command_id = CommandEncoding then
        if a.utf8ByteSize ≠ 0 then
          match encoding_xref.find? fun e => decide (e.1 = a) with
          | some e => ⟨true, 1, { state with encoding := e.2 }, [], false⟩
          | none => ⟨false, 0, state, [], false⟩
        else ⟨false, 0, state, [], false⟩
      else if command_id = CommandExifTag then
        ⟨true, 1, (store_exif_tag state (some a)).1, [], false⟩
      else
        match cw.sscanf_u a with
        | some v => ⟨true, 1, { state with timelapse := int_of_unsigned v }, [], false⟩
        | none => ⟨false, 0, state, [], false⟩

/-- The body of the loop of `parse_cmdline` for `argv[i]`, with `next` the argument
`argv[i + 1]`, nothing when `i + 1 >= argc`. -/
def parse_option (cw : CmdWorld) (argv_i : String) (next : Option String)
    (state : RASPISTILL_STATE) : ParseStep :=
  if argv_i.toList.head? ≠ some '-' then ⟨false, 0, state, [], false⟩
  else
    let arg : String := ⟨argv_i.toList.drop 1⟩
    match raspicli_get_command_id cmdline_commands arg with
    | none => parse_default cw arg next state
    | some (command_id, num_parameters) =>
      if num_parameters > 0 ∧ next = none then ⟨true, 0, state, [], false⟩
      else parse_command cw command_id arg next state

/-- What `parse_cmdline` leaves: the value it returns, the state, what it printed on the
standard error, and whether it has dereferenced NULL (it then returns nothing). -/
structure Cmdline where
  status : Int
  state : RASPISTILL_STATE
  out : List Event
  faulted : Bool
  deriving DecidableEq, Repr

/-- The loop `for (i = 1; i < argc && valid; i++)` of `parse_cmdline` on the arguments
from `argv[i]` on, `skip` of which an earlier iteration has consumed; the result is the
final `valid`. -/
def parse_loop (cw : CmdWorld) : Nat → List String → RASPISTILL_STATE → ParseStep
  | _, [], state => ⟨true, 0, state, [], false⟩
  | skip + 1, _ :: rest, state => parse_loop cw skip rest state
  | 0, argv_i :: rest, state =>
    let s := parse_option cw argv_i rest.head? state
    if s.faulted ∨ ¬ s.valid then s
    else
      let r := parse_loop cw s.skip rest s.state
      { r with out := s.out ++ r.out }

/-- `parse_cmdline(argc, argv, state)`, with `argc` the length of `argv`, whose entries
are not NULL. -/
def parse_cmdline (cw : CmdWorld) (argv : List String) (state : RASPISTILL_STATE) :
    Cmdline :=
  let r := parse_loop cw 0 (argv.drop 1) state
  if r.faulted then ⟨0, r.state, r.out, true⟩
  else if ¬ r.valid then
    ⟨1, r.state, r.out ++ [Event.diag "Invalid command line option"], false⟩
  else ⟨0, r.state, r.out, false⟩

/-- The leading decimal digits of a text and what follows them. -/
def scan_decimal (l : List Char) : Option (Nat × List Char) :=
  if l.takeWhile Char.isDigit = [] then none
  else some ((l.takeWhile Char.isDigit).foldl (fun n ch => 10 * n + (ch.toNat - 48)) 0,
    l.dropWhile Char.isDigit)

/-- The values that the pattern `%d:%d:%d` reads in a text of unsigned decimal numbers. -/
def scan_d3 (l : List Char) : List Int :=
  match scan_decimal l with
  | none => []
  | some (a, r) =>
    match r with
    | ':' :: r =>
      match scan_decimal r with
      | none => [(a : Int)]
      | some (b, r) =>
        match r with
        | ':' :: r =>
          match scan_decimal r with
          | none => [(a : Int), (b : Int)]
          | some (c, _) => [(a : Int), (b : Int), (c : Int)]
        | _ => [(a : Int), (b : Int)]
    | _ => [(a : Int)]

/-- A C library that reads unsigned decimal numbers and allocates blocks of zero bytes,
and other modules that recognise no option. -/
def CmdWorld.sample : CmdWorld :=
  { sscanf_u := fun s => (scan_decimal s.toList).map fun p => p.1 % 2 ^ 32
    sscanf_d3 := fun s => scan_d3 s.toList
    filename_copy := fun a => some a
    raspicamcontrol_parse_cmdline := fun _ _ => 0
    raspipreview_parse_cmdline := fun p _ _ => (0, p) }

/-- The state that `default_status` leaves, with an array `exifTags` of 32 pointers and a
preview requested. -/
def RASPISTILL_STATE.default : RASPISTILL_STATE :=
  default_status RASPISTILL_STATE.sample ⟨1, false⟩

/-- The state after the calls `store_exif_tag(state, t)` for the tags `t` of `tags`, in
order. -/
def store_exif_tags (state : RASPISTILL_STATE) (tags : List String) : RASPISTILL_STATE :=
  tags.foldl (fun s t => (store_exif_tag s (some t)).1) state

end RaspiStill

/-! # Theorems -/

namespace RaspiStill

/-! ## connect_ports -/

/-- C2 (the code at the failing input): the connection is created, the enable fails with
status 1, the destroy succeeds; `connect_ports` destroys the connection and returns
`MMAL_SUCCESS`, the status of the destroy, not the failure of the enable. -/
theorem connect_ports_enable_failure_returns_success :
    connect_ports ⟨fun _ => 0, fun _ => 1, fun _ => 0⟩ Port.camera_still_port
        Port.encoder_input_port ConnSlot.encoder_connection ConnState.null
      = ⟨MMAL_SUCCESS, ConnState.destroyed,
          [Event.connection_create ConnSlot.encoder_connection Port.camera_still_port
            Port.encoder_input_port,
           Event.connection_enable ConnSlot.encoder_connection,
           Event.connection_destroy ConnSlot.encoder_connection]⟩ := by
  decide

/-- After a successful create and a failed enable, `connect_ports` returns whatever
`mmal_connection_destroy` returns. -/
theorem connect_ports_status_of_enable_failure (w : ConnWorld) (o i : Port) (slot : ConnSlot)
    (old : ConnState) (hc : w.connection_create slot = MMAL_SUCCESS)
    (he : w.connection_enable slot ≠ MMAL_SUCCESS) :
    (connect_ports w o i slot old).status = w.connection_destroy slot
      ∧ (connect_ports w o i slot old).connection = ConnState.destroyed := by
  simp [connect_ports, hc, he]

/-! ## encoder_buffer_callback -/

/-- A bitwise or is zero exactly when both operands are. -/
theorem lor_eq_zero_iff (a b : Nat) : a ||| b = 0 ↔ a = 0 ∧ b = 0 := by
  constructor
  · intro h
    have key : ∀ i, a.testBit i = false ∧ b.testBit i = false := by
      intro i
      have := congrArg (fun n => n.testBit i) h
      simpa [Nat.testBit_or] using this
    exact ⟨Nat.eq_of_testBit_eq (fun i => by simp [(key i).1]),
      Nat.eq_of_testBit_eq (fun i => by simp [(key i).2])⟩
  · rintro ⟨rfl, rfl⟩
    rfl

/-- The test `flags & (A | B)` of the callback holds exactly when the flags contain
`A` or contain `B`. -/
theorem land_lor_ne_zero_iff (flags a b : Nat) :
    flags &&& (a ||| b) ≠ 0 ↔ hasFlag flags a ∨ hasFlag flags b := by
  unfold hasFlag
  rw [Nat.and_or_distrib_left, Ne, lor_eq_zero_iff]
  tauto

/-- C6: with non-null userdata the callback posts the completion semaphore exactly once
when the buffer flags contain FRAME_END or TRANSMISSION_FAILED and not at all otherwise,
whatever the sink handle, the buffer length, the state of the port and the outcome of
the resubmission; and it does not fault. -/
theorem encoder_buffer_callback_posts_once_iff_complete (a : CallbackArgs)
    (pData : PORT_USERDATA) (h : a.userdata = some pData) :
    (encoder_buffer_callback a).trace.count Event.semaphore_post =
        (if hasFlag a.flags a.FLAG_FRAME_END ∨ hasFlag a.flags a.FLAG_TRANSMISSION_FAILED
          then 1 else 0)
      ∧ (encoder_buffer_callback a).faulted = false := by
  have hc := land_lor_ne_zero_iff a.flags a.FLAG_FRAME_END a.FLAG_TRANSMISSION_FAILED
  by_cases hf : hasFlag a.flags a.FLAG_FRAME_END ∨ hasFlag a.flags a.FLAG_TRANSMISSION_FAILED
  · have hd := hc.mpr hf
    rw [if_pos hf]
    simp only [encoder_buffer_callback, h, callback_finish]
    cases pData.file_handle <;> cases a.new_buffer <;> cases a.is_enabled <;>
      by_cases hl : a.length = 0 <;> by_cases hs : a.send_status = MMAL_SUCCESS <;>
      simp [hl, hs, hd, List.count_cons, List.count_append]
  · have hd : a.flags &&& (a.FLAG_FRAME_END ||| a.FLAG_TRANSMISSION_FAILED) = 0 :=
      by_contra fun x => hf (hc.mp x)
    rw [if_neg hf]
    simp only [encoder_buffer_callback, h, callback_finish]
    cases pData.file_handle <;> cases a.new_buffer <;> cases a.is_enabled <;>
      by_cases hl : a.length = 0 <;> by_cases hs : a.send_status = MMAL_SUCCESS <;>
      simp [hl, hs, hd, List.count_cons, List.count_append]

/-- Witness of C6: a buffer with flag FRAME_END (bit 2) and a closed sink on an enabled
port whose resubmission fails: one post. -/
theorem encoder_buffer_callback_posts_once_iff_complete_witness :
    (encoder_buffer_callback ⟨4, 1024, some ⟨none⟩, true, 0, 0, 4, some 1, 1⟩).trace.count
        Event.semaphore_post = (if hasFlag 4 4 ∨ hasFlag 4 1024 then 1 else 0)
      ∧ (encoder_buffer_callback ⟨4, 1024, some ⟨none⟩, true, 0, 0, 4, some 1, 1⟩).faulted
          = false :=
  encoder_buffer_callback_posts_once_iff_complete
    ⟨4, 1024, some ⟨none⟩, true, 0, 0, 4, some 1, 1⟩ ⟨none⟩ rfl

/-- C7: with non-null userdata, when the sink handle is not NULL and the buffer length is
not zero the callback starts with the lock of the buffer, the write of exactly
`length` bytes of it to the sink and the unlock, and touches the sink no further; when
the sink handle is NULL or the length is zero it neither locks nor writes; in both cases
it does not fault. -/
theorem encoder_buffer_callback_writes_iff_sink_and_payload (a : CallbackArgs)
    (pData : PORT_USERDATA) (h : a.userdata = some pData) :
    (∀ f, pData.file_handle = some f → a.length ≠ 0 →
        ∃ rest, (encoder_buffer_callback a).trace =
            [Event.mem_lock a.buffer, Event.fwrite a.buffer a.length f,
              Event.mem_unlock a.buffer] ++ rest
          ∧ ∀ e ∈ rest, e.isSink = false)
      ∧ ((pData.file_handle = none ∨ a.length = 0) →
          ∀ e ∈ (encoder_buffer_callback a).trace, e.isSink = false)
      ∧ (encoder_buffer_callback a).faulted = false := by
  obtain ⟨fh⟩ := pData
  by_cases hd : a.flags &&& (a.FLAG_FRAME_END ||| a.FLAG_TRANSMISSION_FAILED) = 0 <;>
    cases fh <;> cases hn : a.new_buffer <;> cases he : a.is_enabled <;>
    by_cases hl : a.length = 0 <;> by_cases hs : a.send_status = MMAL_SUCCESS <;>
    simp [encoder_buffer_callback, callback_finish, h, hd, hn, he, hl, hs, Event.isSink]

/-- Witness of C7: an open sink and ten bytes of payload. -/
theorem encoder_buffer_callback_writes_iff_sink_and_payload_witness :
    (∀ f, (⟨some (FILE.opened 7)⟩ : PORT_USERDATA).file_handle = some f → (10 : Nat) ≠ 0 →
        ∃ rest, (encoder_buffer_callback
            ⟨4, 1024, some ⟨some (FILE.opened 7)⟩, true, 5, 10, 0, some 1, 0⟩).trace =
            [Event.mem_lock 5, Event.fwrite 5 10 f, Event.mem_unlock 5] ++ rest
          ∧ ∀ e ∈ rest, e.isSink = false)
      ∧ (((⟨some (FILE.opened 7)⟩ : PORT_USERDATA).file_handle = none ∨ (10 : Nat) = 0) →
          ∀ e ∈ (encoder_buffer_callback
            ⟨4, 1024, some ⟨some (FILE.opened 7)⟩, true, 5, 10, 0, some 1, 0⟩).trace,
            e.isSink = false)
      ∧ (encoder_buffer_callback
            ⟨4, 1024, some ⟨some (FILE.opened 7)⟩, true, 5, 10, 0, some 1, 0⟩).faulted = false :=
  encoder_buffer_callback_writes_iff_sink_and_payload
    ⟨4, 1024, some ⟨some (FILE.opened 7)⟩, true, 5, 10, 0, some 1, 0⟩
    ⟨some (FILE.opened 7)⟩ rfl

set_option maxHeartbeats 1000000 in
/-- C8: every invocation of the callback releases the delivered buffer exactly once, and
neither takes nor sends a buffer before that; it calls `mmal_queue_get` at most once,
and only on an enabled port; on a disabled port it neither takes nor sends a buffer.
It aborts (dereferences NULL) exactly when the userdata is NULL and the port enabled,
and posts exactly when the userdata is not NULL and the flags are set: neither depends
on the result of `mmal_queue_get` or on the status of the send. -/
theorem encoder_buffer_callback_release_and_resubmit (a : CallbackArgs) :
    (encoder_buffer_callback a).trace.filter Event.isRelease = [Event.release a.buffer]
      ∧ ((encoder_buffer_callback a).trace.takeWhile (fun e => !e.isRelease)).all
          (fun e => !e.isQueueGet && !e.isSend) = true
      ∧ (encoder_buffer_callback a).trace.countP Event.isQueueGet ≤ 1
      ∧ ((encoder_buffer_callback a).trace.countP Event.isQueueGet = 1 → a.is_enabled = true)
      ∧ (a.is_enabled = false →
          ∀ e ∈ (encoder_buffer_callback a).trace, e.isQueueGet = false ∧ e.isSend = false)
      ∧ ((encoder_buffer_callback a).faulted = true ↔ a.userdata = none ∧ a.is_enabled = true)
      ∧ (Event.semaphore_post ∈ (encoder_buffer_callback a).trace ↔
          a.userdata ≠ none
            ∧ a.flags &&& (a.FLAG_FRAME_END ||| a.FLAG_TRANSMISSION_FAILED) ≠ 0) := by
  by_cases hd : a.flags &&& (a.FLAG_FRAME_END ||| a.FLAG_TRANSMISSION_FAILED) = 0 <;>
    rcases hu : a.userdata with _ | ⟨_ | fh⟩ <;> cases hn : a.new_buffer <;>
    cases he : a.is_enabled <;>
    by_cases hl : a.length = 0 <;> by_cases hs : a.send_status = MMAL_SUCCESS <;>
    simp [encoder_buffer_callback, callback_finish, hu, hd, hn, he, hl, hs, Event.isRelease,
      Event.isQueueGet, Event.isSend, List.filter_cons, List.countP_cons, List.takeWhile_cons]

/-! ## The buffer pool -/

/-- Moving one occurrence of `b` out of a list that holds it keeps the counts. -/
theorem count_erase_add_singleton (l : List Buf) (b x : Buf) (h : b ∈ l) :
    List.count x (l.erase b) + List.count x [b] = List.count x l := by
  have hpos : 0 < List.count b l := List.count_pos_iff.mpr h
  rw [List.count_erase, List.count_singleton]
  by_cases hx : b = x
  · subst hx; simp; omega
  · have : ¬ x = b := fun e => hx e.symm
    simp [hx, this]

/-- No call creates or destroys a buffer: a call permutes the buffers of the pool. -/
theorem PoolState.apply_all_perm (p : PoolState) (e : Event) : (p.apply e).all.Perm p.all := by
  cases e
  case release b =>
    simp only [PoolState.apply]
    split
    · rename_i h
      rw [List.perm_iff_count]
      intro x
      have := count_erase_add_singleton p.held b x h
      simp only [PoolState.all, List.count_append] at *
      omega
    · exact List.Perm.refl _
  case queue_get r =>
    cases r with
    | none => exact List.Perm.refl _
    | some b =>
      simp only [PoolState.apply]
      split
      · rename_i h
        rw [List.perm_iff_count]
        intro x
        have := count_erase_add_singleton p.queue b x h
        simp only [PoolState.all, List.count_append] at *
        omega
      · exact List.Perm.refl _
  case send_buffer r st =>
    cases r with
    | none => exact List.Perm.refl _
    | some b =>
      simp only [PoolState.apply]
      split
      · rename_i h
        rw [List.perm_iff_count]
        intro x
        have := count_erase_add_singleton p.taken b x h.2
        simp only [PoolState.all, List.count_append] at *
        omega
      · exact List.Perm.refl _
  all_goals exact List.Perm.refl _

/-- A trace permutes the buffers of the pool. -/
theorem PoolState.run_all_perm (t : List Event) (p : PoolState) : (p.run t).all.Perm p.all := by
  induction t generalizing p with
  | nil => exact List.Perm.refl _
  | cons e t ih =>
    simp only [PoolState.run, List.foldl_cons] at ih ⊢
    exact (ih (p.apply e)).trans (p.apply_all_perm e)

/-- A step permutes the buffers of the pool. -/
theorem PoolState.step_all_perm (p : PoolState) (s : PoolStep) : (p.step s).all.Perm p.all := by
  cases s with
  | feed send => exact PoolState.run_all_perm _ p
  | deliver b =>
    simp only [PoolState.step, PoolState.deliver]
    split
    · rename_i h
      rw [List.perm_iff_count]
      intro x
      have := count_erase_add_singleton p.inflight b x h
      simp only [PoolState.all, List.count_append] at *
      omega
    · exact List.Perm.refl _
  | reclaim a =>
    simp only [PoolState.step, PoolState.reclaim]
    split
    · exact PoolState.run_all_perm _ p
    · exact List.Perm.refl _

/-- A sequence of steps permutes the buffers of the pool. -/
theorem PoolState.steps_all_perm (l : List PoolStep) (p : PoolState) :
    (p.steps l).all.Perm p.all := by
  induction l generalizing p with
  | nil => exact List.Perm.refl _
  | cons s l ih =>
    simp only [PoolState.steps, List.foldl_cons] at ih ⊢
    exact (ih (p.step s)).trans (p.step_all_perm s)


/-- Running two traces in sequence. -/
theorem PoolState.run_append (p : PoolState) (t u : List Event) :
    p.run (t ++ u) = (p.run t).run u := by
  simp [PoolState.run, List.foldl_append]

/-- With every send accepted, the drain loop leaves no buffer taken and unsent. -/
theorem PoolState.run_feed_loop_taken (get : Nat → Option Buf) (send : Nat → MMAL_STATUS_T)
    (hs : ∀ q, send q = MMAL_SUCCESS) (n q : Nat) (p : PoolState) (hp : p.taken = []) :
    (p.run (feed_loop get send n q)).taken = [] := by
  induction n generalizing q p with
  | zero => simpa [feed_loop, PoolState.run] using hp
  | succ n ih =>
    rw [feed_loop, PoolState.run_append]
    apply ih
    cases hg : get q with
    | none => simp [PoolState.run, PoolState.apply, hs q, hp]
    | some b =>
      by_cases hb : b ∈ p.queue <;>
        simp [PoolState.run, PoolState.apply, hs q, hp, hb, MMAL_SUCCESS]

/-- With the send accepted, the callback leaves no buffer taken and unsent. -/
theorem PoolState.reclaim_taken (p : PoolState) (a : CallbackArgs)
    (hs : a.send_status = MMAL_SUCCESS) (hp : p.taken = []) : (p.reclaim a).taken = [] := by
  unfold PoolState.reclaim
  split
  · rename_i hmem
    obtain ⟨nb, hnb⟩ : ∃ nb, (p.queue ++ [a.buffer]).head? = some nb := by
      cases p.queue <;> simp
    by_cases hd : a.flags &&& (a.FLAG_FRAME_END ||| a.FLAG_TRANSMISSION_FAILED) = 0 <;>
      rcases hu : a.userdata with _ | ⟨_ | fh⟩ <;> cases he : a.is_enabled <;>
      by_cases hl : a.length = 0 <;>
      simp [encoder_buffer_callback, callback_finish, hu, hd, hnb, he, hl, hs, hp,
        PoolState.run, PoolState.apply, hmem] <;>
      split <;> simp_all
  · exact hp

/-- With every send accepted, a step leaves no buffer taken and unsent. -/
theorem PoolState.step_taken (p : PoolState) (s : PoolStep) (hs : s.sendsOk)
    (hp : p.taken = []) : (p.step s).taken = [] := by
  cases s with
  | feed send =>
    simp only [PoolState.step, PoolState.feed, feed_pool]
    show ((p.apply Event.queue_length).run _).taken = []
    exact PoolState.run_feed_loop_taken _ send hs _ 0 _ hp
  | deliver b =>
    simp only [PoolState.step, PoolState.deliver]
    split <;> simpa using hp
  | reclaim a => exact PoolState.reclaim_taken p a hs hp

/-- With every send accepted, a sequence of steps leaves no buffer taken and unsent. -/
theorem PoolState.steps_taken (l : List PoolStep) (p : PoolState)
    (hs : ∀ s ∈ l, s.sendsOk) (hp : p.taken = []) : (p.steps l).taken = [] := by
  induction l generalizing p with
  | nil => simpa [PoolState.steps] using hp
  | cons s l ih =>
    simp only [PoolState.steps, List.foldl_cons] at ih ⊢
    exact ih (p.step s) (fun x hx => hs x (List.mem_cons_of_mem _ hx))
      (PoolState.step_taken p s (hs s (List.mem_cons_self _ _)) hp)

/-- C3 (counterexample): with a pool of one buffer, a drain loop whose send fails leaves
the buffer neither idle, nor in flight, nor held: the total of the three states drops
from 1 to 0.  The same happens when the resubmission of the callback fails. -/
theorem pool_failed_send_loses_buffer :
    (PoolState.init 1).steps [PoolStep.feed (fun _ => 1)] = ⟨[], [], [], [0]⟩
      ∧ ((PoolState.init 1).steps [PoolStep.feed (fun _ => 1)]).queue.length
          + ((PoolState.init 1).steps [PoolStep.feed (fun _ => 1)]).inflight.length
          + ((PoolState.init 1).steps [PoolStep.feed (fun _ => 1)]).held.length ≠ 1
      ∧ (PoolState.init 1).steps [PoolStep.feed (fun _ => 0), PoolStep.deliver 0,
          PoolStep.reclaim ⟨4, 1024, some ⟨none⟩, true, 0, 0, 4, none, 1⟩]
        = ⟨[], [], [], [0]⟩ := by
  decide

/-- C3 (amended): after every sequence of feed, deliver and reclaim steps on a pool of
`n` buffers, the buffers idle in the queue, in flight, held by the callback and taken
but refused by the port are together a permutation of the `n` buffers, whatever the
send statuses; and when every send succeeds none is taken and refused, so that every
buffer is in exactly one of the three states idle, in flight, held, and their total
is `n`. -/
theorem pool_conservation (n : Nat) (l : List PoolStep) :
    ((PoolState.init n).steps l).all.Perm (List.range n)
      ∧ ((∀ s ∈ l, s.sendsOk) →
          ((PoolState.init n).steps l).taken = []
            ∧ (((PoolState.init n).steps l).queue ++ ((PoolState.init n).steps l).inflight
                ++ ((PoolState.init n).steps l).held).Perm (List.range n)
            ∧ (((PoolState.init n).steps l).queue ++ ((PoolState.init n).steps l).inflight
                ++ ((PoolState.init n).steps l).held).Nodup
            ∧ ((PoolState.init n).steps l).queue.length
                + ((PoolState.init n).steps l).inflight.length
                + ((PoolState.init n).steps l).held.length = n) := by
  have hall : ((PoolState.init n).steps l).all.Perm (List.range n) := by
    have h := PoolState.steps_all_perm l (PoolState.init n)
    simpa [PoolState.init, PoolState.all] using h
  refine ⟨hall, fun hs => ?_⟩
  have ht := PoolState.steps_taken l (PoolState.init n) hs rfl
  have hperm : (((PoolState.init n).steps l).queue ++ ((PoolState.init n).steps l).inflight
      ++ ((PoolState.init n).steps l).held).Perm (List.range n) := by
    simpa [PoolState.all, ht] using hall
  refine ⟨ht, hperm, hperm.nodup_iff.mpr (List.nodup_range n), ?_⟩
  have hlen := hperm.length_eq
  simp only [List.length_append, List.length_range] at hlen
  exact hlen

/-- Witness of C3 (amended): three buffers, a drain loop, a delivery and a reclaim, all
sends accepted. -/
theorem pool_conservation_witness :
    ((PoolState.init 3).steps [PoolStep.feed (fun _ => 0), PoolStep.deliver 1,
        PoolStep.reclaim ⟨4, 1024, some ⟨none⟩, true, 1, 0, 4, none, 0⟩]).taken = []
      ∧ ((PoolState.init 3).steps [PoolStep.feed (fun _ => 0), PoolStep.deliver 1,
        PoolStep.reclaim ⟨4, 1024, some ⟨none⟩, true, 1, 0, 4, none, 0⟩]).queue.length
        + ((PoolState.init 3).steps [PoolStep.feed (fun _ => 0), PoolStep.deliver 1,
        PoolStep.reclaim ⟨4, 1024, some ⟨none⟩, true, 1, 0, 4, none, 0⟩]).inflight.length
        + ((PoolState.init 3).steps [PoolStep.feed (fun _ => 0), PoolStep.deliver 1,
        PoolStep.reclaim ⟨4, 1024, some ⟨none⟩, true, 1, 0, 4, none, 0⟩]).held.length = 3 :=
  have h := (pool_conservation 3 [PoolStep.feed (fun _ => 0), PoolStep.deliver 1,
      PoolStep.reclaim ⟨4, 1024, some ⟨none⟩, true, 1, 0, 4, none, 0⟩]).2
    (by simp [PoolStep.sendsOk, MMAL_SUCCESS])
  ⟨h.1, h.2.2.2⟩

/-! ## The capture loop -/

/-- The capture loop runs the body for `frame`, `frame + 1`, ... in this order, once for
each of the `m` frame numbers up to `num_iterations`, and then faults when the counter
has passed `INT_MAX`. -/
theorem frame_loop_eq (w : World) (num_iterations : Int) (m : Nat) (frame : Int)
    (c : Capture) (hm : (num_iterations + 1 - frame).toNat = m) :
    frame_loop w num_iterations frame c =
      if INT_MAX < frame + (m : Int) then
        { ((List.range m).map (fun i : Nat => frame + (i : Int))).foldl
            (fun c k => capture_frame w k c) c with
          run := { (((List.range m).map (fun i : Nat => frame + (i : Int))).foldl
            (fun c k => capture_frame w k c) c).run with faulted := true } }
      else
        ((List.range m).map (fun i : Nat => frame + (i : Int))).foldl
          (fun c k => capture_frame w k c) c := by
  induction m generalizing frame c with
  | zero =>
    rw [frame_loop, if_neg (by omega)]
    simp
  | succ m ih =>
    have hfold : ∀ c : Capture,
        ((List.range m).map (fun i : Nat => frame + 1 + (i : Int))).foldl
            (fun c k => capture_frame w k c) (capture_frame w frame c)
          = ((List.range (m + 1)).map (fun i : Nat => frame + (i : Int))).foldl
            (fun c k => capture_frame w k c) c := by
      intro c
      rw [List.range_succ_eq_map]
      simp only [List.map_cons, List.map_map, List.foldl_cons, Nat.cast_zero, add_zero]
      congr 2
      funext i
      simp only [Function.comp, Nat.succ_eq_add_one, Nat.cast_add, Nat.cast_one]
      omega
    have hcond : (INT_MAX < frame + 1 + (m : Int)) ↔ (INT_MAX < frame + ((m + 1 : Nat) : Int)) := by
      constructor <;> intro h <;> push_cast at h ⊢ <;> omega
    rw [frame_loop, if_pos (by omega), ih (frame + 1) _ (by omega), hfold]
    by_cases h : INT_MAX < frame + 1 + (m : Int)
    · rw [if_pos h, if_pos (hcond.1 h)]
    · rw [if_neg h, if_neg (fun h' => h (hcond.2 h'))]

/-- The capture loop whose counter stays within the `int` range runs the body for
`frame`, `frame + 1`, ... in this order, once for each of the `m` frame numbers up to
`num_iterations`. -/
theorem frame_loop_eq_foldl (w : World) (num_iterations : Int) (m : Nat) (frame : Int)
    (c : Capture) (hm : (num_iterations + 1 - frame).toNat = m)
    (hmax : frame + (m : Int) ≤ INT_MAX) :
    frame_loop w num_iterations frame c =
      ((List.range m).map (fun i : Nat => frame + (i : Int))).foldl
        (fun c k => capture_frame w k c) c := by
  rw [frame_loop_eq w num_iterations m frame c hm, if_neg (by omega)]

/-- The capture loop whose counter passes `INT_MAX` faults after the body has run for the
frames up to `num_iterations`. -/
theorem frame_loop_overflow (w : World) (num_iterations : Int) (m : Nat) (frame : Int)
    (c : Capture) (hm : (num_iterations + 1 - frame).toNat = m)
    (hmax : INT_MAX < frame + (m : Int)) :
    (frame_loop w num_iterations frame c).run.faulted = true
      ∧ (frame_loop w num_iterations frame c).run.trace =
        (((List.range m).map (fun i : Nat => frame + (i : Int))).foldl
          (fun c k => capture_frame w k c) c).run.trace := by
  rw [frame_loop_eq w num_iterations m frame c hm, if_pos hmax]
  exact ⟨rfl, rfl⟩

/-- The state after the capture loop is the state after the bodies of its frames. -/
theorem frame_loop_state (w : World) (num_iterations frame : Int) (c : Capture) :
    (frame_loop w num_iterations frame c).run.state =
      (((List.range (num_iterations + 1 - frame).toNat).map
          (fun i : Nat => frame + (i : Int))).foldl
        (fun c k => capture_frame w k c) c).run.state := by
  rw [frame_loop_eq w num_iterations _ frame c rfl]
  split_ifs <;> rfl

/-- The semaphore is not deleted after a loop that faults. -/
theorem capture_mode_overflow (w : World) (r : Run) (n : Nat)
    (hn : capture_iterations r.state = some (n : Int)) (hmax : INT_MAX ≤ (n : Int)) :
    (capture_mode w r).faulted = true
      ∧ Event.semaphore_delete ∉ (capture_mode w r).trace.drop
          (frame_loop w n 1 ⟨r, none, none⟩).run.trace.length := by
  have hf := (frame_loop_overflow w n n 1 ⟨r, none, none⟩ (by omega) (by omega)).1
  simp [capture_mode, hn, capture_finish, hf]

/-- C4 (amended): outside demo mode, for a timelapse interval `T > 0` and a timeout
`D ≥ 0` the number `n` of iterations of the capture loop is the floor of `D / T`
(`n * T ≤ D < (n + 1) * T`); when `n < INT_MAX` the loop runs the body for the frames
`1, 2, ..., n` in this order and ends; when `n = INT_MAX` or more (timelapse 1 and
timeout 2147483647) it runs the body for these frames, and then the test
`frame <= num_iterations` cannot fail and `frame++` overflows: the run faults instead of
leaving the loop.  With timelapse 0 it runs the body once, for frame 1; with timelapse
1000 and timeout 5000 it runs it for the frames 1 to 5.  The capture branch of `main` is
this loop with this number of iterations. -/
theorem capture_loop_frame_count (w : World) (state : RASPISTILL_STATE) (c : Capture) :
    (0 < state.timelapse → 0 ≤ state.timeout →
        ∃ n : Nat, (n : Int) * state.timelapse ≤ state.timeout
          ∧ state.timeout < ((n : Int) + 1) * state.timelapse
          ∧ n = state.timeout.toNat / state.timelapse.toNat
          ∧ capture_iterations state = some (n : Int)
          ∧ ((n : Int) < INT_MAX →
              frame_loop w n 1 c =
                ((List.range n).map (fun i : Nat => 1 + (i : Int))).foldl
                  (fun c k => capture_frame w k c) c)
          ∧ (INT_MAX ≤ (n : Int) →
              (frame_loop w n 1 c).run.faulted = true
                ∧ (frame_loop w n 1 c).run.trace =
                  (((List.range n).map (fun i : Nat => 1 + (i : Int))).foldl
                    (fun c k => capture_frame w k c) c).run.trace))
      ∧ (state.timelapse = 0 →
          capture_iterations state = some 1 ∧ frame_loop w 1 1 c = capture_frame w 1 c)
      ∧ (state.timelapse = 1000 → state.timeout = 5000 →
          capture_iterations state = some 5
            ∧ frame_loop w 5 1 c =
                capture_frame w 5 (capture_frame w 4 (capture_frame w 3
                  (capture_frame w 2 (capture_frame w 1 c)))))
      ∧ (∀ r : Run, r.state = state → ∀ n : Int, capture_iterations state = some n →
          capture_mode w r = capture_finish (frame_loop w n 1 ⟨r, none, none⟩)) := by
  refine ⟨fun hT hD => ?_, fun h0 => ?_, fun hT hD => ?_, fun r hr n hn => ?_⟩
  rotate_right
  · subst hr
    simp [capture_mode, hn]
  · obtain ⟨t, ht⟩ := Int.eq_ofNat_of_zero_le (le_of_lt hT)
    obtain ⟨d, hd⟩ := Int.eq_ofNat_of_zero_le hD
    have htpos : 0 < t := by omega
    refine ⟨d / t, ?_, ?_, ?_, ?_, fun hn => ?_, fun hn => ?_⟩
    · rw [ht, hd]
      exact_mod_cast Nat.div_mul_le_self d t
    · rw [ht, hd]
      have := Nat.lt_div_mul_add htpos (a := d)
      have h2 : d < (d / t + 1) * t := by
        rw [Nat.add_mul, Nat.one_mul]; exact this
      exact_mod_cast h2
    · rw [ht, hd]; simp
    · have hne : ¬ (state.timelapse = 0 ∨ state.timeout = INT_MIN ∧ state.timelapse = -1) := by
        rintro (h | ⟨_, h⟩) <;> omega
      have hne' : state.timelapse ≠ 0 := by omega
      simp only [capture_iterations, int_div, hne, hne', ne_eq, not_false_eq_true, if_true,
        if_false]
      rw [ht, hd, Int.tdiv_eq_ediv (by omega) (by omega)]
      simp
    · refine frame_loop_eq_foldl w _ _ 1 c ?_ (by omega)
      rw [add_sub_cancel_right]
      exact Int.toNat_ofNat _
    · refine frame_loop_overflow w _ _ 1 c ?_ (by omega)
      rw [add_sub_cancel_right]
      exact Int.toNat_ofNat _
  · refine ⟨by simp [capture_iterations, h0], ?_⟩
    rw [frame_loop_eq_foldl w 1 1 1 c (by omega) (by decide)]
    rfl
  · refine ⟨by simp [capture_iterations, int_div, hT, hD]; decide, ?_⟩
    rw [frame_loop_eq_foldl w 5 5 1 c (by omega) (by decide)]
    rfl

/-- Witness of C4 (amended): timelapse 1000 and timeout 5000 give five iterations. -/
theorem capture_loop_frame_count_witness :
    capture_iterations { RASPISTILL_STATE.sample with timelapse := 1000 } = some 5
      ∧ frame_loop World.ok 5 1 ⟨⟨{ RASPISTILL_STATE.sample with timelapse := 1000 }, [], [], false⟩, none, none⟩ =
          capture_frame World.ok 5 (capture_frame World.ok 4 (capture_frame World.ok 3
            (capture_frame World.ok 2 (capture_frame World.ok 1
              ⟨⟨{ RASPISTILL_STATE.sample with timelapse := 1000 }, [], [], false⟩, none,
                none⟩)))) :=
  (capture_loop_frame_count World.ok { RASPISTILL_STATE.sample with timelapse := 1000 }
    ⟨⟨{ RASPISTILL_STATE.sample with timelapse := 1000 }, [], [], false⟩, none, none⟩).2.2.1
    rfl rfl

/-- C4 (counterexample): with timelapse 1 and timeout 2147483647 the number of iterations
is `INT_MAX`; the capture branch of `main` does not end after the frames 1 to
2147483647: the increment of the counter overflows, the run faults and the completion
semaphore is not deleted. -/
theorem capture_loop_overflows_at_int_max :
    capture_iterations { RASPISTILL_STATE.running with timelapse := 1, timeout := 2147483647 }
        = some 2147483647
      ∧ (capture_mode World.ok
          ⟨{ RASPISTILL_STATE.running with timelapse := 1, timeout := 2147483647 }, [], [],
            false⟩).faulted = true :=
  have h : capture_iterations
      { RASPISTILL_STATE.running with timelapse := 1, timeout := 2147483647 }
      = some ((2147483647 : Nat) : Int) := by decide
  ⟨h, (capture_mode_overflow World.ok _ 2147483647 h (by decide)).1⟩

/-! ## The body of the capture loop -/

@[simp] theorem Run.emit_trace (r : Run) (t : List Event) : (r.emit t).trace = r.trace ++ t := rfl

@[simp] theorem Run.emit_state (r : Run) (t : List Event) : (r.emit t).state = r.state := rfl

@[simp] theorem Run.emit_faulted (r : Run) (t : List Event) : (r.emit t).faulted = r.faulted := rfl

@[simp] theorem Run.emit_enabled (r : Run) (t : List Event) : (r.emit t).enabled = r.enabled := rfl

@[simp] theorem Run.verbose_trace (r : Run) (msg : String) :
    (r.verbose msg).trace = r.trace ++ (if r.state.verbose ≠ 0 then [Event.diag msg] else []) := by
  unfold Run.verbose; split <;> simp

@[simp] theorem Run.verbose_state (r : Run) (msg : String) : (r.verbose msg).state = r.state := by
  unfold Run.verbose; split <;> simp

@[simp] theorem Run.verbose_faulted (r : Run) (msg : String) :
    (r.verbose msg).faulted = r.faulted := by
  unfold Run.verbose; split <;> simp

@[simp] theorem Run.verbose_enabled (r : Run) (msg : String) :
    (r.verbose msg).enabled = r.enabled := by
  unfold Run.verbose; split <;> simp

/-- The calls of `add_exif_tag` are parameter sets of EXIF tags. -/
theorem add_exif_tag_events (w : World) (frame : Int) (tag : Option String) :
    ∀ e ∈ (add_exif_tag w frame tag).2, ∃ t, e = Event.exif_set t := by
  intro e he
  unfold add_exif_tag at he
  split at he
  · simp at he
  · split at he
    · simp at he
    · simp at he; exact ⟨_, he⟩

/-- The calls of `add_exif_tags` are parameter sets of EXIF tags. -/
theorem add_exif_tags_events (w : World) (frame : Int) (state : RASPISTILL_STATE) :
    ∀ e ∈ add_exif_tags w frame state, ∃ t, e = Event.exif_set t := by
  intro e he
  simp only [add_exif_tags, add_user_exif_tags, List.mem_append, List.mem_flatMap] at he
  rcases he with ((((h | h) | h) | h) | h) | ⟨i, _, h⟩
  any_goals exact add_exif_tag_events _ _ _ e h
  split at h
  · exact add_exif_tag_events _ _ _ e h
  · simp at h

/-- The frame whose `fopen` fails: what the body of the loop does. -/
theorem capture_frame_open_failure (w : World) (k : Int) (c : Capture)
    (filename name : String)
    (hfault : c.run.faulted = false)
    (hname : c.run.state.filename = some filename)
    (hdash : filename.toList.head? ≠ some '-')
    (hfmt : use_filename w c.run.state filename k = some name)
    (hopen : w.fopen k name = none) :
    (capture_frame w k c).run.trace = c.run.trace ++
        ([Event.sleep (if c.run.state.timelapse ≠ 0 then c.run.state.timelapse
            else c.run.state.timeout)]
          ++ (if c.run.state.verbose ≠ 0 then [Event.diag "Opening output file"] else [])
          ++ [Event.fopen name k,
              Event.log_error "Error opening output file. No output file will be generated"]
          ++ add_exif_tags w k c.run.state ++ [Event.set_file_handle none])
      ∧ (capture_frame w k c).run.state = c.run.state
      ∧ (capture_frame w k c).run.faulted = false
      ∧ (capture_frame w k c).output_file = none
      ∧ (capture_frame w k c).file_handle = none := by
  have hdash' : ¬ filename.data.head? = some '-' := hdash
  simp [capture_frame, open_destination, capture_block, hfault, hname, hdash', hfmt, hopen]

/-- The calls of the drain loop are queue and send calls and error logs. -/
theorem feed_loop_events (get : Nat → Option Buf) (send : Nat → MMAL_STATUS_T) (n q : Nat) :
    ∀ e ∈ feed_loop get send n q,
      e.isQueueGet = true ∨ e.isSend = true ∨ ∃ m, e = Event.log_error m := by
  induction n generalizing q with
  | zero => simp [feed_loop]
  | succ n ih =>
    intro e he
    simp only [feed_loop, List.mem_append, List.mem_singleton] at he
    rcases he with (((h | h) | h) | h) | h
    · left; subst h; rfl
    · split at h
      · simp at h; exact Or.inr (Or.inr ⟨_, h⟩)
      · simp at h
    · right; left; subst h; rfl
    · split at h
      · simp at h; exact Or.inr (Or.inr ⟨_, h⟩)
      · simp at h
    · exact ih _ e h

/-- The drain loop neither triggers a capture, nor waits, nor closes a file. -/
theorem feed_pool_no_capture (num : Nat) (get : Nat → Option Buf) (send : Nat → MMAL_STATUS_T) :
    ∀ e ∈ feed_pool num get send,
      e.isCapture = false ∧ e ≠ Event.semaphore_wait ∧ e.isClose = false := by
  intro e he
  simp only [feed_pool, List.mem_cons] at he
  rcases he with h | h
  · subst h; simp [Event.isCapture, Event.isClose]
  · rcases feed_loop_events get send num 0 e h with h | h | ⟨m, h⟩
    · cases e <;> simp_all [Event.isQueueGet, Event.isCapture, Event.isClose]
    · cases e <;> simp_all [Event.isSend, Event.isCapture, Event.isClose]
    · subst h; simp [Event.isCapture, Event.isClose]

/-- The EXIF calls neither send a buffer, nor trigger a capture, nor wait, nor close a
file. -/
theorem add_exif_tags_no_capture (w : World) (frame : Int) (state : RASPISTILL_STATE) :
    ∀ e ∈ add_exif_tags w frame state,
      e.isSend = false ∧ e.isCapture = false ∧ e ≠ Event.semaphore_wait ∧ e.isClose = false := by
  intro e he
  obtain ⟨t, rfl⟩ := add_exif_tags_events w frame state e he
  simp [Event.isSend, Event.isCapture, Event.isClose]

/-- One more iteration: the loop runs the body for `frame` when `frame ≤ num_iterations`. -/
theorem frame_loop_step (w : World) (num_iterations frame : Int) (c : Capture)
    (h : frame ≤ num_iterations) :
    frame_loop w num_iterations frame c =
      frame_loop w num_iterations (frame + 1) (capture_frame w frame c) := by
  rw [frame_loop, if_pos h]

/-- The frame whose destination is a file that opens, with a pool: what the body of the
loop does. -/
theorem capture_frame_file (w : World) (k : Int) (c : Capture) (filename name : String)
    (id : Nat) (pool : Nat × Nat)
    (hfault : c.run.faulted = false)
    (hname : c.run.state.filename = some filename)
    (hdash : filename.toList.head? ≠ some '-')
    (hfmt : use_filename w c.run.state filename k = some name)
    (hopen : w.fopen k name = some id)
    (hpool : c.run.state.encoder_pool = some pool) :
    (capture_frame w k c).run.trace = c.run.trace ++
        ([Event.sleep (if c.run.state.timelapse ≠ 0 then c.run.state.timelapse
            else c.run.state.timeout)]
          ++ (if c.run.state.verbose ≠ 0 then [Event.diag "Opening output file"] else [])
          ++ [Event.fopen name k]
          ++ add_exif_tags w k c.run.state ++ [Event.set_file_handle (some (FILE.opened id))]
          ++ feed_pool (w.queue_length k) (w.queue_get k) (w.send_buffer k)
          ++ (if c.run.state.verbose ≠ 0 then [Event.diag "Starting capture"] else [])
          ++ [Event.capture k (w.capture k)]
          ++ (if w.capture k ≠ MMAL_SUCCESS then [Event.log_error "Failed to start capture"]
              else Event.semaphore_wait ::
                (if c.run.state.verbose ≠ 0 then [Event.diag "Finished capture"] else []))
          ++ [Event.set_file_handle none, Event.fclose id])
      ∧ (capture_frame w k c).run.state = c.run.state
      ∧ (capture_frame w k c).run.faulted = false
      ∧ (capture_frame w k c).output_file = some (FILE.opened id)
      ∧ (capture_frame w k c).file_handle = none := by
  have hdash' : ¬ filename.data.head? = some '-' := hdash
  by_cases hc : w.capture k = MMAL_SUCCESS <;>
    simp [capture_frame, open_destination, capture_block, hfault, hname, hdash', hfmt, hopen,
      hpool, hc]

/-- The frame whose destination is the standard output, with a pool: what the body of
the loop does. -/
theorem capture_frame_stdout (w : World) (k : Int) (c : Capture) (filename : String)
    (pool : Nat × Nat)
    (hfault : c.run.faulted = false)
    (hname : c.run.state.filename = some filename)
    (hdash : filename.toList.head? = some '-')
    (hpool : c.run.state.encoder_pool = some pool) :
    (capture_frame w k c).run.trace = c.run.trace ++
        ([Event.sleep (if c.run.state.timelapse ≠ 0 then c.run.state.timelapse
            else c.run.state.timeout)]
          ++ add_exif_tags w k { c.run.state with verbose := 0 }
          ++ [Event.set_file_handle (some FILE.stdout)]
          ++ feed_pool (w.queue_length k) (w.queue_get k) (w.send_buffer k)
          ++ [Event.capture k (w.capture k)]
          ++ (if w.capture k ≠ MMAL_SUCCESS then [Event.log_error "Failed to start capture"]
              else [Event.semaphore_wait])
          ++ [Event.set_file_handle none])
      ∧ (capture_frame w k c).run.state = { c.run.state with verbose := 0 }
      ∧ (capture_frame w k c).run.faulted = false
      ∧ (capture_frame w k c).output_file = some FILE.stdout
      ∧ (capture_frame w k c).file_handle = none := by
  have hdash' : filename.data.head? = some '-' := hdash
  by_cases hc : w.capture k = MMAL_SUCCESS <;>
    simp [capture_frame, open_destination, capture_block, hfault, hname, hdash', hpool, hc,
      Run.verbose]

/-- The frame whose destination is a file that opens, without a pool: the body of the
loop faults at the read of the pool queue. -/
theorem capture_frame_file_no_pool (w : World) (k : Int) (c : Capture)
    (filename name : String) (id : Nat)
    (hfault : c.run.faulted = false)
    (hname : c.run.state.filename = some filename)
    (hdash : filename.toList.head? ≠ some '-')
    (hfmt : use_filename w c.run.state filename k = some name)
    (hopen : w.fopen k name = some id)
    (hpool : c.run.state.encoder_pool = none) :
    (capture_frame w k c).run.trace = c.run.trace ++
        ([Event.sleep (if c.run.state.timelapse ≠ 0 then c.run.state.timelapse
            else c.run.state.timeout)]
          ++ (if c.run.state.verbose ≠ 0 then [Event.diag "Opening output file"] else [])
          ++ [Event.fopen name k]
          ++ add_exif_tags w k c.run.state ++ [Event.set_file_handle (some (FILE.opened id))])
      ∧ (capture_frame w k c).run.faulted = true
      ∧ (capture_frame w k c).output_file = some (FILE.opened id) := by
  have hdash' : ¬ filename.data.head? = some '-' := hdash
  simp [capture_frame, open_destination, capture_block, hfault, hname, hdash', hfmt, hopen,
    hpool]

/-- The frame in timelapse mode whose call of `asprintf` is fatal: the body of the loop
faults after the sleep, before any other call. -/
theorem capture_frame_asprintf_fault (w : World) (k : Int) (c : Capture) (filename : String)
    (hfault : c.run.faulted = false)
    (hname : c.run.state.filename = some filename)
    (hdash : filename.toList.head? ≠ some '-')
    (hfmt : use_filename w c.run.state filename k = none) :
    (capture_frame w k c).run.trace = c.run.trace ++
        [Event.sleep (if c.run.state.timelapse ≠ 0 then c.run.state.timelapse
            else c.run.state.timeout)]
      ∧ (capture_frame w k c).run.state = c.run.state
      ∧ (capture_frame w k c).run.faulted = true
      ∧ (capture_frame w k c).output_file = c.output_file
      ∧ (capture_frame w k c).file_handle = c.file_handle := by
  have hdash' : ¬ filename.data.head? = some '-' := hdash
  simp [capture_frame, open_destination, hfault, hname, hdash', hfmt]

/-- The frame whose destination is the standard output, without a pool: the body of the
loop faults at the read of the pool queue. -/
theorem capture_frame_stdout_no_pool (w : World) (k : Int) (c : Capture) (filename : String)
    (hfault : c.run.faulted = false)
    (hname : c.run.state.filename = some filename)
    (hdash : filename.toList.head? = some '-')
    (hpool : c.run.state.encoder_pool = none) :
    (capture_frame w k c).run.trace = c.run.trace ++
        ([Event.sleep (if c.run.state.timelapse ≠ 0 then c.run.state.timelapse
            else c.run.state.timeout)]
          ++ add_exif_tags w k { c.run.state with verbose := 0 }
          ++ [Event.set_file_handle (some FILE.stdout)])
      ∧ (capture_frame w k c).run.faulted = true
      ∧ (capture_frame w k c).output_file = some FILE.stdout := by
  have hdash' : filename.data.head? = some '-' := hdash
  simp [capture_frame, open_destination, capture_block, hfault, hname, hdash', hpool]

/-- The calls of a frame, from the trace after it. -/
theorem frame_events_of_trace (w : World) (k : Int) (c : Capture) (d : List Event)
    (h : (capture_frame w k c).run.trace = c.run.trace ++ d) : frame_events w k c = d := by
  simp [frame_events, h]

@[simp] theorem wait_not_mem_exif (w : World) (k : Int) (s : RASPISTILL_STATE) :
    Event.semaphore_wait ∉ add_exif_tags w k s :=
  fun h => (add_exif_tags_no_capture w k s _ h).2.2.1 rfl

@[simp] theorem capture_not_mem_exif (w : World) (k j : Int) (st : MMAL_STATUS_T)
    (s : RASPISTILL_STATE) : Event.capture j st ∉ add_exif_tags w k s :=
  fun h => by simpa [Event.isCapture] using (add_exif_tags_no_capture w k s _ h).2.1

@[simp] theorem fclose_not_mem_exif (w : World) (k : Int) (id : Nat) (s : RASPISTILL_STATE) :
    Event.fclose id ∉ add_exif_tags w k s :=
  fun h => by simpa [Event.isClose] using (add_exif_tags_no_capture w k s _ h).2.2.2

@[simp] theorem wait_not_mem_feed (num : Nat) (get : Nat → Option Buf)
    (send : Nat → MMAL_STATUS_T) : Event.semaphore_wait ∉ feed_pool num get send :=
  fun h => (feed_pool_no_capture num get send _ h).2.1 rfl

@[simp] theorem capture_not_mem_feed (num : Nat) (get : Nat → Option Buf)
    (send : Nat → MMAL_STATUS_T) (j : Int) (st : MMAL_STATUS_T) :
    Event.capture j st ∉ feed_pool num get send :=
  fun h => by simpa [Event.isCapture] using (feed_pool_no_capture num get send _ h).1

@[simp] theorem fclose_not_mem_feed (num : Nat) (get : Nat → Option Buf)
    (send : Nat → MMAL_STATUS_T) (id : Nat) : Event.fclose id ∉ feed_pool num get send :=
  fun h => by simpa [Event.isClose] using (feed_pool_no_capture num get send _ h).2.2

/-- C9 (amended): in a frame whose destination `f` is open (the standard output, or a
file that `fopen` returned for the name that the frame has resolved) the controller waits on the completion semaphore exactly
when the set of `MMAL_PARAMETER_CAPTURE` returned `MMAL_SUCCESS`; when it returned a
failure the frame does not wait, ends with the clearing of the sink handle followed by
the `fclose` of the destination if it is a file and by nothing if it is the standard
output (which is not closed), and the loop goes on with the next frame. -/
theorem trigger_failure_does_not_block (w : World) (k : Int) (c : Capture)
    (filename : String) (f : FILE)
    (hfault : c.run.faulted = false)
    (hname : c.run.state.filename = some filename)
    (hdest : (filename.toList.head? = some '-' ∧ f = FILE.stdout)
      ∨ (filename.toList.head? ≠ some '-'
          ∧ ∃ name id, use_filename w c.run.state filename k = some name
              ∧ w.fopen k name = some id ∧ f = FILE.opened id)) :
    (capture_frame w k c).run.trace = c.run.trace ++ frame_events w k c
      ∧ (capture_frame w k c).output_file = some f
      ∧ (Event.semaphore_wait ∈ frame_events w k c ↔
          Event.capture k MMAL_SUCCESS ∈ frame_events w k c)
      ∧ (∀ st, st ≠ MMAL_SUCCESS → Event.capture k st ∈ frame_events w k c →
          Event.semaphore_wait ∉ frame_events w k c
            ∧ (∃ pre, frame_events w k c = pre ++ Event.set_file_handle none ::
                (match f with
                  | FILE.stdout => []
                  | FILE.opened id => [Event.fclose id]))
            ∧ (f = FILE.stdout → ∀ id, Event.fclose id ∉ frame_events w k c)
            ∧ (capture_frame w k c).file_handle = none
            ∧ (capture_frame w k c).run.faulted = false
            ∧ ∀ num_iterations, k ≤ num_iterations →
                frame_loop w num_iterations k c =
                  frame_loop w num_iterations (k + 1) (capture_frame w k c)) := by
  rcases hdest with ⟨hdash, rfl⟩ | ⟨hdash, name, id, hfmt, hopen, rfl⟩
  · cases hpool : c.run.state.encoder_pool with
    | none =>
      obtain ⟨ht, _, ho⟩ := capture_frame_stdout_no_pool w k c filename hfault hname hdash hpool
      have he := frame_events_of_trace w k c _ ht
      refine ⟨by rw [he, ht], ho, ?_, ?_⟩
      · rw [he]; simp
      · intro st _ hmem
        rw [he] at hmem
        simp at hmem
    | some pool =>
      obtain ⟨ht, _, hf, ho, hh⟩ :=
        capture_frame_stdout w k c filename pool hfault hname hdash hpool
      have he := frame_events_of_trace w k c _ ht
      refine ⟨by rw [he, ht], ho, ?_, ?_⟩
      · rw [he]
        by_cases hc : w.capture k = MMAL_SUCCESS
        · simp [hc]
        · have hc' : ¬ MMAL_SUCCESS = w.capture k := fun h => hc h.symm
          simp [hc, hc']
      · intro st hst hmem
        rw [he] at hmem ⊢
        have hc : w.capture k = st := by
          by_cases hc : w.capture k = MMAL_SUCCESS <;> simp [hc] at hmem <;>
            first | exact absurd hmem hst | exact hmem.symm
        have hne : w.capture k ≠ MMAL_SUCCESS := hc ▸ hst
        refine ⟨by simp [hne], ⟨_, rfl⟩, (fun _ id => by simp [hne]), hh, hf,
          fun n hn => frame_loop_step w n k c hn⟩
  · cases hpool : c.run.state.encoder_pool with
    | none =>
      obtain ⟨ht, _, ho⟩ :=
        capture_frame_file_no_pool w k c filename name id hfault hname hdash hfmt hopen hpool
      have he := frame_events_of_trace w k c _ ht
      refine ⟨by rw [he, ht], ho, ?_, ?_⟩
      · rw [he]; by_cases hv : c.run.state.verbose = 0 <;> simp [hv]
      · intro st _ hmem
        rw [he] at hmem
        by_cases hv : c.run.state.verbose = 0 <;> simp [hv] at hmem
    | some pool =>
      obtain ⟨ht, _, hf, ho, hh⟩ :=
        capture_frame_file w k c filename name id pool hfault hname hdash hfmt hopen hpool
      have he := frame_events_of_trace w k c _ ht
      refine ⟨by rw [he, ht], ho, ?_, ?_⟩
      · rw [he]
        by_cases hc : w.capture k = MMAL_SUCCESS
        · by_cases hv : c.run.state.verbose = 0 <;> simp [hc, hv]
        · have hc' : ¬ MMAL_SUCCESS = w.capture k := fun h => hc h.symm
          by_cases hv : c.run.state.verbose = 0 <;> simp [hc, hc', hv]
      · intro st hst hmem
        rw [he] at hmem ⊢
        have hc : w.capture k = st := by
          by_cases hc : w.capture k = MMAL_SUCCESS <;>
            by_cases hv : c.run.state.verbose = 0 <;> simp [hc, hv] at hmem <;>
            first | exact absurd hmem hst | exact hmem.symm
        have hne : w.capture k ≠ MMAL_SUCCESS := hc ▸ hst
        refine ⟨?_, ⟨_, rfl⟩, (fun h => by cases h), hh, hf,
          fun n hn => frame_loop_step w n k c hn⟩
        by_cases hv : c.run.state.verbose = 0 <;> simp [hne, hv]

/-- The calls of a frame depend on the state of the run only, when a file name is set and
the run has not faulted. -/
theorem frame_events_congr (w : World) (k : Int) (c₁ c₂ : Capture) (filename : String)
    (hs : c₁.run.state = c₂.run.state)
    (hf₁ : c₁.run.faulted = false) (hf₂ : c₂.run.faulted = false)
    (hname : c₂.run.state.filename = some filename) :
    frame_events w k c₁ = frame_events w k c₂ := by
  have hname₁ : c₁.run.state.filename = some filename := hs ▸ hname
  by_cases hdash : filename.toList.head? = some '-'
  · cases hpool : c₂.run.state.encoder_pool with
    | none =>
      rw [frame_events_of_trace w k c₁ _
          (capture_frame_stdout_no_pool w k c₁ filename hf₁ hname₁ hdash (hs ▸ hpool)).1,
        frame_events_of_trace w k c₂ _
          (capture_frame_stdout_no_pool w k c₂ filename hf₂ hname hdash hpool).1, hs]
    | some pool =>
      rw [frame_events_of_trace w k c₁ _
          (capture_frame_stdout w k c₁ filename pool hf₁ hname₁ hdash (hs ▸ hpool)).1,
        frame_events_of_trace w k c₂ _
          (capture_frame_stdout w k c₂ filename pool hf₂ hname hdash hpool).1, hs]
  · cases hfmt : use_filename w c₂.run.state filename k with
    | none =>
      rw [frame_events_of_trace w k c₁ _
          (capture_frame_asprintf_fault w k c₁ filename hf₁ hname₁ hdash (hs ▸ hfmt)).1,
        frame_events_of_trace w k c₂ _
          (capture_frame_asprintf_fault w k c₂ filename hf₂ hname hdash hfmt).1, hs]
    | some name =>
      cases hopen : w.fopen k name with
      | none =>
        rw [frame_events_of_trace w k c₁ _
            (capture_frame_open_failure w k c₁ filename name hf₁ hname₁ hdash (hs ▸ hfmt)
              hopen).1,
          frame_events_of_trace w k c₂ _
            (capture_frame_open_failure w k c₂ filename name hf₂ hname hdash hfmt hopen).1, hs]
      | some id =>
        cases hpool : c₂.run.state.encoder_pool with
        | none =>
          rw [frame_events_of_trace w k c₁ _
              (capture_frame_file_no_pool w k c₁ filename name id hf₁ hname₁ hdash (hs ▸ hfmt)
                hopen (hs ▸ hpool)).1,
            frame_events_of_trace w k c₂ _
              (capture_frame_file_no_pool w k c₂ filename name id hf₂ hname hdash hfmt hopen
                hpool).1, hs]
        | some pool =>
          rw [frame_events_of_trace w k c₁ _
              (capture_frame_file w k c₁ filename name id pool hf₁ hname₁ hdash (hs ▸ hfmt)
                hopen (hs ▸ hpool)).1,
            frame_events_of_trace w k c₂ _
              (capture_frame_file w k c₂ filename name id pool hf₂ hname hdash hfmt hopen
                hpool).1, hs]

/-- C5: in a frame `k` whose `fopen` fails, on the name `name` that the frame has
resolved (in timelapse mode the call of `asprintf` has returned it), the body of the loop
sends no buffer, does not set `MMAL_PARAMETER_CAPTURE` and does not wait, and does not
fault; the loop goes on
with frame `k + 1` when `k` is less than the number of iterations; the calls of frame
`k + 1` are those it would make had frame `k` not run, and when its own destination
opens it enters the capture block with that file and, the pool existing, sets
`MMAL_PARAMETER_CAPTURE`. -/
theorem open_failure_is_contained (w : World) (num_iterations k : Int) (c : Capture)
    (filename name : String)
    (hfault : c.run.faulted = false)
    (hname : c.run.state.filename = some filename)
    (hdash : filename.toList.head? ≠ some '-')
    (hfmt : use_filename w c.run.state filename k = some name)
    (hopen : w.fopen k name = none) :
    (capture_frame w k c).run.trace = c.run.trace ++ frame_events w k c
      ∧ (∀ e ∈ frame_events w k c,
          e.isSend = false ∧ e.isCapture = false ∧ e ≠ Event.semaphore_wait)
      ∧ (capture_frame w k c).run.faulted = false
      ∧ (k ≤ num_iterations →
          frame_loop w num_iterations k c =
            frame_loop w num_iterations (k + 1) (capture_frame w k c))
      ∧ (k < num_iterations →
          frame_loop w num_iterations k c =
            frame_loop w num_iterations (k + 1 + 1)
              (capture_frame w (k + 1) (capture_frame w k c)))
      ∧ frame_events w (k + 1) (capture_frame w k c) = frame_events w (k + 1) c
      ∧ (∀ name' id, use_filename w c.run.state filename (k + 1) = some name' →
          w.fopen (k + 1) name' = some id →
          (capture_frame w (k + 1) (capture_frame w k c)).output_file = some (FILE.opened id)
            ∧ (c.run.state.encoder_pool ≠ none →
                Event.capture (k + 1) (w.capture (k + 1))
                  ∈ frame_events w (k + 1) (capture_frame w k c))) := by
  obtain ⟨ht, hs, hf, _, _⟩ :=
    capture_frame_open_failure w k c filename name hfault hname hdash hfmt hopen
  have he := frame_events_of_trace w k c _ ht
  have hname' : (capture_frame w k c).run.state.filename = some filename := by rw [hs]; exact hname
  refine ⟨by rw [he, ht], ?_, hf, fun h => frame_loop_step w _ k c h, fun h => ?_,
    frame_events_congr w (k + 1) _ c filename hs hf hfault hname,
    fun name' id hfmt' hid => ?_⟩
  · intro e hmem
    rw [he] at hmem
    simp only [List.mem_append, List.mem_cons, List.mem_singleton, List.not_mem_nil,
      or_false] at hmem
    rcases hmem with (((h | h) | h) | h) | h
    · subst h; simp [Event.isSend, Event.isCapture]
    · split at h
      · simp at h; subst h; simp [Event.isSend, Event.isCapture]
      · simp at h
    · rcases h with h | h <;> subst h <;> simp [Event.isSend, Event.isCapture]
    · have := add_exif_tags_no_capture w k _ e h
      exact ⟨this.1, this.2.1, this.2.2.1⟩
    · subst h; simp [Event.isSend, Event.isCapture]
  · rw [frame_loop_step w _ k c (le_of_lt h), frame_loop_step w _ (k + 1) _ (by omega)]
  · have hfmt'' : use_filename w (capture_frame w k c).run.state filename (k + 1)
        = some name' := by
      rw [hs]; exact hfmt'
    cases hpool : c.run.state.encoder_pool with
    | none =>
      refine ⟨(capture_frame_file_no_pool w (k + 1) _ filename name' id hf hname' hdash hfmt''
        hid (by rw [hs]; exact hpool)).2.2, fun h => absurd rfl h⟩
    | some pool =>
      obtain ⟨ht', _, _, ho', _⟩ := capture_frame_file w (k + 1) _ filename name' id pool hf
        hname' hdash hfmt'' hid (by rw [hs]; exact hpool)
      refine ⟨ho', fun _ => ?_⟩
      rw [frame_events_of_trace w (k + 1) _ _ ht']
      simp

set_option maxRecDepth 100000 in
/-- Witness of C5: a timelapse run whose first `fopen` fails and whose second succeeds;
frame 2 sets `MMAL_PARAMETER_CAPTURE`. -/
theorem open_failure_is_contained_witness :
    Event.capture 2 0 ∈ frame_events World.first_open_fails 2
      (capture_frame World.first_open_fails 1
        (Capture.start { RASPISTILL_STATE.sample with
          filename := some "img", timelapse := 1000 })) :=
  ((open_failure_is_contained World.first_open_fails 5 1
      (Capture.start { RASPISTILL_STATE.sample with filename := some "img", timelapse := 1000 })
      "img" "img" rfl rfl (by decide) (by decide) rfl).2.2.2.2.2.2 "img" 2 (by decide) rfl).2
    (by decide)

set_option maxRecDepth 100000 in
/-- C9 (counterexample): a frame whose destination is the standard output and whose
capture trigger fails: the destination is open, the trigger returned status 1, and the
frame makes no `fclose`; it ends with the clearing of the sink handle. -/
theorem trigger_failure_stdout_not_closed :
    (capture_frame World.trigger_fails 1
        (Capture.start { RASPISTILL_STATE.sample with filename := some "-" })).output_file
        = some FILE.stdout
      ∧ Event.capture 1 1 ∈ frame_events World.trigger_fails 1
          (Capture.start { RASPISTILL_STATE.sample with filename := some "-" })
      ∧ (∀ e ∈ frame_events World.trigger_fails 1
          (Capture.start { RASPISTILL_STATE.sample with filename := some "-" }),
          e.isClose = false)
      ∧ (frame_events World.trigger_fails 1
          (Capture.start { RASPISTILL_STATE.sample with filename := some "-" })).getLast?
          = some (Event.set_file_handle none) := by
  decide

set_option maxRecDepth 100000 in
/-- Witness of C9 (amended): a frame that opens a file and whose capture trigger fails. -/
theorem trigger_failure_does_not_block_witness :
    Event.semaphore_wait ∉ frame_events World.trigger_fails 1
        (Capture.start { RASPISTILL_STATE.sample with filename := some "a.jpg" })
      ∧ ∃ pre, frame_events World.trigger_fails 1
          (Capture.start { RASPISTILL_STATE.sample with filename := some "a.jpg" })
          = pre ++ [Event.set_file_handle none, Event.fclose 1] :=
  have h := (trigger_failure_does_not_block World.trigger_fails 1
    (Capture.start { RASPISTILL_STATE.sample with filename := some "a.jpg" }) "a.jpg"
    (FILE.opened 1) rfl rfl (Or.inr ⟨by decide, "a.jpg", 1, rfl, rfl, rfl⟩)).2.2.2 1
    (by decide) (by decide)
  ⟨h.1, h.2.1⟩

/-! ## main -/

set_option maxHeartbeats 4000000 in
/-- What `create_camera_component` leaves: it does not fault, enables no port, leaves the
state as it was when it fails, and sets `camera_component` when it succeeds. -/
theorem create_camera_component_spec (w : CameraWorld) (r : Run) :
    (create_camera_component w r).2.faulted = r.faulted
      ∧ (create_camera_component w r).2.enabled = r.enabled
      ∧ ((create_camera_component w r).1 = false →
          (create_camera_component w r).2.state = r.state)
      ∧ ((create_camera_component w r).1 = true →
          (create_camera_component w r).2.state = { r.state with camera_component := true }) := by
  unfold create_camera_component
  simp only [create_error, Bool.false_eq_true, if_false, if_true, reduceIte]
  split_ifs <;> refine ⟨?_, ?_, ?_, ?_⟩ <;> simp

set_option maxHeartbeats 4000000 in
/-- What `create_encoder_component` leaves: it does not fault, enables no port, leaves the
state as it was when it fails, and sets `encoder_component` when it succeeds. -/
theorem create_encoder_component_spec (w : EncoderWorld) (r : Run) :
    (create_encoder_component w r).2.faulted = r.faulted
      ∧ (create_encoder_component w r).2.enabled = r.enabled
      ∧ ((create_encoder_component w r).1 = false →
          (create_encoder_component w r).2.state = r.state)
      ∧ ((create_encoder_component w r).1 = true →
          (create_encoder_component w r).2.state.encoder_component = true
            ∧ (create_encoder_component w r).2.state.camera_component = r.state.camera_component
            ∧ (create_encoder_component w r).2.state.preview_parameters
                = r.state.preview_parameters) := by
  unfold create_encoder_component
  simp only [create_error, Bool.false_eq_true, if_false, if_true, reduceIte]
  split_ifs <;> refine ⟨?_, ?_, ?_, ?_⟩ <;> simp

/-- What `raspipreview_create` leaves. -/
theorem raspipreview_create_spec (w : World) (r : Run) :
    (raspipreview_create w r).2.faulted = r.faulted
      ∧ (raspipreview_create w r).2.enabled = r.enabled
      ∧ (raspipreview_create w r).1 = w.preview_create
      ∧ ((raspipreview_create w r).1 = false → (raspipreview_create w r).2.state = r.state)
      ∧ (raspipreview_create w r).2.state.camera_component = r.state.camera_component
      ∧ (raspipreview_create w r).2.state.encoder_component = r.state.encoder_component := by
  unfold raspipreview_create
  split_ifs <;> simp_all

/-- A call of `connect_ports` by `main` returns the status of `connect_ports`, does not
fault and touches no component field. -/
theorem run_connect_ports_spec (w : World) (o i : Port) (slot : ConnSlot) (r : Run) :
    (run_connect_ports w o i slot r).1 = (connect_ports w.conn o i slot ConnState.null).status
      ∧ (run_connect_ports w o i slot r).2.faulted = r.faulted
      ∧ (run_connect_ports w o i slot r).2.state.camera_component = r.state.camera_component
      ∧ (run_connect_ports w o i slot r).2.state.encoder_component = r.state.encoder_component
      ∧ (run_connect_ports w o i slot r).2.state.encoder_pool = r.state.encoder_pool
      ∧ (run_connect_ports w o i slot r).2.state.preview_parameters
          = r.state.preview_parameters := by
  cases slot <;> simp only [run_connect_ports, connect_ports] <;> split_ifs <;> simp

@[simp] theorem ite_emit_state (p : Prop) [Decidable p] (r : Run) (t : List Event) :
    (if p then r.emit t else r).state = r.state := by
  split <;> rfl

@[simp] theorem ite_emit_faulted (p : Prop) [Decidable p] (r : Run) (t : List Event) :
    (if p then r.emit t else r).faulted = r.faulted := by
  split <;> rfl

@[simp] theorem ite_emit_state_right (p : Prop) [Decidable p] (r : Run) (t : List Event) :
    (if p then r else r.emit t).state = r.state := by
  split <;> rfl

@[simp] theorem ite_emit_faulted_right (p : Prop) [Decidable p] (r : Run) (t : List Event) :
    (if p then r else r.emit t).faulted = r.faulted := by
  split <;> rfl

@[simp] theorem check_disable_port_state (port : Option Port) (r : Run) :
    (check_disable_port port r).state = r.state := by
  unfold check_disable_port
  split
  · split <;> rfl
  · rfl

@[simp] theorem check_disable_port_faulted (port : Option Port) (r : Run) :
    (check_disable_port port r).faulted = r.faulted := by
  unfold check_disable_port
  split
  · split <;> rfl
  · rfl

/-- The status that `connect_ports` returns does not depend on the old value of the
connection field. -/
theorem connect_ports_status_old (w : ConnWorld) (o i : Port) (slot : ConnSlot)
    (old : ConnState) :
    (connect_ports w o i slot old).status = (connect_ports w o i slot ConnState.null).status := by
  simp only [connect_ports]
  split_ifs <;> rfl

@[simp] theorem run_connect_ports_status (w : World) (o i : Port) (slot : ConnSlot) (r : Run) :
    (run_connect_ports w o i slot r).1
      = (connect_ports w.conn o i slot ConnState.null).status :=
  (run_connect_ports_spec w o i slot r).1

@[simp] theorem run_connect_ports_faulted (w : World) (o i : Port) (slot : ConnSlot)
    (r : Run) : (run_connect_ports w o i slot r).2.faulted = r.faulted :=
  (run_connect_ports_spec w o i slot r).2.1

@[simp] theorem run_connect_ports_camera (w : World) (o i : Port) (slot : ConnSlot)
    (r : Run) :
    (run_connect_ports w o i slot r).2.state.camera_component = r.state.camera_component :=
  (run_connect_ports_spec w o i slot r).2.2.1

@[simp] theorem run_connect_ports_encoder (w : World) (o i : Port) (slot : ConnSlot)
    (r : Run) :
    (run_connect_ports w o i slot r).2.state.encoder_component = r.state.encoder_component :=
  (run_connect_ports_spec w o i slot r).2.2.2.1

@[simp] theorem run_connect_ports_preview (w : World) (o i : Port) (slot : ConnSlot)
    (r : Run) :
    (run_connect_ports w o i slot r).2.state.preview_parameters = r.state.preview_parameters :=
  (run_connect_ports_spec w o i slot r).2.2.2.2.2

/-- When no preview is wanted, the connection stage only reports the status `-1` and
logs a failure. -/
theorem connection_stage_no_preview (w : World) (r : Run)
    (h : r.state.preview_parameters.wantPreview = 0) :
    connection_stage w r =
      (-1, (r.verbose "Starting component connection stage").emit
        [Event.status_to_int (-1), Event.log_error "Failed to connect camera to preview"]) := by
  simp [connection_stage, h, MMAL_SUCCESS]

/-- C1 (the code, for every world and every state in which no preview is wanted): the
connection stage of `main` leaves `status` at `-1` and makes no call but the report of
that status and the log of a failure to connect the camera to the preview: it does not
call `connect_ports` on the still port and the encoder input port, does not enable the
encoder output port, and runs no iteration of the capture loop. -/
theorem connection_stage_without_preview (w : World) (r : Run)
    (h : r.state.preview_parameters.wantPreview = 0) :
    (connection_stage w r).1 = -1
      ∧ (connection_stage w r).2.trace = r.trace ++
          ((if r.state.verbose ≠ 0 then [Event.diag "Starting component connection stage"]
            else [])
            ++ [Event.status_to_int (-1),
                Event.log_error "Failed to connect camera to preview"])
      ∧ Event.connection_create ConnSlot.encoder_connection Port.camera_still_port
          Port.encoder_input_port ∉ (connection_stage w r).2.trace.drop r.trace.length
      ∧ Event.port_enable Port.encoder_output_port
          ∉ (connection_stage w r).2.trace.drop r.trace.length
      ∧ ∀ ms, Event.sleep ms ∉ (connection_stage w r).2.trace.drop r.trace.length := by
  rw [connection_stage_no_preview w r h]
  by_cases hv : r.state.verbose = 0 <;> simp [hv]

/-- Witness of C1: a pool exists and no preview is wanted; the connection stage makes
two calls, the report of the status `-1` and the log of the failure. -/
theorem connection_stage_without_preview_witness :
    (connection_stage World.ok (Capture.start
        { RASPISTILL_STATE.sample with preview_parameters := ⟨0, true⟩ }).run).1 = -1
      ∧ (connection_stage World.ok (Capture.start
          { RASPISTILL_STATE.sample with preview_parameters := ⟨0, true⟩ }).run).2.trace
        = [Event.status_to_int (-1), Event.log_error "Failed to connect camera to preview"] :=
  have h := connection_stage_without_preview World.ok
    (Capture.start { RASPISTILL_STATE.sample with preview_parameters := ⟨0, true⟩ }).run rfl
  ⟨h.1, h.2.1⟩

set_option maxRecDepth 100000 in
/-- The whole run of `main` when every call succeeds and no preview is wanted: the three
components are created, no connection is made, the encoder output port is not enabled,
no frame is captured, the components are torn down and `main` returns 0. -/
theorem main_without_preview_trace :
    (main_body World.ok
        { RASPISTILL_STATE.sample with preview_parameters := ⟨0, false⟩ }).run.trace =
      [Event.component_create Component.camera,
       Event.port_enable Port.camera_control_port,
       Event.parameter_set "MMAL_PARAMETER_CAMERA_CONFIG",
       Event.parameter_set "raspicamcontrol_set_all_parameters",
       Event.format_commit Port.camera_preview_port,
       Event.format_commit Port.camera_video_port,
       Event.format_commit Port.camera_still_port,
       Event.component_enable Component.camera,
       Event.preview_create,
       Event.component_create Component.encoder,
       Event.format_commit Port.encoder_output_port,
       Event.parameter_set "MMAL_PARAMETER_JPEG_Q_FACTOR",
       Event.parameter_set "MMAL_PARAMETER_THUMBNAIL_CONFIGURATION",
       Event.component_enable Component.encoder,
       Event.pool_create 3 81920,
       Event.status_to_int (-1),
       Event.log_error "Failed to connect camera to preview",
       Event.status_to_int (-1),
       Event.connection_destroy ConnSlot.encoder_connection,
       Event.component_disable Component.encoder,
       Event.component_disable Component.preview,
       Event.component_disable Component.camera,
       Event.pool_destroy,
       Event.component_destroy Component.encoder,
       Event.preview_destroy,
       Event.component_destroy Component.camera,
       Event.check_configuration 128] := by
  decide

/-! ## create_encoder_component -/

/-- Which steps decide the result of `create_encoder_component`: it returns a component
exactly when the component is created, has an input and an output port, and the format
commit, the quality set and the component enable succeed; the status of the thumbnail
set and the result of the pool creation do not count.  When it returns a component, the
pool field is what `mmal_port_pool_create` returned for the negotiated count and size. -/
theorem create_encoder_component_result_iff (w : EncoderWorld) (r : Run) :
    ((create_encoder_component w r).1 = true ↔
        w.component_create = MMAL_SUCCESS ∧ w.input_num ≠ 0 ∧ w.output_num ≠ 0
          ∧ w.format_commit = MMAL_SUCCESS ∧ w.jpeg_q_factor = MMAL_SUCCESS
          ∧ w.component_enable = 0)
      ∧ ((create_encoder_component w r).1 = true →
          (create_encoder_component w r).2.state.encoder_pool =
            (if w.pool_create then
              some (if w.buffer_num_recommended < w.buffer_num_min then w.buffer_num_min
                  else w.buffer_num_recommended,
                if w.buffer_size_recommended < w.buffer_size_min then w.buffer_size_min
                  else w.buffer_size_recommended)
            else none)) := by
  unfold create_encoder_component
  simp only [create_error, Bool.false_eq_true, if_false, if_true, reduceIte]
  split_ifs <;> refine ⟨?_, ?_⟩ <;> simp_all <;> intros <;> omega

set_option maxRecDepth 100000 in
/-- C11 (the code at the failing inputs): when every step succeeds but the creation of
the buffer pool, `create_encoder_component` logs the failure and returns the component
with `state.encoder_pool` NULL; when every step succeeds but the set of the thumbnail
configuration, it returns the component and the pool. -/
theorem create_encoder_component_ignores_failures :
    (create_encoder_component { EncoderWorld.ok with pool_create := false }
        (Run.initial RASPISTILL_STATE.sample)).1 = true
      ∧ (create_encoder_component { EncoderWorld.ok with pool_create := false }
        (Run.initial RASPISTILL_STATE.sample)).2.state.encoder_pool = none
      ∧ (create_encoder_component { EncoderWorld.ok with pool_create := false }
        (Run.initial RASPISTILL_STATE.sample)).2.trace.getLast? =
          some (Event.log_error "Failed to create buffer header pool for encoder output port")
      ∧ (create_encoder_component { EncoderWorld.ok with thumbnail := 1 }
        (Run.initial RASPISTILL_STATE.sample)).1 = true
      ∧ (create_encoder_component { EncoderWorld.ok with thumbnail := 1 }
        (Run.initial RASPISTILL_STATE.sample)).2.state.encoder_pool = some (3, 81920) := by
  decide

/-! ## add_exif_tags -/

/-- What `add_exif_tag` sets: the tag itself when it holds a `=` and is short enough,
nothing otherwise. -/
theorem add_exif_tag_events_eq (w : World) (frame : Int) (tag : String) :
    (exif_tag_ok tag → (add_exif_tag w frame (some tag)).2 = [Event.exif_set tag])
      ∧ (¬ exif_tag_ok tag → (add_exif_tag w frame (some tag)).2 = []) := by
  unfold exif_tag_ok add_exif_tag
  constructor
  · rintro ⟨h1, h2⟩
    have : ¬ ('=' ∉ tag.toList ∨ tag.utf8ByteSize > MAX_EXIF_PAYLOAD_LENGTH - 1) := by
      rintro (h | h)
      · exact h h1
      · omega
    simp only [this, if_false]
  · intro h
    have : '=' ∉ tag.toList ∨ tag.utf8ByteSize > MAX_EXIF_PAYLOAD_LENGTH - 1 := by
      by_contra hc
      push_neg at hc
      exact h ⟨hc.1, hc.2⟩
    simp only [this, if_true]

/-- The loop over the user tags passes the first `numExifTags` entries of the array to
`add_exif_tag`, in order. -/
theorem add_user_exif_tags_eq (w : World) (frame : Int) (state : RASPISTILL_STATE)
    (tags : List String) (rest : List (Option String))
    (harr : state.exifTags = tags.map some ++ rest)
    (hnum : state.numExifTags = tags.length)
    (hmax : tags.length ≤ MAX_USER_EXIF_TAGS) :
    add_user_exif_tags w frame state
      = tags.flatMap (fun t => (add_exif_tag w frame (some t)).2) := by
  have hn : (min state.numExifTags (MAX_USER_EXIF_TAGS : Int)).toNat = tags.length := by
    rw [hnum]
    have : ((tags.length : Nat) : Int) ≤ (MAX_USER_EXIF_TAGS : Int) := by exact_mod_cast hmax
    rw [min_eq_left this]
    exact Int.toNat_ofNat _
  unfold add_user_exif_tags
  rw [hn, harr]
  clear hn harr hnum hmax
  induction tags using List.reverseRecOn generalizing rest with
  | nil => simp
  | append_singleton l a ih =>
    rw [List.length_append, List.length_singleton, List.range_succ, List.flatMap_append,
      List.flatMap_append]
    congr 1
    · have := ih (some a :: rest)
      simpa [List.map_append, List.append_assoc] using this
    · have hget : (List.map some (l ++ [a]) ++ rest).getD l.length none = some a := by
        rw [List.map_append, List.append_assoc, List.getD_eq_getElem?_getD,
          List.getElem?_append_right (by simp)]
        simp
      simp only [List.flatMap_cons, List.flatMap_nil, List.append_nil, hget]

/-- The five tags that `add_exif_tags` builds, then the user tags: what it passes to
`add_exif_tag`. -/
theorem add_exif_tags_eq_flatMap (w : World) (frame : Int) (state : RASPISTILL_STATE)
    (tags : List String) (rest : List (Option String))
    (harr : state.exifTags = tags.map some ++ rest)
    (hnum : state.numExifTags = tags.length)
    (hmax : tags.length ≤ MAX_USER_EXIF_TAGS) :
    add_exif_tags w frame state
      = (system_exif_tags w frame ++ tags).flatMap
          (fun t => (add_exif_tag w frame (some t)).2) := by
  rw [List.flatMap_append, ← add_user_exif_tags_eq w frame state tags rest harr hnum hmax]
  simp [add_exif_tags, system_exif_tags, List.flatMap_cons]

/-- C12 (amended): for every list of at most 32 user tags stored in the state,
`add_exif_tags` passes to `add_exif_tag` exactly five tags that it builds itself
(model, make and three time stamps), then the user tags in the order supplied, each
once and unchanged; `add_exif_tag` sets a tag on the encoder output port when it holds
a `=` and is at most 127 bytes long, and sets nothing for any other tag; so when all
the tags are of that form the sets on the port are the five system tags followed by
the user tags. -/
theorem add_exif_tags_order (w : World) (frame : Int) (state : RASPISTILL_STATE)
    (tags : List String) (rest : List (Option String))
    (harr : state.exifTags = tags.map some ++ rest)
    (hnum : state.numExifTags = tags.length)
    (hmax : tags.length ≤ MAX_USER_EXIF_TAGS) :
    add_exif_tags w frame state
        = (system_exif_tags w frame ++ tags).flatMap
            (fun t => (add_exif_tag w frame (some t)).2)
      ∧ (system_exif_tags w frame).length = 5
      ∧ (∀ t, exif_tag_ok t → (add_exif_tag w frame (some t)).2 = [Event.exif_set t])
      ∧ (∀ t, ¬ exif_tag_ok t → (add_exif_tag w frame (some t)).2 = [])
      ∧ ((∀ t ∈ system_exif_tags w frame ++ tags, exif_tag_ok t) →
          add_exif_tags w frame state
            = (system_exif_tags w frame ++ tags).map Event.exif_set) := by
  have heq := add_exif_tags_eq_flatMap w frame state tags rest harr hnum hmax
  refine ⟨heq, rfl, fun t => (add_exif_tag_events_eq w frame t).1,
    fun t => (add_exif_tag_events_eq w frame t).2, fun hall => ?_⟩
  rw [heq]
  generalize system_exif_tags w frame ++ tags = l at hall
  induction l with
  | nil => rfl
  | cons t l ih =>
    rw [List.flatMap_cons, List.map_cons, (add_exif_tag_events_eq w frame t).1
      (hall t (List.mem_cons_self _ _)), ih (fun x hx => hall x (List.mem_cons_of_mem _ hx))]
    rfl

set_option maxRecDepth 100000 in
/-- Witness of C12 (amended): three user tags. -/
theorem add_exif_tags_order_witness :
    add_exif_tags World.ok 1
        { RASPISTILL_STATE.sample with exifTags := [some "A=1", some "B=2", some "C=3"], numExifTags := 3 }
      = (system_exif_tags World.ok 1 ++ ["A=1", "B=2", "C=3"]).map Event.exif_set :=
  (add_exif_tags_order World.ok 1
    { RASPISTILL_STATE.sample with exifTags := [some "A=1", some "B=2", some "C=3"], numExifTags := 3 }
    ["A=1", "B=2", "C=3"] [] rfl rfl (by decide)).2.2.2.2 (by decide)

set_option maxRecDepth 100000 in
/-- C12 (counterexample): with no user tag, `add_exif_tags` sets five tags on the
encoder output port, not four: the fifth is `IFD0.DateTime`. -/
theorem add_exif_tags_sets_five_system_tags :
    add_exif_tags World.ok 1 RASPISTILL_STATE.sample =
      [Event.exif_set "IFD0.Model=RP_OV5647",
       Event.exif_set "IFD0.Make=RaspberryPi",
       Event.exif_set "EXIF.DateTimeDigitized=2013:05:20:12:00:00",
       Event.exif_set "EXIF.DateTimeOriginal=2013:05:20:12:00:00",
       Event.exif_set "IFD0.DateTime=2013:05:20:12:00:00"]
      ∧ (add_exif_tags World.ok 1 RASPISTILL_STATE.sample).length ≠ 4 := by
  decide

/-! ## Teardown -/

/-- The calls of the teardown of `main`, entered without fault with the three components:
in this order, the disabling of the enabled ports among the video port and the encoder
output port, the destruction of the connections, the disabling of the encoder, the
preview and the camera, then the destruction of the pool, of the encoder, of the
preview and of the camera. -/
theorem teardown_trace (status : MMAL_STATUS_T) (r : Run)
    (hf : r.faulted = false)
    (hc : r.state.camera_component = true)
    (hp : r.state.preview_parameters.preview_component = true)
    (he : r.state.encoder_component = true) :
    (teardown status r).trace = r.trace ++
        ([Event.status_to_int status]
          ++ (if r.state.verbose ≠ 0 then [Event.diag "Closing down"] else [])
          ++ (if Port.camera_video_port ∈ r.enabled then
                [Event.port_disable Port.camera_video_port] else [])
          ++ (if Port.encoder_output_port ∈ r.enabled then
                [Event.port_disable Port.encoder_output_port] else [])
          ++ (if r.state.preview_parameters.wantPreview ≠ 0 then
                [Event.connection_destroy ConnSlot.preview_connection] else [])
          ++ [Event.connection_destroy ConnSlot.encoder_connection,
              Event.component_disable Component.encoder,
              Event.component_disable Component.preview,
              Event.component_disable Component.camera]
          ++ (if r.state.encoder_pool.isSome then [Event.pool_destroy] else [])
          ++ [Event.component_destroy Component.encoder,
              Event.preview_destroy,
              Event.component_destroy Component.camera]
          ++ (if r.state.verbose ≠ 0 then
                [Event.diag
                  "Close down completed, all components disconnected, disabled and destroyed"]
              else []))
      ∧ (teardown status r).faulted = false := by
  by_cases hv : r.state.verbose = 0 <;>
    by_cases h1 : Port.camera_video_port ∈ r.enabled <;>
    by_cases h2 : Port.encoder_output_port ∈ r.enabled <;>
    by_cases hw : r.state.preview_parameters.wantPreview = 0 <;>
    cases hpool : r.state.encoder_pool <;>
    simp [teardown, teardown_disable, check_disable_port, destroy_encoder_component,
      raspipreview_destroy, destroy_camera_component, Run.verbose, Run.emit,
      hf, hc, hp, he, hv, h1, h2, hw, hpool]

/-- The capture block does not change the state. -/
theorem capture_block_state (w : World) (k : Int) (c : Capture) :
    (capture_block w k c).run.state = c.run.state := by
  unfold capture_block
  by_cases hc : w.capture k = MMAL_SUCCESS <;>
    rcases ho : c.output_file with _ | _ | id <;>
    cases hp : c.run.state.encoder_pool <;> simp [hc]

/-- The opening of the destination changes no component pointer. -/
theorem open_destination_components (w : World) (k : Int) (c : Capture) :
    (open_destination w k c).run.state.components = c.run.state.components := by
  unfold open_destination
  cases hn : c.run.state.filename with
  | none => rfl
  | some filename =>
    by_cases hd : filename.data.head? = some '-'
    · simp [hd, RASPISTILL_STATE.components]
    · cases hfmt : use_filename w c.run.state filename k with
      | none => simp [hd, hfmt]
      | some name =>
        cases hopen : w.fopen k name <;> simp [hd, hfmt, hopen, RASPISTILL_STATE.components]

/-- The state after the body of the capture loop is the state after the opening of the
destination. -/
theorem capture_frame_state (w : World) (k : Int) (c : Capture)
    (hf : c.run.faulted = false) :
    (capture_frame w k c).run.state =
      (open_destination w k
        { c with run := c.run.emit [Event.sleep (if c.run.state.timelapse ≠ 0 then
          c.run.state.timelapse else c.run.state.timeout)] }).run.state := by
  have key : ∀ c' : Capture,
      (if c'.run.faulted = true then c' else capture_block w k c').run.state
        = c'.run.state := by
    intro c'
    by_cases h : c'.run.faulted = true
    · rw [if_pos h]
    · rw [if_neg h, capture_block_state]
  unfold capture_frame
  rw [if_neg (by simp [hf])]
  exact key _

/-- The body of the capture loop changes no component pointer. -/
theorem capture_frame_components (w : World) (k : Int) (c : Capture) :
    (capture_frame w k c).run.state.components = c.run.state.components := by
  by_cases hf : c.run.faulted = true
  · simp [capture_frame, hf]
  · rw [capture_frame_state w k c (by simpa using hf), open_destination_components]
    rfl

/-- The capture loop changes no component pointer. -/
theorem frame_loop_components (w : World) (num_iterations frame : Int) (c : Capture) :
    (frame_loop w num_iterations frame c).run.state.components = c.run.state.components := by
  rw [frame_loop_state]
  generalize List.map (fun i : Nat => frame + (i : Int))
    (List.range (num_iterations + 1 - frame).toNat) = l
  induction l generalizing c with
  | nil => rfl
  | cons k l ih => rw [List.foldl_cons, ih, capture_frame_components]

/-- The demo loop makes calls only. -/
theorem demo_loop_state (num_iterations : Int) (m : Nat) (i : Int) (r : Run)
    (hm : (num_iterations - i).toNat = m) :
    (demo_loop num_iterations i r).state = r.state
      ∧ (demo_loop num_iterations i r).faulted = r.faulted := by
  induction m generalizing i r with
  | zero =>
    rw [demo_loop, if_neg (by omega)]
    exact ⟨rfl, rfl⟩
  | succ m ih =>
    rw [demo_loop, if_pos (by omega)]
    obtain ⟨h1, h2⟩ := ih (i + 1)
      (r.emit [Event.cycle_test, Event.sleep r.state.demoInterval]) (by omega)
    exact ⟨h1, h2⟩

/-- Demo mode changes no component pointer. -/
theorem demo_mode_components (r : Run) :
    (demo_mode r).state.components = r.state.components := by
  unfold demo_mode
  split
  · rfl
  · rw [(demo_loop_state _ _ _ _ rfl).1]

/-- Capture mode changes no component pointer. -/
theorem capture_mode_components (w : World) (r : Run) :
    (capture_mode w r).state.components = r.state.components := by
  unfold capture_mode
  split
  · rfl
  · unfold capture_finish
    split_ifs <;> simp only [Run.emit_state, frame_loop_components]

/-- The connection stage changes no component pointer. -/
theorem connection_stage_components (w : World) (r : Run) :
    (connection_stage w r).2.state.components = r.state.components := by
  have hrc : ∀ (o i : Port) (slot : ConnSlot) (r : Run),
      (run_connect_ports w o i slot r).2.state.components = r.state.components := by
    intro o i slot r
    simp [RASPISTILL_STATE.components, (run_connect_ports_spec w o i slot r).2.2.2.2.1]
  have hset : ∀ (r : Run) (e : List Port),
      ({ r with enabled := e } : Run).state.components = r.state.components := fun _ _ => rfl
  unfold connection_stage
  simp only []
  split_ifs <;>
    simp only [Run.emit_state, Run.verbose_state, hrc, hset, demo_mode_components,
      capture_mode_components]

set_option maxHeartbeats 4000000 in
/-- When `create_encoder_component` fails after it has created the component, its last
call destroys the component. -/
theorem create_encoder_component_error_destroys (w : EncoderWorld) (r : Run)
    (hfail : (create_encoder_component w r).1 = false)
    (hcreated : w.component_create = MMAL_SUCCESS) :
    (create_encoder_component w r).2.trace.getLast?
      = some (Event.component_destroy Component.encoder) := by
  revert hfail
  unfold create_encoder_component
  simp only [create_error, Bool.false_eq_true, if_false, if_true, reduceIte]
  split_ifs <;> simp_all [List.getLast?_append]

/-- C14: in every run of `main` that has created the three components and reaches the
label `error:` without fault, the calls from there on are, in this order: the disabling
of the video port and of the encoder output port (those that are enabled), the
destruction of the preview connection (when a preview is wanted) and of the encoder
connection, the disabling of the encoder, the preview and the camera, and only then the
destruction of the encoder (its pool first), the preview and the camera.  When the
creation of the preview fails the camera is destroyed; when the creation of the
encoder fails, the encoder has destroyed its own component if it had created it, and
`main` destroys the preview, then the camera. -/
theorem teardown_order (w : World) (state : RASPISTILL_STATE) :
    ((setup_camera w state).1 = true → (setup_preview w state).1 = true →
        (setup_encoder w state).1 = true → (setup_stage w state).2.faulted = false →
        (main_body w state).run.trace = (setup_stage w state).2.trace ++
          ([Event.status_to_int (setup_stage w state).1]
            ++ (if (setup_stage w state).2.state.verbose ≠ 0 then [Event.diag "Closing down"]
                else [])
            ++ (if Port.camera_video_port ∈ (setup_stage w state).2.enabled then
                  [Event.port_disable Port.camera_video_port] else [])
            ++ (if Port.encoder_output_port ∈ (setup_stage w state).2.enabled then
                  [Event.port_disable Port.encoder_output_port] else [])
            ++ (if (setup_stage w state).2.state.preview_parameters.wantPreview ≠ 0 then
                  [Event.connection_destroy ConnSlot.preview_connection] else [])
            ++ [Event.connection_destroy ConnSlot.encoder_connection,
                Event.component_disable Component.encoder,
                Event.component_disable Component.preview,
                Event.component_disable Component.camera]
            ++ (if (setup_stage w state).2.state.encoder_pool.isSome then [Event.pool_destroy]
                else [])
            ++ [Event.component_destroy Component.encoder,
                Event.preview_destroy,
                Event.component_destroy Component.camera]
            ++ (if (setup_stage w state).2.state.verbose ≠ 0 then
                  [Event.diag
                    "Close down completed, all components disconnected, disabled and destroyed"]
                else []))
          ++ (if (setup_stage w state).1 ≠ 0 then [Event.check_configuration 128] else []))
      ∧ ((setup_camera w state).1 = true → (setup_preview w state).1 = false →
          (main_body w state).run.trace = (setup_preview w state).2.trace ++
            [Event.log_error "Failed to create preview component",
             Event.component_destroy Component.camera,
             Event.check_configuration 128])
      ∧ ((setup_camera w state).1 = true → (setup_preview w state).1 = true →
          (setup_encoder w state).1 = false →
          (main_body w state).run.trace = (setup_encoder w state).2.trace ++
              [Event.log_error "Failed to create encode component",
               Event.preview_destroy,
               Event.component_destroy Component.camera,
               Event.check_configuration 128]
            ∧ (w.encoder.component_create = MMAL_SUCCESS →
                (setup_encoder w state).2.trace.getLast?
                  = some (Event.component_destroy Component.encoder))) := by
  have hi : (Run.initial state).faulted = false := by simp [Run.initial]
  obtain ⟨cf, _, -, cok⟩ := create_camera_component_spec w.camera (Run.initial state)
  obtain ⟨pf, _, pres, pfail, pcam, penc⟩ := raspipreview_create_spec w (setup_camera w state).2
  obtain ⟨ef, _, efail, eok⟩ := create_encoder_component_spec w.encoder (setup_preview w state).2
  have hprev : (setup_preview w state).1 = true →
      (setup_preview w state).2.state.preview_parameters.preview_component = true := by
    intro h
    have hw : w.preview_create = true := by rw [← pres]; exact h
    simp [setup_preview, raspipreview_create, hw]
  refine ⟨fun hc hp he hs => ?_, fun hc hp => ?_, fun hc hp he => ⟨?_, fun hcr => ?_⟩⟩
  · have hcomp := connection_stage_components w (setup_encoder w state).2
    simp only [RASPISTILL_STATE.components, Prod.mk.injEq] at hcomp
    obtain ⟨k1, k2, k3, k4⟩ := hcomp
    obtain ⟨e1, e2, e3⟩ := eok he
    have hcam : (setup_stage w state).2.state.camera_component = true :=
      k1.trans (e2.trans (pcam.trans
        (congrArg RASPISTILL_STATE.camera_component (cok hc))))
    have hpre : (setup_stage w state).2.state.preview_parameters.preview_component = true :=
      (congrArg RASPIPREVIEW_PARAMETERS.preview_component (k3.trans e3)).trans (hprev hp)
    have henc : (setup_stage w state).2.state.encoder_component = true := k2.trans e1
    obtain ⟨ht, htf⟩ := teardown_trace (setup_stage w state).1 (setup_stage w state).2 hs
      hcam hpre henc
    have hmain : main_body w state
        = main_return (setup_stage w state).1
            (teardown (setup_stage w state).1 (setup_stage w state).2) := by
      have h1 : ¬ (create_camera_component w.camera (Run.initial state)).1 = false := by
        rw [show (create_camera_component w.camera (Run.initial state)).1 = true from hc]
        simp
      have h2 : ¬ (raspipreview_create w
          (create_camera_component w.camera (Run.initial state)).2).1 = false := by
        rw [show (raspipreview_create w
          (create_camera_component w.camera (Run.initial state)).2).1 = true from hp]
        simp
      have h3 : ¬ (create_encoder_component w.encoder (raspipreview_create w
          (create_camera_component w.camera (Run.initial state)).2).2).1 = false := by
        rw [show (create_encoder_component w.encoder (raspipreview_create w
          (create_camera_component w.camera (Run.initial state)).2).2).1 = true from he]
        simp
      unfold main_body
      simp only []
      rw [if_neg h1, if_neg h2, if_neg h3]
      rfl
    rw [hmain]
    unfold main_return
    rw [if_neg (by simp [htf])]
    by_cases hst : (setup_stage w state).1 ≠ 0
    · rw [if_pos hst, if_pos hst]
      show (teardown (setup_stage w state).1 (setup_stage w state).2).trace
        ++ [Event.check_configuration 128] = _
      rw [ht]
    · rw [if_neg hst, if_neg hst]
      show (teardown (setup_stage w state).1 (setup_stage w state).2).trace = _
      rw [ht, List.append_nil]
  · have h1 : ¬ (create_camera_component w.camera (Run.initial state)).1 = false := by
      rw [show (create_camera_component w.camera (Run.initial state)).1 = true from hc]
      simp
    have hst : (setup_preview w state).2.state.camera_component = true :=
      pcam.trans (congrArg RASPISTILL_STATE.camera_component (cok hc))
    have hfl : (setup_preview w state).2.faulted = false := pf.trans (cf.trans hi)
    unfold main_body
    simp only []
    have hp' : (raspipreview_create w
        (create_camera_component w.camera (Run.initial state)).2).1 = false := hp
    rw [if_neg h1, if_pos hp']
    show (main_return (-1) (destroy_camera_component ((setup_preview w state).2.emit
      [Event.log_error "Failed to create preview component"]))).run.trace = _
    simp [main_return, destroy_camera_component, hst, hfl]
  · have h1 : ¬ (create_camera_component w.camera (Run.initial state)).1 = false := by
      rw [show (create_camera_component w.camera (Run.initial state)).1 = true from hc]
      simp
    have h2 : ¬ (raspipreview_create w
        (create_camera_component w.camera (Run.initial state)).2).1 = false := by
      rw [show (raspipreview_create w
        (create_camera_component w.camera (Run.initial state)).2).1 = true from hp]
      simp
    have hst : (setup_encoder w state).2.state = (setup_preview w state).2.state := efail he
    have hcam : (setup_preview w state).2.state.camera_component = true :=
      pcam.trans (congrArg RASPISTILL_STATE.camera_component (cok hc))
    have hfl : (setup_encoder w state).2.faulted = false :=
      ef.trans (pf.trans (cf.trans hi))
    unfold main_body
    simp only []
    have he' : (create_encoder_component w.encoder (raspipreview_create w
        (create_camera_component w.camera (Run.initial state)).2).2).1 = false := he
    rw [if_neg h1, if_neg h2, if_pos he']
    show (main_return (-1) (destroy_camera_component (raspipreview_destroy
      ((setup_encoder w state).2.emit
        [Event.log_error "Failed to create encode component"])))).run.trace = _
    simp [main_return, destroy_camera_component, raspipreview_destroy, hst, hcam, hfl,
      hprev hp]
  · exact create_encoder_component_error_destroys w.encoder _ he hcr

set_option maxRecDepth 100000 in
/-- Witness of C14: the three components are created, the connections are made and the
enabling of the encoder output port fails; `main` destroys the two connections,
disables the encoder, the preview and the camera, and destroys them in this order. -/
theorem teardown_order_witness :
    (main_body World.no_output_port RASPISTILL_STATE.sample).run.trace
      = (setup_stage World.no_output_port RASPISTILL_STATE.sample).2.trace ++
          [Event.status_to_int 1,
           Event.connection_destroy ConnSlot.preview_connection,
           Event.connection_destroy ConnSlot.encoder_connection,
           Event.component_disable Component.encoder,
           Event.component_disable Component.preview,
           Event.component_disable Component.camera,
           Event.pool_destroy,
           Event.component_destroy Component.encoder,
           Event.preview_destroy,
           Event.component_destroy Component.camera,
           Event.check_configuration 128] :=
  ((teardown_order World.no_output_port RASPISTILL_STATE.sample).1
    (by decide) (by decide) (by decide) (by decide)).trans (by decide)

/-! ## Destination of a frame -/

/-- Once `verbose` is 0, the opening of the destination leaves the state as it was. -/
theorem open_destination_state_quiet (w : World) (k : Int) (c : Capture)
    (h : c.run.state.verbose = 0) : (open_destination w k c).run.state = c.run.state := by
  unfold open_destination
  cases hn : c.run.state.filename with
  | none => rfl
  | some filename =>
    by_cases hd : filename.data.head? = some '-'
    · simp [hd, ← h]
    · cases hfmt : use_filename w c.run.state filename k with
      | none => simp [hd, hfmt]
      | some name => cases hopen : w.fopen k name <;> simp [hd, hfmt, hopen]

/-- Once `verbose` is 0, the body of the capture loop leaves the state as it was. -/
theorem capture_frame_state_quiet (w : World) (k : Int) (c : Capture)
    (h : c.run.state.verbose = 0) : (capture_frame w k c).run.state = c.run.state := by
  by_cases hf : c.run.faulted = true
  · simp [capture_frame, hf]
  · rw [capture_frame_state w k c (by simpa using hf)]
    exact open_destination_state_quiet w k _ h

/-- Once `verbose` is 0, the capture loop leaves the state as it was. -/
theorem frame_loop_state_quiet (w : World) (num_iterations frame : Int) (c : Capture)
    (h : c.run.state.verbose = 0) :
    (frame_loop w num_iterations frame c).run.state = c.run.state := by
  rw [frame_loop_state]
  generalize List.map (fun i : Nat => frame + (i : Int))
    (List.range (num_iterations + 1 - frame).toNat) = l
  induction l generalizing c with
  | nil => rfl
  | cons k l ih =>
    rw [List.foldl_cons, ih _ ((capture_frame_state_quiet w k c h).symm ▸ h),
      capture_frame_state_quiet w k c h]

/-- C15 (amended): for a non-null file name `filename` and a frame `k`, the block that
opens the destination chooses the standard output when the first character of the name
is `-`: it makes no `fopen` call, sets `verbose` to 0, and `verbose` is 0 after the
capture of the frame and after every later iteration of the loop.  For every other name
it makes one `fopen` call: when `timelapse` is 0, on the name itself; when `timelapse`
is not 0 and the call of `asprintf` with the name as its format string and the frame
number as its argument returns, on the text that `asprintf` returned.  The destination
is then the file that `fopen` returned (none when it failed), and the state is left as
it was.  When `timelapse` is not 0 and the program does not survive the call of
`asprintf`, the run faults there and makes no `fopen` call and no other call. -/
theorem destination_resolution (w : World) (k : Int) (c : Capture) (filename : String)
    (hname : c.run.state.filename = some filename) :
    (filename.toList.head? = some '-' →
        (open_destination w k c).output_file = some FILE.stdout
          ∧ (open_destination w k c).file_handle = some FILE.stdout
          ∧ (open_destination w k c).run.state = { c.run.state with verbose := 0 }
          ∧ (open_destination w k c).run.faulted = c.run.faulted
          ∧ (∀ name j, Event.fopen name j ∉
              (open_destination w k c).run.trace.drop c.run.trace.length)
          ∧ ∀ num_iterations j,
              (frame_loop w num_iterations j
                (capture_block w k (open_destination w k c))).run.state.verbose = 0)
      ∧ (filename.toList.head? ≠ some '-' →
          (∀ name, (c.run.state.timelapse = 0 ∧ name = filename)
              ∨ (c.run.state.timelapse ≠ 0 ∧ w.asprintf filename k = some name) →
            (open_destination w k c).output_file = (w.fopen k name).map FILE.opened
              ∧ (open_destination w k c).file_handle = (open_destination w k c).output_file
              ∧ ((open_destination w k c).run.trace.drop c.run.trace.length).filter
                  Event.isOpen = [Event.fopen name k]
              ∧ (open_destination w k c).run.state = c.run.state
              ∧ (open_destination w k c).run.faulted = c.run.faulted)
            ∧ (c.run.state.timelapse ≠ 0 → w.asprintf filename k = none →
                (open_destination w k c).run.faulted = true
                  ∧ (open_destination w k c).run.trace = c.run.trace
                  ∧ (c.run.faulted = false →
                      (capture_frame w k c).run.faulted = true
                        ∧ frame_events w k c = [Event.sleep c.run.state.timelapse]))) := by
  have hexif : ∀ s, (add_exif_tags w k s).filter Event.isOpen = [] := by
    intro s
    rw [List.filter_eq_nil_iff]
    intro e he
    obtain ⟨t, rfl⟩ := add_exif_tags_events w k s e he
    simp [Event.isOpen]
  refine ⟨fun hdash => ?_, fun hdash => ⟨fun name hn => ?_, fun htl hfmt => ?_⟩⟩
  · have hdash' : filename.data.head? = some '-' := hdash
    have hstate : (open_destination w k c).run.state = { c.run.state with verbose := 0 } := by
      simp [open_destination, hname, hdash']
    refine ⟨by simp [open_destination, hname, hdash'],
      by simp [open_destination, hname, hdash'], hstate,
      by simp [open_destination, hname, hdash'], ?_, ?_⟩
    · intro name j hmem
      have ht : (open_destination w k c).run.trace = c.run.trace ++
          (add_exif_tags w k { c.run.state with verbose := 0 }
            ++ [Event.set_file_handle (some FILE.stdout)]) := by
        simp [open_destination, hname, hdash']
      rw [ht, List.drop_left] at hmem
      rcases List.mem_append.1 hmem with hmem | hmem
      · obtain ⟨t, ht⟩ := add_exif_tags_events w k _ _ hmem
        cases ht
      · simp at hmem
    · intro n j
      rw [frame_loop_state_quiet, capture_block_state, hstate]
      rw [capture_block_state, hstate]
  · have hdash' : ¬ filename.data.head? = some '-' := hdash
    have hfmt : use_filename w c.run.state filename k = some name := by
      rcases hn with ⟨h0, rfl⟩ | ⟨h1, h2⟩
      · simp [use_filename, h0]
      · simp [use_filename, h1, h2]
    refine ⟨by simp [open_destination, hname, hdash', hfmt],
      by simp [open_destination, hname, hdash', hfmt], ?_, ?_, ?_⟩
    · cases hopen : w.fopen k name <;>
        by_cases hv : c.run.state.verbose = 0 <;>
        simp [open_destination, hname, hdash', hfmt, hopen, hv, Run.verbose, hexif,
          Event.isOpen]
    · cases hopen : w.fopen k name <;>
        simp [open_destination, hname, hdash', hfmt, hopen]
    · cases hopen : w.fopen k name <;>
        simp [open_destination, hname, hdash', hfmt, hopen]
  · have hdash' : ¬ filename.data.head? = some '-' := hdash
    have hfmt' : use_filename w c.run.state filename k = none := by
      simp [use_filename, htl, hfmt]
    refine ⟨by simp [open_destination, hname, hdash', hfmt'],
      by simp [open_destination, hname, hdash', hfmt'], fun hfault => ?_⟩
    obtain ⟨ht, _, hf, _⟩ := capture_frame_asprintf_fault w k c filename hfault hname hdash hfmt'
    refine ⟨hf, ?_⟩
    rw [frame_events_of_trace w k c _ ht, if_pos htl]

set_option maxRecDepth 100000 in
/-- Witness of C15 (amended): in timelapse mode the name `i%d.jpg` is the format of
`asprintf`, and the second frame opens the file `i2.jpg`. -/
theorem destination_resolution_witness :
    (open_destination World.ok 2
        (Capture.start { RASPISTILL_STATE.sample with filename := some "i%d.jpg", timelapse := 1000 })).run.trace.filter
          Event.isOpen = [Event.fopen "i2.jpg" 2]
      ∧ (open_destination World.ok 2
        (Capture.start { RASPISTILL_STATE.sample with filename := some "i%d.jpg", timelapse := 1000 })).output_file
        = some (FILE.opened 2) :=
  have h := ((destination_resolution World.ok 2
    (Capture.start { RASPISTILL_STATE.sample with filename := some "i%d.jpg", timelapse := 1000 })
    "i%d.jpg" rfl).2 (by decide)).1 "i2.jpg" (Or.inr ⟨by decide, by decide⟩)
  ⟨h.2.2.1, h.1.trans (by decide)⟩

set_option maxRecDepth 100000 in
/-- C15 (counterexample): the file name `-x.jpg`, longer than one character, is not
opened as a file: the frame makes no `fopen` call, its destination is the standard
output and `verbose` is set to 0.  And in timelapse mode the file name `%s.jpg`, which
does not begin with `-`, is not opened as a file either, in a world where `asprintf` is
fatal on a format that reads a string: the run faults before any `fopen`. -/
theorem dash_prefixed_name_goes_to_stdout :
    (open_destination World.ok 1
        (Capture.start { RASPISTILL_STATE.sample with filename := some "-x.jpg", verbose := 1 })).output_file
      = some FILE.stdout
      ∧ (open_destination World.ok 1
          (Capture.start { RASPISTILL_STATE.sample with filename := some "-x.jpg", verbose := 1 })).run.state.verbose
        = 0
      ∧ (frame_events World.ok 1
          (Capture.start { RASPISTILL_STATE.sample with filename := some "-x.jpg", verbose := 1 })).filter Event.isOpen = []
      ∧ (capture_frame World.ok 1
          (Capture.start { RASPISTILL_STATE.sample with filename := some "%s.jpg", timelapse := 1000 })).run.faulted
        = true
      ∧ frame_events World.ok 1
          (Capture.start { RASPISTILL_STATE.sample with filename := some "%s.jpg", timelapse := 1000 })
        = [Event.sleep 1000] := by
  decide

/-! ## EXIF tags and sink handle of a frame -/

/-- All the calls of `add_exif_tags` are EXIF calls. -/
theorem filter_isExif_add_exif_tags (w : World) (k : Int) (s : RASPISTILL_STATE) :
    (add_exif_tags w k s).filter Event.isExif = add_exif_tags w k s := by
  rw [List.filter_eq_self]
  intro e he
  obtain ⟨t, rfl⟩ := add_exif_tags_events w k s e he
  rfl

/-- The drain loop makes no EXIF call. -/
theorem filter_isExif_feed_pool (num : Nat) (get : Nat → Option Buf)
    (send : Nat → MMAL_STATUS_T) : (feed_pool num get send).filter Event.isExif = [] := by
  rw [List.filter_eq_nil_iff]
  intro e he
  simp only [feed_pool, List.mem_cons] at he
  rcases he with h | h
  · subst h; simp [Event.isExif]
  · rcases feed_loop_events get send num 0 e h with h | h | ⟨m, h⟩
    · cases e <;> simp_all [Event.isQueueGet, Event.isExif]
    · cases e <;> simp_all [Event.isSend, Event.isExif]
    · subst h; simp [Event.isExif]

/-- The first call of `add_exif_tags` sets the tag of the camera model. -/
theorem model_tag_mem_add_exif_tags (w : World) (k : Int) (s : RASPISTILL_STATE) :
    Event.exif_set "IFD0.Model=RP_OV5647" ∈ add_exif_tags w k s := by
  have h : (add_exif_tag w k (some "IFD0.Model=RP_OV5647")).2
      = [Event.exif_set "IFD0.Model=RP_OV5647"] := by
    rw [add_exif_tag, if_neg (by decide)]
  unfold add_exif_tags
  rw [h]
  simp

/-- The EXIF calls of a frame without a file name: none. -/
theorem capture_frame_no_filename_exif (w : World) (k : Int) (c : Capture)
    (hname : c.run.state.filename = none) :
    (frame_events w k c).filter Event.isExif = [] := by
  unfold frame_events capture_frame
  by_cases hf : c.run.faulted = true
  · simp [hf]
  · have hfeed := filter_isExif_feed_pool (w.queue_length k) (w.queue_get k) (w.send_buffer k)
    by_cases hc : w.capture k = MMAL_SUCCESS <;>
      by_cases hv : c.run.state.verbose = 0 <;>
      rcases ho : c.output_file with _ | _ | id <;>
      cases hp : c.run.state.encoder_pool <;>
      simp [hf, open_destination, capture_block, hname, ho, hp, hc, hv, Run.verbose,
        List.filter_append, hfeed, Event.isExif]

/-- C17 (amended): in an iteration of the capture loop that the run enters without
fault, the tag-set operations issued on the encoder output port are those of one call of
`add_exif_tags`, the tag of the camera model among them, when the file name is set and
the frame reaches the call: the name begins with `-` (standard output), or `timelapse` is
0, or the call of `asprintf` on the name returned; this holds whether `fopen` succeeded
or failed.  There is none when the file name is set, does not begin with `-`, `timelapse`
is not 0 and the program does not survive the call of `asprintf`: the frame faults before
`add_exif_tags`.  And there is none when no file name is set. -/
theorem exif_tags_applied_iff_filename (w : World) (k : Int) (c : Capture)
    (hfault : c.run.faulted = false) :
    (∀ filename, c.run.state.filename = some filename →
        (filename.toList.head? = some '-' ∨ c.run.state.timelapse = 0
          ∨ (w.asprintf filename k).isSome = true) →
        (frame_events w k c).filter Event.isExif = add_exif_tags w k c.run.state
          ∧ Event.exif_set "IFD0.Model=RP_OV5647" ∈ frame_events w k c)
      ∧ (∀ filename, c.run.state.filename = some filename →
          filename.toList.head? ≠ some '-' → c.run.state.timelapse ≠ 0 →
          w.asprintf filename k = none →
          (frame_events w k c).filter Event.isExif = []
            ∧ (capture_frame w k c).run.faulted = true)
      ∧ (c.run.state.filename = none → (frame_events w k c).filter Event.isExif = []) := by
  refine ⟨fun filename hname hret => ?_, fun filename hname hdash htl hfmt => ?_,
    capture_frame_no_filename_exif w k c⟩
  rotate_left
  · have hfmt' : use_filename w c.run.state filename k = none := by
      simp [use_filename, htl, hfmt]
    obtain ⟨ht, _, hf, _⟩ := capture_frame_asprintf_fault w k c filename hfault hname hdash hfmt'
    rw [frame_events_of_trace w k c _ ht]
    exact ⟨by simp [Event.isExif], hf⟩
  have hfeed := filter_isExif_feed_pool (w.queue_length k) (w.queue_get k) (w.send_buffer k)
  have hexif := filter_isExif_add_exif_tags w k c.run.state
  have hquiet : add_exif_tags w k { c.run.state with verbose := 0 }
      = add_exif_tags w k c.run.state := rfl
  have key : (frame_events w k c).filter Event.isExif = add_exif_tags w k c.run.state := by
    by_cases hdash : filename.toList.head? = some '-'
    · cases hpool : c.run.state.encoder_pool with
      | none =>
        obtain ⟨ht, _⟩ := capture_frame_stdout_no_pool w k c filename hfault hname hdash hpool
        rw [frame_events_of_trace w k c _ ht, hquiet]
        simp [List.filter_append, hexif, Event.isExif]
      | some pool =>
        obtain ⟨ht, _⟩ := capture_frame_stdout w k c filename pool hfault hname hdash hpool
        rw [frame_events_of_trace w k c _ ht, hquiet]
        by_cases hc : w.capture k = MMAL_SUCCESS <;>
          simp [List.filter_append, hexif, hfeed, Event.isExif, hc]
    · obtain ⟨name, hfmt⟩ : ∃ name, use_filename w c.run.state filename k = some name := by
        rcases hret with h | h | h
        · exact absurd h hdash
        · exact ⟨filename, by simp [use_filename, h]⟩
        · by_cases htl : c.run.state.timelapse = 0
          · exact ⟨filename, by simp [use_filename, htl]⟩
          · obtain ⟨name, hn⟩ := Option.isSome_iff_exists.1 h
            exact ⟨name, by simp [use_filename, htl, hn]⟩
      cases hopen : w.fopen k name with
      | none =>
        obtain ⟨ht, _⟩ :=
          capture_frame_open_failure w k c filename name hfault hname hdash hfmt hopen
        rw [frame_events_of_trace w k c _ ht]
        by_cases hv : c.run.state.verbose = 0 <;>
          simp [List.filter_append, hexif, Event.isExif, hv]
      | some id =>
        cases hpool : c.run.state.encoder_pool with
        | none =>
          obtain ⟨ht, _⟩ :=
            capture_frame_file_no_pool w k c filename name id hfault hname hdash hfmt hopen hpool
          rw [frame_events_of_trace w k c _ ht]
          by_cases hv : c.run.state.verbose = 0 <;>
            simp [List.filter_append, hexif, Event.isExif, hv]
        | some pool =>
          obtain ⟨ht, _⟩ :=
            capture_frame_file w k c filename name id pool hfault hname hdash hfmt hopen hpool
          rw [frame_events_of_trace w k c _ ht]
          by_cases hc : w.capture k = MMAL_SUCCESS <;>
            by_cases hv : c.run.state.verbose = 0 <;>
            simp [List.filter_append, hexif, hfeed, Event.isExif, hc, hv]
  exact ⟨key, List.mem_of_mem_filter (key ▸ model_tag_mem_add_exif_tags w k c.run.state)⟩

set_option maxRecDepth 100000 in
/-- Witness of C17 (amended): a frame that opens the file `a.jpg` and has one user tag. -/
theorem exif_tags_applied_iff_filename_witness :
    (frame_events World.ok 1
        (Capture.start { RASPISTILL_STATE.sample with filename := some "a.jpg", exifTags := [some "A=1"], numExifTags := 1 })).filter
        Event.isExif
      = (system_exif_tags World.ok 1 ++ ["A=1"]).map Event.exif_set :=
  (((exif_tags_applied_iff_filename World.ok 1
    (Capture.start { RASPISTILL_STATE.sample with filename := some "a.jpg", exifTags := [some "A=1"], numExifTags := 1 })
    rfl).1 "a.jpg" rfl (Or.inr (Or.inl rfl))).1).trans (by decide)

set_option maxRecDepth 100000 in
/-- C17 (counterexample): the `fopen` of frame 1 fails, the failure is logged, and the
frame still issues the five tag-set operations of `add_exif_tags` on the encoder output
port. -/
theorem open_failure_still_sets_exif_tags :
    World.first_open_fails.fopen 1 "a.jpg" = none
      ∧ (capture_frame World.first_open_fails 1
          (Capture.start { RASPISTILL_STATE.sample with filename := some "a.jpg" })).output_file
        = none
      ∧ frame_events World.first_open_fails 1
          (Capture.start { RASPISTILL_STATE.sample with filename := some "a.jpg" })
        = [Event.sleep 5000, Event.fopen "a.jpg" 1,
           Event.log_error "Error opening output file. No output file will be generated",
           Event.exif_set "IFD0.Model=RP_OV5647",
           Event.exif_set "IFD0.Make=RaspberryPi",
           Event.exif_set "EXIF.DateTimeDigitized=2013:05:20:12:00:00",
           Event.exif_set "EXIF.DateTimeOriginal=2013:05:20:12:00:00",
           Event.exif_set "IFD0.DateTime=2013:05:20:12:00:00",
           Event.set_file_handle none] := by
  decide

/-- The EXIF calls neither take nor send a buffer, nor write the sink handle, nor close a
file. -/
theorem add_exif_tags_class (w : World) (k : Int) (s : RASPISTILL_STATE) :
    ∀ e ∈ add_exif_tags w k s,
      e.isQueueGet = false ∧ e.isSend = false ∧ e.isHandle = false ∧ e.isClose = false := by
  intro e he
  obtain ⟨t, rfl⟩ := add_exif_tags_events w k s e he
  simp [Event.isQueueGet, Event.isSend, Event.isHandle, Event.isClose]

/-- The drain loop neither writes the sink handle nor closes a file. -/
theorem feed_pool_class (num : Nat) (get : Nat → Option Buf) (send : Nat → MMAL_STATUS_T) :
    ∀ e ∈ feed_pool num get send, e.isHandle = false ∧ e.isClose = false := by
  intro e he
  simp only [feed_pool, List.mem_cons] at he
  rcases he with h | h
  · subst h; simp [Event.isHandle, Event.isClose]
  · rcases feed_loop_events get send num 0 e h with h | h | ⟨m, h⟩
    · cases e <;> simp_all [Event.isQueueGet, Event.isHandle, Event.isClose]
    · cases e <;> simp_all [Event.isSend, Event.isHandle, Event.isClose]
    · subst h; simp [Event.isHandle, Event.isClose]

/-- C18: in an iteration that opened a destination `f` (the standard output, or a file
that `fopen` returned for the name that the frame has resolved), the calls of the frame are `pre`, the write of `f` to the sink
handle, and `post`: no buffer is taken from the pool or sent to the port and the handle
is not written in `pre`; and when the frame does not fault at the read of the pool,
`post` is the drain of the pool, the capture trigger with its outcome and what follows
it, then the write of NULL to the sink handle, then the `fclose` of `f` when `f` is a
file and nothing when `f` is the standard output, with no write of the handle and no
`fclose` in between, whatever the trigger returned.  The standard output is never
closed, and the frame faults only when there is no pool. -/
theorem sink_handle_discipline (w : World) (k : Int) (c : Capture)
    (filename : String) (f : FILE)
    (hfault : c.run.faulted = false)
    (hname : c.run.state.filename = some filename)
    (hdest : (filename.toList.head? = some '-' ∧ f = FILE.stdout)
      ∨ (filename.toList.head? ≠ some '-'
          ∧ ∃ name id, use_filename w c.run.state filename k = some name
              ∧ w.fopen k name = some id ∧ f = FILE.opened id)) :
    ∃ pre post, frame_events w k c = pre ++ Event.set_file_handle (some f) :: post
      ∧ (∀ e ∈ pre, e.isQueueGet = false ∧ e.isSend = false ∧ e.isHandle = false)
      ∧ ((capture_frame w k c).run.faulted = false →
          ∃ mid, post = feed_pool (w.queue_length k) (w.queue_get k) (w.send_buffer k)
                ++ mid ++ Event.set_file_handle none ::
                  (match f with
                    | FILE.stdout => []
                    | FILE.opened id => [Event.fclose id])
            ∧ Event.capture k (w.capture k) ∈ mid
            ∧ (∀ e ∈ mid, e.isHandle = false ∧ e.isClose = false)
            ∧ (capture_frame w k c).file_handle = none)
      ∧ (f = FILE.stdout → ∀ id, Event.fclose id ∉ frame_events w k c)
      ∧ ((capture_frame w k c).run.faulted = true →
          c.run.state.encoder_pool = none ∧ post = []) := by
  have hex := add_exif_tags_class w k c.run.state
  have hquiet : add_exif_tags w k { c.run.state with verbose := 0 }
      = add_exif_tags w k c.run.state := rfl
  have hpre : ∀ l : List Event,
      l.all (fun e => !e.isQueueGet && !e.isSend && !e.isHandle) = true →
      ∀ e ∈ l ++ add_exif_tags w k c.run.state,
        e.isQueueGet = false ∧ e.isSend = false ∧ e.isHandle = false := by
    intro l hl e he
    rcases List.mem_append.1 he with h | h
    · simpa [and_assoc] using List.all_eq_true.1 hl e h
    · exact ⟨(hex e h).1, (hex e h).2.1, (hex e h).2.2.1⟩
  have hmid : ∀ l : List Event, l.all (fun e => !e.isHandle && !e.isClose) = true →
      ∀ e ∈ l, e.isHandle = false ∧ e.isClose = false := by
    intro l hl e he
    simpa using List.all_eq_true.1 hl e he
  rcases hdest with ⟨hdash, rfl⟩ | ⟨hdash, name, id, hfmt, hopen, rfl⟩
  · cases hpool : c.run.state.encoder_pool with
    | none =>
      obtain ⟨ht, hf, _⟩ := capture_frame_stdout_no_pool w k c filename hfault hname hdash hpool
      rw [frame_events_of_trace w k c _ ht, hquiet]
      refine ⟨[Event.sleep (if c.run.state.timelapse ≠ 0 then c.run.state.timelapse
          else c.run.state.timeout)] ++ add_exif_tags w k c.run.state, [], rfl,
        hpre _ (by simp [Event.isQueueGet, Event.isSend, Event.isHandle]), ?_, ?_, ?_⟩
      · intro h; rw [hf] at h; cases h
      · intro _ id; simp
      · intro _; exact ⟨rfl, rfl⟩
    | some pool =>
      obtain ⟨ht, _, hf, _, hh⟩ := capture_frame_stdout w k c filename pool hfault hname hdash hpool
      rw [frame_events_of_trace w k c _ ht, hquiet]
      refine ⟨[Event.sleep (if c.run.state.timelapse ≠ 0 then c.run.state.timelapse
          else c.run.state.timeout)] ++ add_exif_tags w k c.run.state,
        feed_pool (w.queue_length k) (w.queue_get k) (w.send_buffer k)
          ++ [Event.capture k (w.capture k)]
          ++ (if w.capture k ≠ MMAL_SUCCESS then [Event.log_error "Failed to start capture"]
              else [Event.semaphore_wait])
          ++ [Event.set_file_handle none], by simp,
        hpre _ (by simp [Event.isQueueGet, Event.isSend, Event.isHandle]), ?_, ?_, ?_⟩
      · intro _
        refine ⟨[Event.capture k (w.capture k)]
          ++ (if w.capture k ≠ MMAL_SUCCESS then [Event.log_error "Failed to start capture"]
              else [Event.semaphore_wait]), by simp, by simp, hmid _ ?_, hh⟩
        by_cases hc : w.capture k = MMAL_SUCCESS <;> simp [hc, Event.isHandle, Event.isClose]
      · intro _ id
        by_cases hc : w.capture k = MMAL_SUCCESS <;> simp [hc]
      · intro h; rw [hf] at h; cases h
  · cases hpool : c.run.state.encoder_pool with
    | none =>
      obtain ⟨ht, hf, _⟩ :=
        capture_frame_file_no_pool w k c filename name id hfault hname hdash hfmt hopen hpool
      rw [frame_events_of_trace w k c _ ht]
      refine ⟨[Event.sleep (if c.run.state.timelapse ≠ 0 then c.run.state.timelapse
            else c.run.state.timeout)]
          ++ (if c.run.state.verbose ≠ 0 then [Event.diag "Opening output file"] else [])
          ++ [Event.fopen name k]
          ++ add_exif_tags w k c.run.state, [], rfl, hpre _ ?_, ?_, ?_, ?_⟩
      · by_cases hv : c.run.state.verbose = 0 <;>
          simp [hv, Event.isQueueGet, Event.isSend, Event.isHandle]
      · intro h; rw [hf] at h; cases h
      · intro h; cases h
      · intro _; exact ⟨rfl, rfl⟩
    | some pool =>
      obtain ⟨ht, _, hf, _, hh⟩ :=
        capture_frame_file w k c filename name id pool hfault hname hdash hfmt hopen hpool
      rw [frame_events_of_trace w k c _ ht]
      refine ⟨[Event.sleep (if c.run.state.timelapse ≠ 0 then c.run.state.timelapse
            else c.run.state.timeout)]
          ++ (if c.run.state.verbose ≠ 0 then [Event.diag "Opening output file"] else [])
          ++ [Event.fopen name k]
          ++ add_exif_tags w k c.run.state,
        feed_pool (w.queue_length k) (w.queue_get k) (w.send_buffer k)
          ++ (if c.run.state.verbose ≠ 0 then [Event.diag "Starting capture"] else [])
          ++ [Event.capture k (w.capture k)]
          ++ (if w.capture k ≠ MMAL_SUCCESS then [Event.log_error "Failed to start capture"]
              else Event.semaphore_wait ::
                (if c.run.state.verbose ≠ 0 then [Event.diag "Finished capture"] else []))
          ++ [Event.set_file_handle none, Event.fclose id], by simp, hpre _ ?_, ?_, ?_, ?_⟩
      · by_cases hv : c.run.state.verbose = 0 <;>
          simp [hv, Event.isQueueGet, Event.isSend, Event.isHandle]
      · intro _
        refine ⟨(if c.run.state.verbose ≠ 0 then [Event.diag "Starting capture"] else [])
          ++ [Event.capture k (w.capture k)]
          ++ (if w.capture k ≠ MMAL_SUCCESS then [Event.log_error "Failed to start capture"]
              else Event.semaphore_wait ::
                (if c.run.state.verbose ≠ 0 then [Event.diag "Finished capture"] else [])),
          by simp, by simp, hmid _ ?_, hh⟩
        by_cases hc : w.capture k = MMAL_SUCCESS <;>
          by_cases hv : c.run.state.verbose = 0 <;>
          simp [hc, hv, Event.isHandle, Event.isClose]
      · intro h; cases h
      · intro h; rw [hf] at h; cases h

set_option maxRecDepth 100000 in
/-- Witness of C18: a frame that opens the file `a.jpg`: the handle is written before
the drain of the pool, and the frame ends with the write of NULL and the `fclose`. -/
theorem sink_handle_discipline_witness :
    ∃ pre post, frame_events World.ok 1
        (Capture.start { RASPISTILL_STATE.sample with filename := some "a.jpg" })
        = pre ++ Event.set_file_handle (some (FILE.opened 1)) :: post
      ∧ ∃ mid, post = feed_pool (World.ok.queue_length 1) (World.ok.queue_get 1)
            (World.ok.send_buffer 1) ++ mid ++ [Event.set_file_handle none, Event.fclose 1] :=
  have ⟨pre, post, h⟩ := sink_handle_discipline World.ok 1
    (Capture.start { RASPISTILL_STATE.sample with filename := some "a.jpg" }) "a.jpg"
    (FILE.opened 1) rfl rfl (Or.inr ⟨by decide, "a.jpg", 1, by decide, by decide, rfl⟩)
  have ⟨mid, hm⟩ := h.2.2.1 (by decide)
  ⟨pre, post, h.1, mid, hm.1⟩

/-! ## The command line -/

/-- The body of the loop on an option of the table that has its parameter, if it takes
one: the switch on the id of the option. -/
theorem parse_option_of_command (cw : CmdWorld) (argv_i : String) (next : Option String)
    (state : RASPISTILL_STATE) (command_id num_parameters : Int)
    (hdash : argv_i.toList.head? = some '-')
    (hid : raspicli_get_command_id cmdline_commands ⟨argv_i.toList.drop 1⟩
      = some (command_id, num_parameters))
    (hnext : ¬ (num_parameters > 0 ∧ next = none)) :
    parse_option cw argv_i next state
      = parse_command cw command_id ⟨argv_i.toList.drop 1⟩ next state := by
  unfold parse_option
  rw [if_neg (not_not.2 hdash)]
  simp only [hid]
  rw [if_neg hnext]

/-- A command line of one option and its parameter, when the body of the loop accepts the
option and consumes the parameter: `parse_cmdline` returns 0. -/
theorem parse_cmdline_pair (cw : CmdWorld) (prog opt a : String)
    (state st : RASPISTILL_STATE) (out : List Event)
    (h : parse_option cw opt (some a) state = ⟨true, 1, st, out, false⟩) :
    parse_cmdline cw [prog, opt, a] state = ⟨0, st, out, false⟩ := by
  simp [parse_cmdline, parse_loop, h]

/-- A command line whose first option the body of the loop rejects: `parse_cmdline`
prints the error and returns 1. -/
theorem parse_cmdline_invalid (cw : CmdWorld) (prog opt : String) (rest : List String)
    (state st : RASPISTILL_STATE) (out : List Event) (skip : Nat)
    (h : parse_option cw opt rest.head? state = ⟨false, skip, st, out, false⟩) :
    parse_cmdline cw (prog :: opt :: rest) state
      = ⟨1, st, out ++ [Event.diag "Invalid command line option"], false⟩ := by
  simp [parse_cmdline, parse_loop, h]

/-- The branch `CommandQuality` of the switch, on a parameter that `sscanf` converts. -/
theorem parse_command_quality (cw : CmdWorld) (arg a : String) (q : Nat)
    (state : RASPISTILL_STATE) (hscan : cw.sscanf_u a = some q) :
    parse_command cw CommandQuality arg (some a) state =
      ⟨true, 1,
        { state with quality := if int_of_unsigned q > 100 then 100 else int_of_unsigned q },
        if int_of_unsigned q > 100 then [Event.diag "Setting max quality = 100"] else [],
        false⟩ := by
  unfold parse_command
  rw [if_neg (by decide), if_neg (by decide), if_neg (by decide), if_neg (by decide),
    if_neg (by decide)]
  simp only [hscan]
  rw [if_neg (by decide), if_neg (by decide), if_pos trivial]
  split_ifs <;> rfl

/-- C16 (the code on every parameter that converts): on the command line of the option
`-q` or `--quality` and a parameter that `sscanf` converts with `%u` to the unsigned
32-bit value `q`, `parse_cmdline` returns 0 and stores `q`, read back as a signed `int`
and then compared with 100.  For `q < 2 ^ 31` the stored quality is `min q 100`; for
`2 ^ 31 ≤ q` the `int` is the negative number `q - 2 ^ 32`, the test `quality > 100`
fails, and the stored quality is negative: it is neither `min q 100` nor within
0..100. -/
theorem quality_option_stored_value (cw : CmdWorld) (prog opt a : String) (q : Nat)
    (state : RASPISTILL_STATE)
    (hopt : opt = "-q" ∨ opt = "--quality")
    (hscan : cw.sscanf_u a = some q) (hq : q < 2 ^ 32) :
    parse_cmdline cw [prog, opt, a] state =
        ⟨0, { state with
              quality := if int_of_unsigned q > 100 then 100 else int_of_unsigned q },
          if int_of_unsigned q > 100 then [Event.diag "Setting max quality = 100"] else [],
          false⟩
      ∧ (q < 2 ^ 31 →
          (parse_cmdline cw [prog, opt, a] state).state.quality = min (q : Int) 100)
      ∧ (2 ^ 31 ≤ q →
          (parse_cmdline cw [prog, opt, a] state).state.quality = (q : Int) - 2 ^ 32
            ∧ (parse_cmdline cw [prog, opt, a] state).state.quality < 0
            ∧ (parse_cmdline cw [prog, opt, a] state).state.quality ≠ min (q : Int) 100) := by
  have hpo : parse_option cw opt (some a) state =
      ⟨true, 1,
        { state with quality := if int_of_unsigned q > 100 then 100 else int_of_unsigned q },
        if int_of_unsigned q > 100 then [Event.diag "Setting max quality = 100"] else [],
        false⟩ := by
    rcases hopt with rfl | rfl
    · rw [parse_option_of_command cw _ (some a) state CommandQuality 1 (by decide) (by decide)
        (by simp)]
      exact parse_command_quality cw _ a q state hscan
    · rw [parse_option_of_command cw _ (some a) state CommandQuality 1 (by decide) (by decide)
        (by simp)]
      exact parse_command_quality cw _ a q state hscan
  have hc := parse_cmdline_pair cw prog opt a state _ _ hpo
  have hquality : (parse_cmdline cw [prog, opt, a] state).state.quality
      = if int_of_unsigned q > 100 then 100 else int_of_unsigned q := by rw [hc]
  refine ⟨hc, fun h => ?_, fun h => ?_⟩
  · have hv : int_of_unsigned q = (q : Int) := by
      unfold int_of_unsigned
      rw [Nat.mod_eq_of_lt hq, if_pos h]
    rw [hquality, hv, min_def]
    split_ifs <;> omega
  · have hv : int_of_unsigned q = (q : Int) - 2 ^ 32 := by
      unfold int_of_unsigned
      rw [Nat.mod_eq_of_lt hq, if_neg (by omega)]
    rw [hquality, hv, min_def]
    have h1 : ((2 : Nat) ^ 31 : Int) ≤ (q : Int) := by exact_mod_cast h
    have h2 : (q : Int) < ((2 : Nat) ^ 32 : Int) := by exact_mod_cast hq
    norm_num at h1 h2
    norm_num
    split_ifs <;> refine ⟨?_, ?_, ?_⟩ <;> omega

set_option maxRecDepth 100000 in
/-- Witness of C16, the failing input: `-q 4294967295` is accepted, and the stored
quality is -1. -/
theorem quality_option_stored_value_witness :
    (parse_cmdline CmdWorld.sample ["raspistill", "-q", "4294967295"]
        RASPISTILL_STATE.default).status = 0
      ∧ (parse_cmdline CmdWorld.sample ["raspistill", "-q", "4294967295"]
        RASPISTILL_STATE.default).state.quality = -1 :=
  have h := quality_option_stored_value CmdWorld.sample "raspistill" "-q" "4294967295"
    4294967295 RASPISTILL_STATE.default (Or.inl rfl) (by decide) (by decide)
  ⟨congrArg Cmdline.status h.1, (h.2.2 (by decide)).1.trans (by decide)⟩

/-- The branch `CommandThumbnail` of the switch: the values that `sscanf` converts are
stored, the result of `sscanf` is not looked at. -/
theorem parse_command_thumbnail (cw : CmdWorld) (arg a : String) (state : RASPISTILL_STATE) :
    parse_command cw CommandThumbnail arg (some a) state =
      ⟨true, 1,
        { state with thumbnailConfig :=
          ⟨state.thumbnailConfig.enable,
            (cw.sscanf_d3 a).getD 0 state.thumbnailConfig.width,
            (cw.sscanf_d3 a).getD 1 state.thumbnailConfig.height,
            (cw.sscanf_d3 a).getD 2 state.thumbnailConfig.quality⟩ }, [], false⟩ := by
  unfold parse_command
  rw [if_neg (by decide), if_neg (by decide), if_neg (by decide), if_neg (by decide),
    if_neg (by decide)]
  simp only []
  rw [if_neg (by decide), if_neg (by decide), if_neg (by decide), if_neg (by decide),
    if_neg (by decide), if_pos (by decide)]

/-- The branch `CommandDemoMode` of the switch on a parameter that does not begin with
`-` and that `sscanf` does not convert: `valid = 0`. -/
theorem parse_command_demo_invalid (cw : CmdWorld) (arg a : String)
    (state : RASPISTILL_STATE) (hdash : a.toList.head? ≠ some '-')
    (hscan : cw.sscanf_u a = none) :
    parse_command cw CommandDemoMode arg (some a) state = ⟨false, 0, state, [], false⟩ := by
  unfold parse_command
  rw [if_neg (by decide), if_neg (by decide), if_neg (by decide), if_pos (by decide)]
  simp only [hscan]
  rw [if_pos hdash]

/-- C19 (amended): on the command line of the option `-th` or `--thumb` and any parameter,
`parse_cmdline` returns 0 and stores in the width, height and quality of the thumbnail
the values that `sscanf` converted with `%d:%d:%d`, the first one, two or three, the
other fields keeping their values; the state is left as it was when no value is
converted.  On a command line whose first option is `-d` or `--demo` followed by a
parameter that does not begin with `-` and that `sscanf` does not convert with `%u`,
`parse_cmdline` prints an error and returns 1, the state, `demoInterval` and `demoMode`
included, is left as it was, and `main` exits with status 0 without making a call. -/
theorem malformed_thumbnail_and_demo_arguments (cw : CmdWorld) (w : World)
    (prog opt a : String) (state : RASPISTILL_STATE) :
    ((opt = "-th" ∨ opt = "--thumb") →
        parse_cmdline cw [prog, opt, a] state =
            ⟨0, { state with thumbnailConfig :=
              ⟨state.thumbnailConfig.enable,
                (cw.sscanf_d3 a).getD 0 state.thumbnailConfig.width,
                (cw.sscanf_d3 a).getD 1 state.thumbnailConfig.height,
                (cw.sscanf_d3 a).getD 2 state.thumbnailConfig.quality⟩ }, [], false⟩
          ∧ (cw.sscanf_d3 a = [] → parse_cmdline cw [prog, opt, a] state = ⟨0, state, [], false⟩))
      ∧ ((opt = "-d" ∨ opt = "--demo") → a.toList.head? ≠ some '-' → cw.sscanf_u a = none →
          ∀ rest : List String,
            parse_cmdline cw (prog :: opt :: a :: rest) state =
                ⟨1, state, [Event.diag "Invalid command line option"], false⟩
              ∧ main w (3 + rest.length)
                  ((parse_cmdline cw (prog :: opt :: a :: rest) state).status,
                    (parse_cmdline cw (prog :: opt :: a :: rest) state).state)
                = ⟨some 0, ⟨state, [], [], false⟩⟩) := by
  refine ⟨fun hopt => ?_, fun hopt hdash hscan rest => ?_⟩
  · have hpo : parse_option cw opt (some a) state =
        ⟨true, 1,
          { state with thumbnailConfig :=
            ⟨state.thumbnailConfig.enable,
              (cw.sscanf_d3 a).getD 0 state.thumbnailConfig.width,
              (cw.sscanf_d3 a).getD 1 state.thumbnailConfig.height,
              (cw.sscanf_d3 a).getD 2 state.thumbnailConfig.quality⟩ }, [], false⟩ := by
      rcases hopt with rfl | rfl
      · rw [parse_option_of_command cw _ (some a) state CommandThumbnail 1 (by decide)
          (by decide) (by simp)]
        exact parse_command_thumbnail cw _ a state
      · rw [parse_option_of_command cw _ (some a) state CommandThumbnail 1 (by decide)
          (by decide) (by simp)]
        exact parse_command_thumbnail cw _ a state
    have hc := parse_cmdline_pair cw prog opt a state _ _ hpo
    refine ⟨hc, fun hnil => ?_⟩
    rw [hc, hnil]
    rfl
  · have hpo : parse_option cw opt (a :: rest).head? state = ⟨false, 0, state, [], false⟩ := by
      rcases hopt with rfl | rfl
      · rw [parse_option_of_command cw _ _ state CommandDemoMode 0 (by decide) (by decide)
          (by simp)]
        exact parse_command_demo_invalid cw _ a state hdash hscan
      · rw [parse_option_of_command cw _ _ state CommandDemoMode 0 (by decide) (by decide)
          (by simp)]
        exact parse_command_demo_invalid cw _ a state hdash hscan
    have hc := parse_cmdline_invalid cw prog opt (a :: rest) state _ _ _ hpo
    refine ⟨by simpa using hc, ?_⟩
    rw [hc]
    have hargc : ¬ ((3 : Int) + (rest.length : Int) = 1) := by omega
    simp [main, hargc]

set_option maxRecDepth 100000 in
/-- Witness of C19 (amended): `-d abc` is rejected, the state is left as it was. -/
theorem malformed_thumbnail_and_demo_arguments_witness :
    parse_cmdline CmdWorld.sample ["raspistill", "-d", "abc"] RASPISTILL_STATE.default
      = ⟨1, RASPISTILL_STATE.default, [Event.diag "Invalid command line option"], false⟩ :=
  ((malformed_thumbnail_and_demo_arguments CmdWorld.sample World.ok "raspistill" "-d" "abc"
    RASPISTILL_STATE.default).2 (Or.inl rfl) (by decide) (by decide) []).1

set_option maxRecDepth 100000 in
/-- C19 (counterexample): the parameter `10:20` of `-th` is not of the form
`x:y:quality`, and the width and the height of the thumbnail do not keep their default
values 64 and 48; the parameter `abc` of `-d` is not a number and does not begin with
`-`, and `parse_cmdline` returns 1, on which `main` exits without a capture. -/
theorem malformed_arguments_not_tolerated :
    (parse_cmdline CmdWorld.sample ["raspistill", "-th", "10:20"]
        RASPISTILL_STATE.default).state.thumbnailConfig = ⟨1, 10, 20, 35⟩
      ∧ RASPISTILL_STATE.default.thumbnailConfig = ⟨1, 64, 48, 35⟩
      ∧ (parse_cmdline CmdWorld.sample ["raspistill", "-d", "abc"]
          RASPISTILL_STATE.default).status = 1
      ∧ main World.ok 3
          ((parse_cmdline CmdWorld.sample ["raspistill", "-d", "abc"]
              RASPISTILL_STATE.default).status,
            (parse_cmdline CmdWorld.sample ["raspistill", "-d", "abc"]
              RASPISTILL_STATE.default).state)
        = ⟨some 0, ⟨RASPISTILL_STATE.default, [], [], false⟩⟩ := by
  decide

/-! ## The store of user tags -/

/-- A call of `store_exif_tag` with `k < 32` tags stored writes entry `k`. -/
theorem store_exif_tag_lt (s : RASPISTILL_STATE) (t : Option String) (k : Nat)
    (hk : s.numExifTags = (k : Int)) (hlt : k < MAX_USER_EXIF_TAGS) :
    store_exif_tag s t =
      ({ s with exifTags := s.exifTags.set k t, numExifTags := ((k + 1 : Nat) : Int) },
        some (k : Int)) := by
  have h1 : s.numExifTags < (MAX_USER_EXIF_TAGS : Int) := by rw [hk]; exact_mod_cast hlt
  have h2 : (0 : Int) ≤ s.numExifTags := by rw [hk]; exact Int.natCast_nonneg k
  unfold store_exif_tag
  rw [if_pos h1, if_pos h2, hk]
  simp

/-- A call of `store_exif_tag` with 32 tags stored, or more, does nothing. -/
theorem store_exif_tag_full (s : RASPISTILL_STATE) (t : Option String)
    (h : (MAX_USER_EXIF_TAGS : Int) ≤ s.numExifTags) : store_exif_tag s t = (s, none) := by
  unfold store_exif_tag
  rw [if_neg (by omega)]

/-- The state after a sequence of calls of `store_exif_tag`, from a state with `k ≤ 32`
tags stored. -/
theorem store_exif_tags_closed (tags : List String) :
    ∀ (s : RASPISTILL_STATE) (k : Nat), s.numExifTags = (k : Int) → k ≤ MAX_USER_EXIF_TAGS →
      s.exifTags.length = MAX_USER_EXIF_TAGS →
      store_exif_tags s tags =
        { s with
          exifTags := s.exifTags.take k ++ (tags.take (MAX_USER_EXIF_TAGS - k)).map some
            ++ s.exifTags.drop (min (k + tags.length) MAX_USER_EXIF_TAGS)
          numExifTags := ((min (k + tags.length) MAX_USER_EXIF_TAGS : Nat) : Int) } := by
  induction tags with
  | nil =>
    intro s k hk hle hlen
    have hmin : min (k + 0) MAX_USER_EXIF_TAGS = k := by simp; exact hle
    simp only [store_exif_tags, List.foldl_nil, List.take_nil, List.map_nil, List.append_nil,
      List.length_nil, hmin, List.take_append_drop, ← hk]
  | cons t ts ih =>
    intro s k hk hle hlen
    have hstep : store_exif_tags s (t :: ts) = store_exif_tags (store_exif_tag s (some t)).1 ts :=
      rfl
    rw [hstep]
    rcases Nat.lt_or_ge k MAX_USER_EXIF_TAGS with hlt | hge
    · rw [store_exif_tag_lt s (some t) k hk hlt]
      have hklen : k < s.exifTags.length := by rw [hlen]; exact hlt
      rw [ih _ (k + 1) rfl hlt (by simp [hlen])]
      have hmin : min (k + 1 + ts.length) MAX_USER_EXIF_TAGS
          = min (k + (t :: ts).length) MAX_USER_EXIF_TAGS := by
        simp only [List.length_cons]; congr 1; omega
      have htake : (s.exifTags.set k (some t)).take (k + 1) = s.exifTags.take k ++ [some t] := by
        rw [List.set_eq_take_append_cons_drop, if_pos hklen]
        have : s.exifTags.take k ++ some t :: s.exifTags.drop (k + 1)
            = (s.exifTags.take k ++ [some t]) ++ s.exifTags.drop (k + 1) := by simp
        rw [this, List.take_left']
        simp; omega
      have hdrop : ∀ m, k + 1 ≤ m → (s.exifTags.set k (some t)).drop m = s.exifTags.drop m := by
        intro m hm
        rw [List.set_eq_take_append_cons_drop, if_pos hklen]
        have : s.exifTags.take k ++ some t :: s.exifTags.drop (k + 1)
            = (s.exifTags.take k ++ [some t]) ++ s.exifTags.drop (k + 1) := by simp
        have hl : (s.exifTags.take k ++ [some t]).length = k + 1 := by simp; omega
        obtain ⟨d, rfl⟩ := Nat.exists_eq_add_of_le hm
        rw [this, ← hl, List.drop_append, List.drop_drop, hl]
      have htags : (t :: ts).take (MAX_USER_EXIF_TAGS - k)
          = t :: ts.take (MAX_USER_EXIF_TAGS - (k + 1)) := by
        obtain ⟨d, hd⟩ : ∃ d, MAX_USER_EXIF_TAGS - k = d + 1 := ⟨MAX_USER_EXIF_TAGS - k - 1, by omega⟩
        have hd2 : MAX_USER_EXIF_TAGS - (k + 1) = d := by omega
        rw [hd, hd2, List.take_succ_cons]
      have hm1 : k + 1 ≤ min (k + (t :: ts).length) MAX_USER_EXIF_TAGS := by
        simp only [List.length_cons]; omega
      simp only [htake, hmin, hdrop _ hm1, htags, List.map_cons, List.append_assoc,
        List.singleton_append]
    · have hk32 : k = MAX_USER_EXIF_TAGS := Nat.le_antisymm hle hge
      rw [store_exif_tag_full s (some t) (by rw [hk]; exact_mod_cast hge), ih s k hk hle hlen]
      subst hk32
      have h1 : min (MAX_USER_EXIF_TAGS + ts.length) MAX_USER_EXIF_TAGS = MAX_USER_EXIF_TAGS := by
        simp
      have h2 : min (MAX_USER_EXIF_TAGS + (t :: ts).length) MAX_USER_EXIF_TAGS
          = MAX_USER_EXIF_TAGS := by simp
      simp only [h1, h2, Nat.sub_self, List.take_zero]

/-- C20: from the state that `default_status` leaves, with an array `exifTags` of 32
entries, after the calls of `store_exif_tag` on the tags of `tags` in order,
`numExifTags` is `min n 32` for `n` the number of calls, the first `min n 32` entries of
`exifTags` are the first `min n 32` tags in the order supplied, the other entries and the
other fields are as they were, and the array still has 32 entries; one more call writes
entry `n` when `n < 32`, and when `32 ≤ n` it writes no entry and leaves the state as it
is.  As this holds after every sequence of calls, no call writes an entry outside
0..31. -/
theorem store_exif_tag_bounded_ordered (state : RASPISTILL_STATE)
    (preview_defaults : RASPIPREVIEW_PARAMETERS) (tags : List String)
    (hlen : state.exifTags.length = MAX_USER_EXIF_TAGS) :
    store_exif_tags (default_status state preview_defaults) tags =
        { default_status state preview_defaults with
          exifTags := (tags.take 32).map some ++ state.exifTags.drop (min tags.length 32)
          numExifTags := ((min tags.length 32 : Nat) : Int) }
      ∧ (store_exif_tags (default_status state preview_defaults) tags).numExifTags
          = ((min tags.length 32 : Nat) : Int)
      ∧ (store_exif_tags (default_status state preview_defaults) tags).exifTags.take
            (min tags.length 32) = (tags.take 32).map some
      ∧ (store_exif_tags (default_status state preview_defaults) tags).exifTags.length = 32
      ∧ (∀ t, (store_exif_tag (store_exif_tags (default_status state preview_defaults) tags)
            t).2 = if tags.length < 32 then some (tags.length : Int) else none)
      ∧ (∀ t, 32 ≤ tags.length →
          store_exif_tag (store_exif_tags (default_status state preview_defaults) tags) t
            = (store_exif_tags (default_status state preview_defaults) tags, none)) := by
  have hc : store_exif_tags (default_status state preview_defaults) tags =
      { default_status state preview_defaults with
        exifTags := (tags.take 32).map some ++ state.exifTags.drop (min tags.length 32)
        numExifTags := ((min tags.length 32 : Nat) : Int) } := by
    rw [store_exif_tags_closed tags (default_status state preview_defaults) 0 rfl
      (Nat.zero_le _) hlen]
    simp [default_status, MAX_USER_EXIF_TAGS]
  have hnum : (store_exif_tags (default_status state preview_defaults) tags).numExifTags
      = ((min tags.length 32 : Nat) : Int) := by rw [hc]
  have hA : ((tags.take 32).map some).length = min tags.length 32 := by
    simp [Nat.min_comm]
  have hlen32 : state.exifTags.length = 32 := hlen
  refine ⟨hc, hnum, ?_, ?_, fun t => ?_, fun t h => ?_⟩
  · rw [hc]
    exact List.take_left' hA
  · rw [hc]
    show ((tags.take 32).map some ++ state.exifTags.drop (min tags.length 32)).length = 32
    rw [List.length_append, hA, List.length_drop, hlen32]
    omega
  · by_cases hn : tags.length < 32
    · have hk : (store_exif_tags (default_status state preview_defaults) tags).numExifTags
          = (tags.length : Int) := by rw [hnum, Nat.min_eq_left (Nat.le_of_lt hn)]
      rw [store_exif_tag_lt _ t tags.length hk hn, if_pos hn]
    · have hk : (MAX_USER_EXIF_TAGS : Int)
          ≤ (store_exif_tags (default_status state preview_defaults) tags).numExifTags := by
        rw [hnum, Nat.min_eq_right (Nat.le_of_not_lt hn)]; rfl
      rw [store_exif_tag_full _ t hk, if_neg hn]
  · have hk : (MAX_USER_EXIF_TAGS : Int)
        ≤ (store_exif_tags (default_status state preview_defaults) tags).numExifTags := by
      rw [hnum, Nat.min_eq_right h]; rfl
    exact store_exif_tag_full _ t hk

set_option maxRecDepth 100000 in
/-- Witness of C20: after 33 calls, 32 tags are stored, and one more call writes no
entry. -/
theorem store_exif_tag_bounded_ordered_witness :
    (store_exif_tags (default_status RASPISTILL_STATE.sample ⟨1, false⟩)
        (List.replicate 33 "A=1")).numExifTags = 32
      ∧ (store_exif_tag (store_exif_tags (default_status RASPISTILL_STATE.sample ⟨1, false⟩)
          (List.replicate 33 "A=1")) (some "B=2")).2 = none :=
  have h := store_exif_tag_bounded_ordered RASPISTILL_STATE.sample ⟨1, false⟩
    (List.replicate 33 "A=1") (by decide)
  ⟨h.2.1.trans (by decide), (h.2.2.2.2.1 (some "B=2")).trans (by decide)⟩

/-! ## Demo mode -/

/-- The calls of the demo loop: one cycle of the camera parameters and one sleep of the
interval for each iteration. -/
theorem demo_loop_trace (num_iterations : Int) (m : Nat) (i : Int) (r : Run)
    (hm : (num_iterations - i).toNat = m) :
    (demo_loop num_iterations i r).trace = r.trace ++
      (List.replicate m [Event.cycle_test, Event.sleep r.state.demoInterval]).flatten := by
  induction m generalizing i r with
  | zero =>
    rw [demo_loop, if_neg (by omega)]
    simp
  | succ m ih =>
    rw [demo_loop, if_pos (by omega), ih (i + 1) _ (by omega)]
    simp [List.replicate_succ]

/-- The branch `CommandDemoMode` of the switch on a parameter that does not begin with
`-` and that `sscanf` converts: the interval is stored and demo mode is set. -/
theorem parse_command_demo_interval (cw : CmdWorld) (arg a : String) (v : Nat)
    (state : RASPISTILL_STATE) (hdash : a.toList.head? ≠ some '-')
    (hscan : cw.sscanf_u a = some v) :
    parse_command cw CommandDemoMode arg (some a) state =
      ⟨true, 1, { state with demoInterval := int_of_unsigned v, demoMode := 1 }, [], false⟩ := by
  unfold parse_command
  rw [if_neg (by decide), if_neg (by decide), if_neg (by decide), if_pos (by decide)]
  simp only [hscan]
  rw [if_pos hdash]

set_option maxRecDepth 100000 in
/-- C21: the number of iterations of the capture loop is guarded: with `timelapse` 0 it is
1, whatever the timeout, and nothing is divided.  The number of iterations of the demo
loop is not: on the command line of the option `-d` or `--demo` and a parameter that
`sscanf` converts to 0, `parse_cmdline` returns 0 and leaves `demoMode = 1` and
`demoInterval = 0`; with a zero interval the division `timeout / demoInterval` has no
result and the demo branch faults without making a call; and `main`, run in a world
where every call succeeds on the state that `parse_cmdline` leaves for `-d 0`, reaches
this division after the enabling of the encoder output port and faults.  For an interval `T > 0` and a timeout `D ≥ 0` the number `n` of
iterations is the floor of `D / T` (`n * T ≤ D < (n + 1) * T`), the calls of the demo
branch are `n` times a cycle of the camera parameters followed by a sleep of `T`, none of
them opens a file or triggers a capture, and the branch does not fault. -/
theorem demo_iteration_count (cw : CmdWorld) (prog opt a : String)
    (state : RASPISTILL_STATE) (r : Run) :
    (state.timelapse = 0 → capture_iterations state = some 1)
      ∧ ((opt = "-d" ∨ opt = "--demo") → a.toList.head? ≠ some '-' →
          cw.sscanf_u a = some 0 →
          parse_cmdline cw [prog, opt, a] state
            = ⟨0, { state with demoInterval := 0, demoMode := 1 }, [], false⟩)
      ∧ (r.state.demoInterval = 0 →
          int_div r.state.timeout r.state.demoInterval = none
            ∧ (demo_mode r).faulted = true
            ∧ (demo_mode r).trace = r.trace)
      ∧ ((parse_cmdline CmdWorld.sample ["raspistill", "-d", "0"]
              RASPISTILL_STATE.default).status = 0
          ∧ (main World.ok 3
              ((parse_cmdline CmdWorld.sample ["raspistill", "-d", "0"]
                  RASPISTILL_STATE.default).status,
                (parse_cmdline CmdWorld.sample ["raspistill", "-d", "0"]
                  RASPISTILL_STATE.default).state)).exit_status = none
          ∧ (main World.ok 3
              ((parse_cmdline CmdWorld.sample ["raspistill", "-d", "0"]
                  RASPISTILL_STATE.default).status,
                (parse_cmdline CmdWorld.sample ["raspistill", "-d", "0"]
                  RASPISTILL_STATE.default).state)).run.faulted = true
          ∧ (main World.ok 3
              ((parse_cmdline CmdWorld.sample ["raspistill", "-d", "0"]
                  RASPISTILL_STATE.default).status,
                (parse_cmdline CmdWorld.sample ["raspistill", "-d", "0"]
                  RASPISTILL_STATE.default).state)).run.trace.getLast?
            = some (Event.port_enable Port.encoder_output_port))
      ∧ (0 < r.state.demoInterval → 0 ≤ r.state.timeout →
          ((r.state.timeout / r.state.demoInterval).toNat : Int) * r.state.demoInterval
              ≤ r.state.timeout
            ∧ r.state.timeout
              < (((r.state.timeout / r.state.demoInterval).toNat : Int) + 1)
                  * r.state.demoInterval
            ∧ int_div r.state.timeout r.state.demoInterval
              = some ((r.state.timeout / r.state.demoInterval).toNat : Int)
            ∧ (demo_mode r).trace = r.trace ++
                (List.replicate (r.state.timeout / r.state.demoInterval).toNat
                  [Event.cycle_test, Event.sleep r.state.demoInterval]).flatten
            ∧ ((demo_mode r).trace.drop r.trace.length).count Event.cycle_test
              = (r.state.timeout / r.state.demoInterval).toNat
            ∧ (∀ e ∈ (demo_mode r).trace.drop r.trace.length,
                e.isOpen = false ∧ e.isCapture = false)
            ∧ (demo_mode r).faulted = r.faulted
            ∧ (demo_mode r).state = r.state) := by
  refine ⟨fun h => ?_, fun hopt hdash hscan => ?_, fun h0 => ?_, by decide,
    fun hT hD => ?_⟩
  · simp [capture_iterations, h]
  · have hpo : parse_option cw opt (some a) state =
        ⟨true, 1, { state with demoInterval := 0, demoMode := 1 }, [], false⟩ := by
      rcases hopt with rfl | rfl
      · rw [parse_option_of_command cw _ (some a) state CommandDemoMode 0 (by decide)
          (by decide) (by simp)]
        exact parse_command_demo_interval cw _ a 0 state hdash hscan
      · rw [parse_option_of_command cw _ (some a) state CommandDemoMode 0 (by decide)
          (by decide) (by simp)]
        exact parse_command_demo_interval cw _ a 0 state hdash hscan
    exact parse_cmdline_pair cw prog opt a state _ _ hpo
  · have hd : int_div r.state.timeout r.state.demoInterval = none := by
      simp [int_div, h0]
    refine ⟨hd, ?_, ?_⟩ <;> simp [demo_mode, hd]
  · have hq0 : 0 ≤ r.state.timeout / r.state.demoInterval := Int.ediv_nonneg hD (le_of_lt hT)
    have hcast : ((r.state.timeout / r.state.demoInterval).toNat : Int)
        = r.state.timeout / r.state.demoInterval := Int.toNat_of_nonneg hq0
    have hdiv : int_div r.state.timeout r.state.demoInterval
        = some ((r.state.timeout / r.state.demoInterval).toNat : Int) := by
      have hne : ¬ (r.state.demoInterval = 0
          ∨ r.state.timeout = INT_MIN ∧ r.state.demoInterval = -1) := by
        rintro (h | ⟨_, h⟩) <;> omega
      rw [hcast]
      simp only [int_div, hne, if_false]
      rw [Int.tdiv_eq_ediv hD (le_of_lt hT)]
    have hmode : demo_mode r
        = demo_loop ((r.state.timeout / r.state.demoInterval).toNat : Int) 0 r := by
      simp only [demo_mode, hdiv]
    have htrace := demo_loop_trace ((r.state.timeout / r.state.demoInterval).toNat : Int)
      (r.state.timeout / r.state.demoInterval).toNat 0 r (by omega)
    have hst := demo_loop_state ((r.state.timeout / r.state.demoInterval).toNat : Int)
      (r.state.timeout / r.state.demoInterval).toNat 0 r (by omega)
    have hcount : ∀ n : Nat, ((List.replicate n
        [Event.cycle_test, Event.sleep r.state.demoInterval]).flatten).count Event.cycle_test
        = n := by
      intro n
      induction n with
      | zero => simp
      | succ n ih => simp [List.replicate_succ, ih]
    have hclass : ∀ n : Nat, ∀ e ∈ (List.replicate n
        [Event.cycle_test, Event.sleep r.state.demoInterval]).flatten,
        e.isOpen = false ∧ e.isCapture = false := by
      intro n e he
      simp only [List.mem_flatten, List.mem_replicate] at he
      obtain ⟨l, ⟨_, rfl⟩, hl⟩ := he
      simp at hl
      rcases hl with rfl | rfl <;> simp [Event.isOpen, Event.isCapture]
    refine ⟨?_, ?_, hdiv, ?_, ?_, ?_, ?_, ?_⟩
    · rw [hcast]; exact Int.ediv_mul_le _ (ne_of_gt hT)
    · rw [hcast]; exact Int.lt_ediv_add_one_mul_self _ hT
    · rw [hmode, htrace]
    · rw [hmode, htrace, List.drop_left]; exact hcount _
    · rw [hmode, htrace, List.drop_left]; exact hclass _
    · rw [hmode]; exact hst.2
    · rw [hmode]; exact hst.1

set_option maxRecDepth 100000 in
/-- Witness of C21: `-d 0` is accepted and leaves a zero interval; with a timeout of 1000
and an interval of 250 the demo branch makes four cycles. -/
theorem demo_iteration_count_witness :
    parse_cmdline CmdWorld.sample ["raspistill", "-d", "0"] RASPISTILL_STATE.default
        = ⟨0, { RASPISTILL_STATE.default with demoInterval := 0, demoMode := 1 }, [], false⟩
      ∧ (demo_mode ⟨{ RASPISTILL_STATE.running with demoMode := 1, demoInterval := 0 }, [], [],
          false⟩).faulted = true
      ∧ (demo_mode ⟨{ RASPISTILL_STATE.running with demoMode := 1, timeout := 1000 }, [], [],
          false⟩).trace
        = [Event.cycle_test, Event.sleep 250, Event.cycle_test, Event.sleep 250,
           Event.cycle_test, Event.sleep 250, Event.cycle_test, Event.sleep 250] :=
  ⟨(demo_iteration_count CmdWorld.sample "raspistill" "-d" "0" RASPISTILL_STATE.default
      Run.running).2.1 (Or.inl rfl) (by decide) (by decide),
    ((demo_iteration_count CmdWorld.sample "raspistill" "-d" "0" RASPISTILL_STATE.default
      ⟨{ RASPISTILL_STATE.running with demoMode := 1, demoInterval := 0 }, [], [], false⟩).2.2.1
      rfl).2.1,
    ((demo_iteration_count CmdWorld.sample "raspistill" "-d" "0" RASPISTILL_STATE.default
      ⟨{ RASPISTILL_STATE.running with demoMode := 1, timeout := 1000 }, [], [], false⟩).2.2.2.2
      (by decide) (by decide)).2.2.2.1.trans (by decide)⟩

end RaspiStill
